import Mathlib

/-!
Library management backend: the subscription and payment flow.

A shallow embedding of `api/controllers/subscription_controller.go` and the
model types it uses (`api/models/*.go`).

* Go `string` is `String`; `len(s)` is `String.utf8ByteSize`.
* Go `type T int` enumerations are `Int` with the named constants.
* The MongoDB collections are lists of documents in insertion order; a
  handler takes the store and returns the store it leaves behind.
* Calls to the payment provider and failures of the database driver are
  inputs of the handlers (an environment record); the provider calls a handler
  makes are returned as a log.
-/

namespace LibraryManagement

/-! ## `go.mongodb.org/mongo-driver/bson/primitive` -/

namespace primitive

/-- An `ObjectID` is the driver's `type ObjectID [12]byte`. -/
abbrev ObjectID := { bs : List (Fin 256) // bs.length = 12 }

/-- The lower-case hexadecimal digit of a value below 16 (`encoding/hex`,
table `0123456789abcdef`). -/
def hexDigit (n : Nat) : Char :=
  if n < 10 then Char.ofNat (48 + n) else Char.ofNat (87 + n)

/-- The function `hex.EncodeToString` on a byte list: two lower-case digits
per byte, high nibble first. -/
def hexEncode : List (Fin 256) → List Char
  | [] => []
  | b :: bs => hexDigit (b.val / 16) :: hexDigit (b.val % 16) :: hexEncode bs

/-- The method `ObjectID.Hex`: the 24-character hex encoding of the id. -/
def Hex (id : ObjectID) : String := String.mk (hexEncode id.val)

/-- The method `ObjectID.String`, in the driver
`fmt.Sprintf("ObjectID(%q)", id.Hex())`: the hex form wrapped in
`ObjectID("` and `")` (a hex string needs no escaping under `%q`). -/
def ObjectID.String (id : ObjectID) : String :=
  "ObjectID(\"" ++ Hex id ++ "\")"

/-- The call `fmt.Sprintf("%v", v)` for a value `v` holding an `ObjectID`:
the type implements `fmt.Stringer`, so the verb prints `v.String()`. -/
def Sprintf_v (id : ObjectID) : String := ObjectID.String id

/-- The value of one hex digit (`encoding/hex` accepts both letter cases). -/
def fromHexChar (c : Char) : Option Nat :=
  if 48 ≤ c.toNat ∧ c.toNat ≤ 57 then some (c.toNat - 48)
  else if 97 ≤ c.toNat ∧ c.toNat ≤ 102 then some (c.toNat - 97 + 10)
  else if 65 ≤ c.toNat ∧ c.toNat ≤ 70 then some (c.toNat - 65 + 10)
  else none

/-- The function `hex.DecodeString` on the characters of a string: `none` on
an odd number of digits or a character that is not a hex digit. -/
def hexDecode : List Char → Option (List (Fin 256))
  | [] => some []
  | [_] => none
  | a :: b :: rest =>
    match fromHexChar a, fromHexChar b, hexDecode rest with
    | some hi, some lo, some tl => some (Fin.ofNat (hi * 16 + lo) :: tl)
    | _, _, _ => none

/-- The function `primitive.ObjectIDFromHex`: `ErrInvalidHex` (here `none`)
unless `len(s) == 24`, then the hex decoding of `s`, which must give the
twelve bytes of the id. -/
def ObjectIDFromHex (s : String) : Option ObjectID :=
  if s.utf8ByteSize ≠ 24 then none
  else
    match hexDecode s.data with
    | none => none
    | some bs => if h : bs.length = 12 then some ⟨bs, h⟩ else none

end primitive

/-! ## `api/models` -/

namespace models

/-- A `time.Time` value, as a timestamp. -/
abbrev Time := Nat

/-- Go `type SubscriptionType int`. -/
abbrev SubscriptionType := Int

def NoRecurring : SubscriptionType := 0
def Monthly : SubscriptionType := 1
def Quarterly : SubscriptionType := 2
def Yearly : SubscriptionType := 3

/-- The plan document `models.Subscription`. A `float64` price is represented
by the rational number it denotes. -/
structure Subscription where
  ID : primitive.ObjectID
  Title : String
  Description : String
  Type_ : SubscriptionType
  Price : Rat
  ProductID : String
  PriceID : String
  CreatedAt : Time
  UpdatedAt : Time
deriving DecidableEq

/-- The request struct `models.SubscriptionCreateRequest`; every field carries
the tag `binding:"required"`. -/
structure SubscriptionCreateRequest where
  Title : String
  Description : String
  Type_ : SubscriptionType
  Price : Rat
deriving DecidableEq

/-- The request struct `models.SubscriptionUpdateRequest`; no field carries a
binding tag. -/
structure SubscriptionUpdateRequest where
  Title : String
  Description : String
  Type_ : SubscriptionType
  Price : Rat
deriving DecidableEq

/-- Go `type SubscriptionStatus int`. -/
abbrev SubscriptionStatus := Int

def Pending : SubscriptionStatus := 0
def Subscribed : SubscriptionStatus := 1
def Cancelled : SubscriptionStatus := 2
def Expired : SubscriptionStatus := 3
def InRecurring : SubscriptionStatus := 4

/-- Go `type PaymentStatus int`. -/
abbrev PaymentStatus := Int

def Open : PaymentStatus := 0
def Paid : PaymentStatus := 1
def Failed : PaymentStatus := 2

/-- The instance document `models.StudentSubscription`. -/
structure StudentSubscription where
  ID : primitive.ObjectID
  SystemUserID : primitive.ObjectID
  SubscriptionID : primitive.ObjectID
  CustomerID : String
  PriceID : String
  StripeSubID : String
  InvoiceID : String
  PaymentLink : String
  PaymentStatus : PaymentStatus
  Status : SubscriptionStatus
  CreatedAt : Time
  UpdatedAt : Time
deriving DecidableEq

/-- The request body `models.StudentSubscriptionRequest`. -/
structure StudentSubscriptionRequest where
  SubscriptionID : primitive.ObjectID
deriving DecidableEq

/-- Go `type UserRole int`. -/
abbrev UserRole := Int

def SuperUser : UserRole := 0
def ManagerRole : UserRole := 1
def StudentRole : UserRole := 2

/-- The user document `models.SystemUser`. -/
structure SystemUser where
  ID : primitive.ObjectID
  Name : String
  Email : String
  Password : String
  Token : String
  IsSuperuser : Bool
  Role : UserRole
  StripeCustomerID : String
  CreatedAt : Time
  UpdatedAt : Time
deriving DecidableEq

/-- The manager document `models.Manager`. -/
structure Manager where
  ID : primitive.ObjectID
  SystemUserID : primitive.ObjectID
  FirstName : String
  LastName : String
  Email : String
  ManagerID : String
  CreatedAt : Time
  UpdatedAt : Time
deriving DecidableEq

/-- The request struct `models.ManagerUpdate`; no field carries a binding
tag. -/
structure ManagerUpdate where
  FirstName : String
  LastName : String
  Email : String
  ManagerID : String
deriving DecidableEq

/-- The student document `models.Student`. -/
structure Student where
  ID : primitive.ObjectID
  SystemUserID : primitive.ObjectID
  FirstName : String
  LastName : String
  Email : String
  StudentID : String
  SubscriptionID : primitive.ObjectID
  Books : List primitive.ObjectID
  CreatedAt : Time
  UpdatedAt : Time
deriving DecidableEq

end models

/-! ## The document store (`go.mongodb.org/mongo-driver/mongo`) -/

namespace mongo

/-- The call `FindOne(ctx, bson.M{"_id": id})` on a collection: the first
document with that `_id`, `none` for `ErrNoDocuments`. -/
def findOne {α : Type} (key : α → primitive.ObjectID) (id : primitive.ObjectID) :
    List α → Option α
  | [] => none
  | d :: ds => if key d = id then some d else findOne key id ds

/-- The effect of `UpdateOne(ctx, bson.M{"_id": id}, bson.M{"$set": ...})`:
the first document with that `_id` has the fields set (`set`), every other
document is kept; no document is changed when none matches. -/
def updateOne {α : Type} (key : α → primitive.ObjectID) (id : primitive.ObjectID)
    (set : α → α) : List α → List α
  | [] => []
  | d :: ds => if key d = id then set d :: ds else d :: updateOne key id set ds

/-- The effect of `InsertOne(ctx, doc)`: the document is appended; `none` is
the duplicate-key error of the unique `_id` index. -/
def insertOne {α : Type} (key : α → primitive.ObjectID) (doc : α) (coll : List α) :
    Option (List α) :=
  match findOne key (key doc) coll with
  | some _ => none
  | none => some (coll ++ [doc])

/-- The effect of `DeleteOne(ctx, bson.M{"_id": id})`: the first document
with that `_id` is removed; no document is removed when none matches. -/
def deleteOne {α : Type} (key : α → primitive.ObjectID) (id : primitive.ObjectID) :
    List α → List α
  | [] => []
  | d :: ds => if key d = id then ds else d :: deleteOne key id ds

/-- The call `FindOne(ctx, filter)` for a filter on another field than
`_id`: the first document the filter selects (`sel`), `none` for `ErrNoDocuments`. -/
def findOneWhere {α : Type} (sel : α → Bool) : List α → Option α
  | [] => none
  | d :: ds => if sel d then some d else findOneWhere sel ds

/-- The effect of `UpdateOne(ctx, filter, update)` for a filter on another
field than `_id`: the first document the filter selects (`sel`) is changed by
`change`, every other document is kept. -/
def updateOneWhere {α : Type} (sel : α → Bool) (change : α → α) : List α → List α
  | [] => []
  | d :: ds =>
    if sel d then change d :: ds else d :: updateOneWhere sel change ds

end mongo

/-- The three collections of database `library_management` that the
subscription controller holds handles to (`subscription_collection`,
`student_subscription_collection`, `system_user_collections`). -/
structure Store where
  subscription : List models.Subscription
  student_subscription : List models.StudentSubscription
  system_user : List models.SystemUser
deriving DecidableEq

/-! ## `github.com/stripe/stripe-go/v72` -/

namespace stripe

/-- An error returned by a provider call. `resourceMissing` is the provider's
answer for an object that does not exist; `other` stands for every other
failure (connection, authentication, rate limit, ...). -/
inductive Error where
  | resourceMissing
  | other (msg : String)
deriving DecidableEq

/-- The fields of `stripe.Customer` the controller reads. -/
structure Customer where
  ID : String
deriving DecidableEq

/-- The fields of `stripe.Subscription` the controller reads. -/
structure Subscription where
  ID : String
deriving DecidableEq

/-- The `stripe.CheckoutSessionParams` built by `StudentSubscription`
(payment method types, quantity, mode and the two URLs are constants of the
source). -/
structure CheckoutSessionParams where
  Customer : String
  PaymentMethodTypes : List String
  Price : String
  Quantity : Int
  Mode : String
  SuccessURL : String
  CancelURL : String
  Metadata : List (String × String)
deriving DecidableEq

/-- The fields of `stripe.CheckoutSession` the controller reads. `Customer`
and `Subscription` are pointers in Go: `none` is `nil`. `Metadata` is a
`map[string]string`. -/
structure CheckoutSession where
  ID : String
  URL : String
  Customer : Option Customer
  Subscription : Option Subscription
  PaymentStatus : String
  Status : String
  Metadata : List (String × String)
deriving DecidableEq

/-- A Go map read `m[k]` on a `map[string]string`: the zero value `""` when
the key is absent. -/
def mapGet (m : List (String × String)) (k : String) : String :=
  match m with
  | [] => ""
  | (k', v) :: rest => if k' = k then v else mapGet rest k

/-- The `stripe.ProductParams` built by `CreateSubscription`. -/
structure ProductParams where
  Name : String
  Description : String
deriving DecidableEq

/-- The fields of `stripe.Product` the controller reads. -/
structure Product where
  ID : String
deriving DecidableEq

/-- The `stripe.PriceParams` built by `CreateSubscription` and
`UpdateSubscription`. `Recurring` is a pointer in Go: `none` is `nil` (a
one-time price), `some interval` is `&stripe.PriceRecurringParams{Interval:
interval}`. -/
structure PriceParams where
  Product : String
  UnitAmount : Int
  Currency : String
  Recurring : Option String
deriving DecidableEq

/-- The fields of `stripe.Price` the controller reads. -/
structure Price where
  ID : String
deriving DecidableEq

/-- The fields of `stripe.Event` the controller reads: the type
discriminator and the raw JSON of `event.Data.Raw`. -/
structure Event where
  Type_ : String
  Raw : String
deriving DecidableEq

end stripe

/-! ## `github.com/gin-gonic/gin`: what a handler leaves behind -/

namespace gin

/-- A JSON response body written with `c.JSON`. -/
inductive Body where
  /-- A `gin.H` map whose values are strings. -/
  | h (fields : List (String × String))
  /-- The map `gin.H{"error": msg, "errormessage": err}`, `err` being the
  driver's error value. -/
  | errorWithCause (msg : String)
  /-- A `models.StudentSubscription` document. -/
  | studentSubscription (doc : models.StudentSubscription)
  /-- A `models.Subscription` document. -/
  | subscription (doc : models.Subscription)
  /-- The map `gin.H{"error": err.Error()}`, `err` being the error of
  `c.ShouldBindJSON`. -/
  | bindingError
  /-- A `models.Manager` document. -/
  | manager (doc : models.Manager)
deriving DecidableEq

/-- How a handler ends: with a response written by `c.JSON(code, body)`, or
with a run-time panic (nil pointer dereference) before any response. -/
inductive Outcome where
  | json (code : Nat) (body : Body)
  | panic
deriving DecidableEq

/-- The value `c.Get("user")` finds in the request context. -/
inductive ContextValue where
  /-- No value under the key. -/
  | absent
  /-- A value that is not a `models.SystemUser`. -/
  | other
  /-- The user `AuthMiddleware` stored. -/
  | user (u : models.SystemUser)
deriving DecidableEq

end gin

namespace controllers

open primitive models

/-- A call to the payment provider, as logged by a handler. -/
inductive ProviderCall where
  | customerGet (id : String)
  | customerNew (email name : String)
  | sessionNew (params : stripe.CheckoutSessionParams)
  | productNew (params : stripe.ProductParams)
  | priceNew (params : stripe.PriceParams)
  | productDel (id : String)
deriving DecidableEq

/-- What a handler run produces: its outcome, the store it leaves, and the
provider calls it made, in order. -/
structure Result where
  out : gin.Outcome
  store : Store
  calls : List ProviderCall
deriving DecidableEq

/-- Function `getStripeInterval`. -/
def getStripeInterval (subscriptionType : SubscriptionType) : String :=
  if subscriptionType = Monthly then "month"
  else if subscriptionType = Quarterly then "quarter"
  else if subscriptionType = Yearly then "year"
  else ""

/-- The environment of one run of `StudentSubscription`: the provider's
answers, the fresh values drawn by the handler, and which database calls
fail with a driver error. -/
structure SubscribeEnv where
  /-- `FindOne` on the plan collection fails. -/
  findPlanErr : Bool
  /-- Provider call `customer.Get(id, nil)`. -/
  customerGet : String → Except stripe.Error stripe.Customer
  /-- Provider call `customer.New` with the given email and name. -/
  customerNew : String → String → Except stripe.Error stripe.Customer
  /-- `UpdateOne` on the user collection fails. -/
  updateUserErr : Bool
  /-- The value of `primitive.NewObjectID()`: a fresh id, never the zero id,
  so the `omitempty` of the `_id` field keeps it and `InsertOne` reports it as
  `InsertedID`. -/
  NewObjectID : ObjectID
  /-- The two values of `time.Now()` (created, updated). -/
  nowCreated : Time
  nowUpdated : Time
  /-- `InsertOne` on the instance collection fails with a driver error. -/
  insertErr : Bool
  /-- Provider call `session.New`. -/
  sessionNew : stripe.CheckoutSessionParams → Except stripe.Error stripe.CheckoutSession
  /-- `UpdateOne` on the instance collection fails. -/
  updateInstanceErr : Bool
  /-- The final `FindOne` on the instance collection fails. -/
  findInstanceErr : Bool

/-- Function `updateStripeCustomerID`: `$set` of `stripe_customer_id` on the
user with the given user's `_id`; `none` when the driver returns an error. -/
def updateStripeCustomerID (env : SubscribeEnv) (db : Store) (systemUser : SystemUser)
    (stripeCustomerID : String) : Option Store :=
  if env.updateUserErr then none
  else some { db with
    system_user := mongo.updateOne SystemUser.ID systemUser.ID
      (fun u => { u with StripeCustomerID := stripeCustomerID }) db.system_user }

/-- Function `createStripeCustomer`: `customer.New` with the user's email and
name. -/
def createStripeCustomer (env : SubscribeEnv) (systemUser : SystemUser) :
    Except stripe.Error stripe.Customer :=
  env.customerNew systemUser.Email systemUser.Name

/-- The response `c.JSON(code, gin.H{"error": msg})`. -/
def errorJSON (code : Nat) (msg : String) : gin.Outcome :=
  .json code (.h [("error", msg)])

/-- Lines 384-411 of `StudentSubscription`: resolve the provider customer of
the user, creating and persisting one when the stored id is empty or
`customer.Get` returns an error. `Except.error` is an early return. -/
def resolveCustomer (env : SubscribeEnv) (systemUser : SystemUser) (db : Store) :
    Except Result (stripe.Customer × Store × List ProviderCall) :=
  if systemUser.StripeCustomerID ≠ "" then
    let calls := [ProviderCall.customerGet systemUser.StripeCustomerID]
    match env.customerGet systemUser.StripeCustomerID with
    | .ok stripeCustomer => .ok (stripeCustomer, db, calls)
    | .error _ =>
      let calls := calls ++ [ProviderCall.customerNew systemUser.Email systemUser.Name]
      match createStripeCustomer env systemUser with
      | .error _ =>
        .error ⟨errorJSON 500 "Failed to create Stripe customer", db, calls⟩
      | .ok stripeCustomer =>
        match updateStripeCustomerID env db systemUser stripeCustomer.ID with
        | none =>
          .error ⟨errorJSON 500
            "Failed to update Stripe customer ID in the system user table", db, calls⟩
        | some db1 => .ok (stripeCustomer, db1, calls)
  else
    let calls := [ProviderCall.customerNew systemUser.Email systemUser.Name]
    match createStripeCustomer env systemUser with
    | .error _ =>
      .error ⟨errorJSON 500 "Failed to create Stripe customer", db, calls⟩
    | .ok stripeCustomer =>
      match updateStripeCustomerID env db systemUser stripeCustomer.ID with
      | none =>
        .error ⟨errorJSON 500
          "Failed to update Stripe customer ID in the system user table", db, calls⟩
      | some db1 => .ok (stripeCustomer, db1, calls)

/-- The instance document built at lines 414-423 of `StudentSubscription`;
the fields the literal leaves out have Go's zero value `""`. -/
def newStudentSubscription (env : SubscribeEnv) (systemUser : SystemUser)
    (subscription : models.Subscription) : StudentSubscription :=
  { ID := env.NewObjectID
    SystemUserID := systemUser.ID
    SubscriptionID := subscription.ID
    CustomerID := ""
    PriceID := subscription.PriceID
    StripeSubID := ""
    InvoiceID := ""
    PaymentLink := ""
    PaymentStatus := Open
    Status := Pending
    CreatedAt := env.nowCreated
    UpdatedAt := env.nowUpdated }

/-- The checkout parameters built at lines 431-451 of `StudentSubscription`:
`insertedID` is `fmt.Sprintf("%v", insert_results.InsertedID)`. -/
def newCheckoutParams (InsertedID : ObjectID) (subscription : models.Subscription)
    (stripeCustomer : stripe.Customer) : stripe.CheckoutSessionParams :=
  let insertedID := Sprintf_v InsertedID
  { Customer := stripeCustomer.ID
    PaymentMethodTypes := ["card"]
    Price := subscription.PriceID
    Quantity := 1
    Mode := "subscription"
    SuccessURL := "https://example.com"
    CancelURL := "https://example.com"
    Metadata := [("student_subscription_id", insertedID)] }

/-- The `$set` of lines 459-461: the customer id and the hosted URL of the
checkout session. -/
def attachCheckout (customerID url : String) (r : StudentSubscription) : StudentSubscription :=
  { r with CustomerID := customerID, PaymentLink := url }

/-- Lines 413-476 of `StudentSubscription`: insert the instance, create the
checkout session, attach the link and the customer id, and return the row.
`InsertedID` is the `_id` of the inserted document. -/
def createInstance (env : SubscribeEnv) (systemUser : SystemUser)
    (subscription : models.Subscription) (stripeCustomer : stripe.Customer)
    (db : Store) (calls : List ProviderCall) : Result :=
  let studentSubscription := newStudentSubscription env systemUser subscription
  match (if env.insertErr then none
         else mongo.insertOne StudentSubscription.ID studentSubscription
           db.student_subscription) with
  | none => ⟨errorJSON 500 "Failed to create subscription in the database", db, calls⟩
  | some rows =>
    let db := { db with student_subscription := rows }
    let InsertedID := studentSubscription.ID
    let checkoutParams := newCheckoutParams InsertedID subscription stripeCustomer
    let calls := calls ++ [ProviderCall.sessionNew checkoutParams]
    match env.sessionNew checkoutParams with
    | .error _ => ⟨errorJSON 500 "Failed to create Stripe checkout session", db, calls⟩
    | .ok session =>
      match session.Customer with
      | none => ⟨.panic, db, calls⟩
      | some sessionCustomer =>
        if env.updateInstanceErr then
          ⟨errorJSON 500 "Failed to update the fields.", db, calls⟩
        else
          let db := { db with
            student_subscription := mongo.updateOne StudentSubscription.ID InsertedID
              (attachCheckout sessionCustomer.ID session.URL) db.student_subscription }
          match (if env.findInstanceErr then none
                 else mongo.findOne StudentSubscription.ID InsertedID
                   db.student_subscription) with
          | none => ⟨errorJSON 500 "Failed to get the data.", db, calls⟩
          | some updated_student_subscription =>
            ⟨.json 200 (.studentSubscription updated_student_subscription), db, calls⟩

/-- Handler `StudentSubscription` (`POST /subscriptions/student/subscribe`).
`user` is the context value under `"user"`; `body` is the request body as
bound by `c.ShouldBindJSON`, `none` when binding fails. -/
def StudentSubscription (env : SubscribeEnv) (user : gin.ContextValue)
    (body : Option StudentSubscriptionRequest) (db : Store) : Result :=
  match user with
  | .absent => ⟨errorJSON 401 "Unauthorized", db, []⟩
  | .other => ⟨errorJSON 401 "Unauthorized", db, []⟩
  | .user systemUser =>
    if systemUser.Role ≠ StudentRole then
      ⟨errorJSON 403 "You are not allowed to perform this action", db, []⟩
    else
      match body with
      | none => ⟨errorJSON 400 "Invalid request", db, []⟩
      | some student_subscription_request =>
        let subscriptionID := student_subscription_request.SubscriptionID
        match (if env.findPlanErr then none
               else mongo.findOne models.Subscription.ID subscriptionID db.subscription) with
        | none => ⟨errorJSON 404 "Subscription not found", db, []⟩
        | some subscription =>
          match resolveCustomer env systemUser db with
          | .error r => r
          | .ok (stripeCustomer, db, calls) =>
            createInstance env systemUser subscription stripeCustomer db calls

/-- The webhook request as the handler reads it: the body bytes, whether
reading the body fails, and the `Stripe-Signature` header. -/
structure WebhookRequest where
  Body : String
  readErr : Bool
  StripeSignature : String

/-- The environment of one run of `StripeWebhookHandler`. -/
structure WebhookEnv where
  /-- Library call `webhook.ConstructEvent(payload, sigHeader, secret)`: the
  signature check; an error when the signature does not verify. -/
  ConstructEvent : String → String → String → Except String stripe.Event
  /-- Library call `json.Unmarshal(event.Data.Raw, &session)`. -/
  Unmarshal : String → Except String stripe.CheckoutSession
  /-- `UpdateOne` on the instance collection fails with a driver error. -/
  updateErr : Bool

/-- Constant `MaxBodyBytes`. -/
def MaxBodyBytes : Nat := 65536

/-- Constant `endpointSecret`. -/
def endpointSecret : String :=
  "whsec_e131d4cb82e0c1ff6f3e1a7ac6e6765f2d0b05b8bd07882bac8878e8d8d19d36"

/-- The response `c.JSON(http.StatusOK, gin.H{"status": "success"})`. -/
def successJSON : gin.Outcome := .json 200 (.h [("status", "success")])

/-- Handler `StripeWebhookHandler` (`POST /webhook`). The `FindOne` of line
548 only fills a value that is printed, and the prints and logs are left
out. -/
def StripeWebhookHandler (env : WebhookEnv) (req : WebhookRequest) (db : Store) : Result :=
  if req.readErr ∨ req.Body.utf8ByteSize > MaxBodyBytes then
    ⟨errorJSON 503 "Unable to read request body", db, []⟩
  else
    let payload := req.Body
    match env.ConstructEvent payload req.StripeSignature endpointSecret with
    | .error _ => ⟨errorJSON 400 "Invalid signature", db, []⟩
    | .ok event =>
      if event.Type_ = "checkout.session.completed" then
        match env.Unmarshal event.Raw with
        | .error _ => ⟨errorJSON 400 "Error parsing webhook JSON", db, []⟩
        | .ok session =>
          if session.PaymentStatus = "paid" ∧ session.Status = "complete" then
            let subscriptionID := stripe.mapGet session.Metadata "student_subscription_id"
            if subscriptionID = "" then
              ⟨errorJSON 400 "Invalid student_subscription_id", db, []⟩
            else
              match ObjectIDFromHex subscriptionID with
              | none => ⟨errorJSON 400 "Invalid student_subscription_id format", db, []⟩
              | some objID =>
                match session.Subscription with
                | none => ⟨.panic, db, []⟩
                | some sessionSubscription =>
                  if env.updateErr then
                    ⟨.json 400 (.errorWithCause "Error while updating the data"), db, []⟩
                  else
                    ⟨successJSON,
                     { db with
                       student_subscription :=
                         mongo.updateOne StudentSubscription.ID objID
                           (fun r => { r with
                             PaymentStatus := Paid
                             Status := Subscribed
                             StripeSubID := sessionSubscription.ID })
                           db.student_subscription },
                     []⟩
          else ⟨successJSON, db, []⟩
      else ⟨successJSON, db, []⟩

end controllers

/-! ## Plan management: `CreateSubscription`, `UpdateSubscription`,
`DeleteSubscription` -/

namespace controllers

open primitive models

/-- The JSON object of the body of a plan request: each member is present
with a value of the field's type, or absent. -/
structure PlanJSON where
  title : Option String
  description : Option String
  type_ : Option Int
  price : Option Rat
deriving DecidableEq

/-- The call `c.ShouldBindJSON(&subscription_data)` on a
`models.SubscriptionCreateRequest`. `none` is a binding error. The body is
`none` when it is not a JSON object with members of the right types. A member
that is absent leaves the Go zero value in the struct; the validator then
checks every field tagged `binding:"required"`, which holds for a field
exactly when its value is not the zero value of its type. -/
def bindCreateRequest (body : Option PlanJSON) : Option SubscriptionCreateRequest :=
  match body with
  | none => none
  | some j =>
    let subscription_data : SubscriptionCreateRequest :=
      { Title := j.title.getD ""
        Description := j.description.getD ""
        Type_ := j.type_.getD 0
        Price := j.price.getD 0 }
    if subscription_data.Title ≠ "" ∧ subscription_data.Description ≠ "" ∧
        subscription_data.Type_ ≠ 0 ∧ subscription_data.Price ≠ 0 then
      some subscription_data
    else none

/-- The call `c.ShouldBindJSON(&subscription_data)` on a
`models.SubscriptionUpdateRequest`: an absent member leaves the Go zero value
in the struct, and no field is validated. -/
def bindUpdateRequest (body : Option PlanJSON) : Option SubscriptionUpdateRequest :=
  match body with
  | none => none
  | some j =>
    some { Title := j.title.getD ""
           Description := j.description.getD ""
           Type_ := j.type_.getD 0
           Price := j.price.getD 0 }

/-- The environment of one run of a plan handler: the provider's answers, the
fresh values drawn by the handler, and which database calls fail with a
driver error. -/
structure PlanEnv where
  /-- Provider call `product.New`. -/
  productNew : stripe.ProductParams → Except stripe.Error stripe.Product
  /-- Provider call `price.New`. -/
  priceNew : stripe.PriceParams → Except stripe.Error stripe.Price
  /-- Provider call `product.Del(id, nil)`. -/
  productDel : String → Except stripe.Error stripe.Product
  /-- The value of the Go expression `int64(price * 100)` on a `float64`
  price. -/
  unitAmount : Rat → Int
  /-- The value of `primitive.NewObjectID()`: a fresh id, never the zero
  id. -/
  NewObjectID : ObjectID
  /-- The values of `time.Now()` (created, updated). -/
  nowCreated : Time
  nowUpdated : Time
  /-- `InsertOne` on the plan collection fails with a driver error. -/
  insertErr : Bool
  /-- The `FindOne` of the price block of `UpdateSubscription` fails. -/
  findExistingErr : Bool
  /-- `UpdateOne` on the plan collection fails. -/
  updateErr : Bool
  /-- The `FindOne` that reads the plan (`DeleteSubscription`, and the last
  step of `UpdateSubscription`) fails. -/
  findErr : Bool
  /-- `DeleteOne` on the plan collection fails. -/
  deleteErr : Bool

/-- The `stripe.PriceParams` of lines 83-94 and 241-252: the unit amount in
cents, currency `usd`, and a recurrence only when the interval of the given
type is not empty. -/
def newPriceParams (env : PlanEnv) (productID : String) (price : Rat)
    (type_ : SubscriptionType) : stripe.PriceParams :=
  let interval := getStripeInterval type_
  { Product := productID
    UnitAmount := env.unitAmount price
    Currency := "usd"
    Recurring := if interval ≠ "" then some interval else none }

/-- Handler `CreateSubscription` (`POST /subscriptions`). -/
def CreateSubscription (env : PlanEnv) (body : Option PlanJSON) (db : Store) : Result :=
  match bindCreateRequest body with
  | none => ⟨.json 400 .bindingError, db, []⟩
  | some subscription_data =>
    let productParams : stripe.ProductParams :=
      { Name := subscription_data.Title, Description := subscription_data.Description }
    let calls := [ProviderCall.productNew productParams]
    match env.productNew productParams with
    | .error _ => ⟨errorJSON 500 "Failed to create product in Stripe", db, calls⟩
    | .ok newProduct =>
      let priceParams := newPriceParams env newProduct.ID subscription_data.Price
        subscription_data.Type_
      let calls := calls ++ [ProviderCall.priceNew priceParams]
      match env.priceNew priceParams with
      | .error _ => ⟨errorJSON 500 "Failed to create price in Stripe", db, calls⟩
      | .ok newPrice =>
        let subscription : models.Subscription :=
          { ID := env.NewObjectID
            Title := subscription_data.Title
            Description := subscription_data.Description
            Type_ := subscription_data.Type_
            Price := subscription_data.Price
            ProductID := newProduct.ID
            PriceID := newPrice.ID
            CreatedAt := env.nowCreated
            UpdatedAt := env.nowUpdated }
        match (if env.insertErr then none
               else mongo.insertOne models.Subscription.ID subscription db.subscription) with
        | none =>
          ⟨errorJSON 500 "Failed to create subscription in the database", db, calls⟩
        | some rows =>
          ⟨.json 200 (.subscription subscription), { db with subscription := rows }, calls⟩

/-- The `$set` document `update` built by `UpdateSubscription` (a `bson.M`):
each key is present with a value, or absent. -/
structure PlanSet where
  title : Option String
  description : Option String
  type_ : Option SubscriptionType
  price : Option Rat
  price_id : Option String
  updated_at : Option Time
deriving DecidableEq

/-- The effect of `$set` with the given document on a plan: a key that is
present replaces the field, every other field is kept. -/
def PlanSet.apply (u : PlanSet) (p : models.Subscription) : models.Subscription :=
  { p with
    Title := u.title.getD p.Title
    Description := u.description.getD p.Description
    Type_ := u.type_.getD p.Type_
    Price := u.price.getD p.Price
    PriceID := u.price_id.getD p.PriceID
    UpdatedAt := u.updated_at.getD p.UpdatedAt }

/-- Lines 219-228 of `UpdateSubscription`: the keys set from the title, the
description and the type of the request, each only when it is not the zero
value. -/
def initialUpdate (subscription_data : SubscriptionUpdateRequest) : PlanSet :=
  { title := if subscription_data.Title ≠ "" then some subscription_data.Title else none
    description :=
      if subscription_data.Description ≠ "" then some subscription_data.Description else none
    type_ := if subscription_data.Type_ ≠ 0 then some subscription_data.Type_ else none
    price := none
    price_id := none
    updated_at := none }

/-- Lines 264-282 of `UpdateSubscription`: stamp `updated_at`, apply the
`$set` to the plan with the given id, read the plan back and answer with it. -/
def applyUpdate (env : PlanEnv) (objectID : ObjectID) (update : PlanSet) (db : Store)
    (calls : List ProviderCall) : Result :=
  let update := { update with updated_at := some env.nowUpdated }
  if env.updateErr then
    ⟨errorJSON 500 "Failed to update subscription in the database", db, calls⟩
  else
    let db := { db with
      subscription := mongo.updateOne models.Subscription.ID objectID update.apply
        db.subscription }
    match (if env.findErr then none
           else mongo.findOne models.Subscription.ID objectID db.subscription) with
    | none => ⟨errorJSON 404 "Subscription not found", db, calls⟩
    | some subscription => ⟨.json 200 (.subscription subscription), db, calls⟩

/-- Handler `UpdateSubscription` (`PUT /subscriptions/:id`); `id` is the path
parameter. -/
def UpdateSubscription (env : PlanEnv) (id : String) (body : Option PlanJSON) (db : Store) :
    Result :=
  match ObjectIDFromHex id with
  | none => ⟨errorJSON 400 "Invalid subscription ID", db, []⟩
  | some objectID =>
    match bindUpdateRequest body with
    | none => ⟨.json 400 .bindingError, db, []⟩
    | some subscription_data =>
      let update := initialUpdate subscription_data
      if subscription_data.Price ≠ 0 then
        match (if env.findExistingErr then none
               else mongo.findOne models.Subscription.ID objectID db.subscription) with
        | none => ⟨errorJSON 404 "Subscription not found", db, []⟩
        | some existingSubscription =>
          let priceParams := newPriceParams env existingSubscription.ProductID
            subscription_data.Price subscription_data.Type_
          let calls := [ProviderCall.priceNew priceParams]
          match env.priceNew priceParams with
          | .error _ => ⟨errorJSON 500 "Failed to create price in Stripe", db, calls⟩
          | .ok newPrice =>
            let update := { update with
              price := some subscription_data.Price, price_id := some newPrice.ID }
            applyUpdate env objectID update db calls
      else applyUpdate env objectID update db []

/-- Handler `DeleteSubscription` (`DELETE /subscriptions/:id`); `id` is the
path parameter. -/
def DeleteSubscription (env : PlanEnv) (id : String) (db : Store) : Result :=
  match ObjectIDFromHex id with
  | none => ⟨errorJSON 400 "Invalid subscription ID", db, []⟩
  | some objectID =>
    match (if env.findErr then none
           else mongo.findOne models.Subscription.ID objectID db.subscription) with
    | none => ⟨errorJSON 404 "Subscription not found", db, []⟩
    | some subscription =>
      let calls := [ProviderCall.productDel subscription.ProductID]
      match env.productDel subscription.ProductID with
      | .error _ => ⟨errorJSON 500 "Failed to delete product in Stripe", db, calls⟩
      | .ok _ =>
        if env.deleteErr then
          ⟨errorJSON 500 "Failed to delete subscription in the database", db, calls⟩
        else
          ⟨.json 200 (.h [("message", "Subscription deleted successfully")]),
           { db with
             subscription := mongo.deleteOne models.Subscription.ID objectID db.subscription },
           calls⟩

end controllers

/-! ## Predicates used to state the properties -/

namespace controllers

open primitive models

/-- Two instance rows agree on every field other than `payment_status`,
`status` and `stripe_sub_id`. -/
def agreeOutsideConfirmation (r r' : models.StudentSubscription) : Prop :=
  r'.ID = r.ID ∧ r'.SystemUserID = r.SystemUserID ∧ r'.SubscriptionID = r.SubscriptionID ∧
  r'.CustomerID = r.CustomerID ∧ r'.PriceID = r.PriceID ∧ r'.InvoiceID = r.InvoiceID ∧
  r'.PaymentLink = r.PaymentLink ∧ r'.CreatedAt = r.CreatedAt ∧ r'.UpdatedAt = r.UpdatedAt

instance (r r' : models.StudentSubscription) : Decidable (agreeOutsideConfirmation r r') := by
  unfold agreeOutsideConfirmation; infer_instance

/-- The row a payment confirmation with provider subscription id `subID`
turns row `r` into. -/
def confirmed (r : models.StudentSubscription) (subID : String) :
    models.StudentSubscription :=
  { r with PaymentStatus := Paid, Status := Subscribed, StripeSubID := subID }

/-- Two instance rows agree on every field other than `customer_id` and
`payment_link`. -/
def agreeOutsideCheckout (r r' : models.StudentSubscription) : Prop :=
  r'.ID = r.ID ∧ r'.SystemUserID = r.SystemUserID ∧ r'.SubscriptionID = r.SubscriptionID ∧
  r'.PriceID = r.PriceID ∧ r'.StripeSubID = r.StripeSubID ∧ r'.InvoiceID = r.InvoiceID ∧
  r'.PaymentStatus = r.PaymentStatus ∧ r'.Status = r.Status ∧
  r'.CreatedAt = r.CreatedAt ∧ r'.UpdatedAt = r.UpdatedAt

instance (r r' : models.StudentSubscription) : Decidable (agreeOutsideCheckout r r') := by
  unfold agreeOutsideCheckout; infer_instance

/-- Whether a logged provider call is a create-price call. -/
def ProviderCall.isPriceNew : ProviderCall → Bool
  | .priceNew _ => true
  | _ => false

/-- Whether a logged provider call is a create-customer call. -/
def ProviderCall.isCustomerNew : ProviderCall → Bool
  | .customerNew _ _ => true
  | _ => false

/-- The body of a webhook request can be read: no read error, and at most
`MaxBodyBytes` bytes. -/
def WebhookRequest.readable (req : WebhookRequest) : Prop :=
  ¬ (req.readErr ∨ req.Body.utf8ByteSize > MaxBodyBytes)

instance (req : WebhookRequest) : Decidable req.readable := by
  unfold WebhookRequest.readable; infer_instance

end controllers

/-! ## Go `float64` arithmetic of `int64(price * 100)`

A finite non-negative `float64` is a 53-bit mantissa times a power of two;
the results of decoding a decimal literal and of a multiplication are the
exact results rounded to the nearest such value, ties to the even mantissa
(IEEE 754, normal range). -/

namespace float64

/-- The number of binary digits of `n` (0 for 0), halving at most `fuel`
times. -/
def bitLengthAux : Nat → Nat → Nat
  | 0, _ => 0
  | fuel + 1, n => if n = 0 then 0 else bitLengthAux fuel (n / 2) + 1

/-- The number of binary digits of `n`, for `n` below `2 ^ 4096`. -/
def bitLength (n : Nat) : Nat := bitLengthAux 4096 n

/-- The non-negative value `mant * 2 ^ exp`. -/
structure Value where
  mant : Nat
  exp : Int
deriving DecidableEq

/-- The quotient `p / (q * 2 ^ e)` as a numerator and a denominator. -/
def scaled (p q : Nat) (e : Int) : Nat × Nat :=
  (p * 2 ^ (-e).toNat, q * 2 ^ e.toNat)

/-- The `float64` nearest to the rational `p / q` (`q` positive), ties to
even: the exponent `e` is chosen so that `p / (q * 2 ^ e)` lies in
`[2 ^ 52, 2 ^ 53)`, and the quotient is rounded to an integer mantissa. -/
def roundNearestEven (p q : Nat) : Value :=
  if p = 0 then ⟨0, 0⟩
  else
    let e1 : Int := (bitLength p : Int) - (bitLength q : Int) - 53
    let s1 := scaled p q e1
    let e : Int := if s1.1 / s1.2 ≥ 2 ^ 53 then e1 + 1 else e1
    let s := scaled p q e
    let m := s.1 / s.2
    let r := s.1 % s.2
    if 2 * r > s.2 ∨ (2 * r = s.2 ∧ m % 2 = 1) then ⟨m + 1, e⟩ else ⟨m, e⟩

/-- The `float64` a decimal literal `num / den` is decoded to
(`strconv.ParseFloat`, used by `encoding/json`): the nearest value. -/
def ofDecimal (num den : Nat) : Value := roundNearestEven num den

/-- The `float64` product `x * y`: the exact product, rounded. -/
def mul (x y : Value) : Value :=
  let m := x.mant * y.mant
  let e := x.exp + y.exp
  roundNearestEven (m * 2 ^ e.toNat) (2 ^ (-e).toNat)

/-- The conversion `int64(x)`: the fractional part is discarded. -/
def toInt64 (x : Value) : Int :=
  ((x.mant * 2 ^ x.exp.toNat / 2 ^ (-x.exp).toNat : Nat) : Int)

/-- The constant `100` as a `float64` (exact). -/
def hundred : Value := ⟨100, 0⟩

/-- The Go expression `int64(price * 100)` of lines 85 and 243, for the
`float64` price decoded from the decimal number `price` of the request body.
Rounding is symmetric in the sign and the conversion truncates toward zero. -/
def unitAmount (price : Rat) : Int :=
  let cents := toInt64 (mul (ofDecimal price.num.natAbs price.den) hundred)
  if price.num < 0 then -cents else cents

end float64

/-! ## `api/controllers/manager_controller.go`: `PatchManager` -/

namespace controllers

open primitive models

/-- The two collections `PatchManager` reads and writes: `manager_collection`
and `student_collection` (the handle of the student controller). -/
structure ManagerStore where
  manager : List Manager
  student : List Student
deriving DecidableEq

/-- The environment of one run of `PatchManager`. -/
structure ManagerEnv where
  /-- The first `FindOne` fails with a driver error (not `ErrNoDocuments`). -/
  findErr : Bool
  /-- `UpdateOne` fails. -/
  updateErr : Bool
  /-- The last `FindOne` fails with a driver error. -/
  fetchErr : Bool
  /-- The value of `time.Now()`. -/
  now : Time

/-- The `$set` of lines 266-279 of `PatchManager`: each non-empty field of the
body replaces the stored one, and `updated_at` is stamped. -/
def patchSet (managerUpdate : ManagerUpdate) (now : Time) (m : Manager) : Manager :=
  { m with
    FirstName := if managerUpdate.FirstName ≠ "" then managerUpdate.FirstName else m.FirstName
    LastName := if managerUpdate.LastName ≠ "" then managerUpdate.LastName else m.LastName
    Email := if managerUpdate.Email ≠ "" then managerUpdate.Email else m.Email
    ManagerID := if managerUpdate.ManagerID ≠ "" then managerUpdate.ManagerID else m.ManagerID
    UpdatedAt := now }

/-- The call `Decode(&existingManager)` on a student document: the fields of
`models.Manager` whose BSON key the document has are overwritten, the field
`manager_id`, which a student document does not have, keeps the value already
in the struct. -/
def decodeStudentAsManager (doc : Student) (existingManager : Manager) : Manager :=
  { existingManager with
    ID := doc.ID
    SystemUserID := doc.SystemUserID
    FirstName := doc.FirstName
    LastName := doc.LastName
    Email := doc.Email
    CreatedAt := doc.CreatedAt
    UpdatedAt := doc.UpdatedAt }

/-- Handler `PatchManager` (`PATCH /managers/:id`); `id` is the path
parameter and `body` the request body as bound by `c.ShouldBindJSON`, `none`
when binding fails. A `models.ErrorResponse` is the JSON object with the one
member `error`. -/
def PatchManager (env : ManagerEnv) (id : String) (body : Option ManagerUpdate)
    (db : ManagerStore) : gin.Outcome × ManagerStore :=
  if id = "" then (errorJSON 400 "Manager ID is required", db)
  else
    match body with
    | none => (.json 400 .bindingError, db)
    | some managerUpdate =>
      match ObjectIDFromHex id with
      | none => (errorJSON 400 "Invalid manager ID", db)
      | some managerID =>
        if env.findErr then (errorJSON 500 "Failed to find student", db)
        else
          match mongo.findOne Manager.ID managerID db.manager with
          | none => (errorJSON 404 "Student not found", db)
          | some existingManager =>
            if env.updateErr then (errorJSON 500 "Failed to update manager", db)
            else
              let db := { db with
                manager := mongo.updateOne Manager.ID managerID
                  (patchSet managerUpdate env.now) db.manager }
              match (if env.fetchErr then none
                     else mongo.findOne Student.ID managerID db.student) with
              | none => (errorJSON 500 "Failed to fetch updated manager", db)
              | some doc =>
                (.json 200 (.manager (decodeStudentAsManager doc existingManager)), db)

end controllers

/-! ## Sessions: `Logout` (`api/controllers/auth_controller.go`) and
`AuthMiddleware` (`api/middleware/auth_middleware.go`)

The user collection is a list of `models.SystemUser`; a user without a stored
token has `Token = ""` (the field is `omitempty` and is removed by `$unset`).
A filter `bson.M{"token": t}` is only built for a non-empty `t`, and selects
the users whose token is `t`. -/

namespace auth

/-- The function `strings.ToLower`, on the characters of a string. Only the
letters `A` to `Z` are mapped here; the two other letters Go maps to an ASCII
letter (to `k` and `i`) occur in none of the constants a lower-cased string is
compared with. -/
def ToLower (s : List Char) : List Char := s.map Char.toLower

/-- The token of an `Authorization` header, lines 172-178 of `Logout` and
39-45 of `AuthMiddleware`: when `len(tokenString) > 7` and
`strings.ToLower(tokenString[:7]) == "bearer "`, the rest `tokenString[7:]`;
`none` for the `else` branch ("Invalid token format"). -/
def bearerToken (tokenString : String) : Option String :=
  if tokenString.utf8ByteSize > 7 ∧ ToLower (tokenString.data.take 7) = "bearer ".data then
    some ⟨tokenString.data.drop 7⟩
  else none

end auth

namespace controllers

open primitive models

/-- The environment of one run of `Logout`: which database calls fail. -/
structure LogoutEnv where
  /-- `FindOne` on the user collection fails with a driver error. -/
  findErr : Bool
  /-- `UpdateOne` on the user collection fails. -/
  updateErr : Bool

/-- Handler `Logout` (`POST /user/logout`); `authorization` is the value of
the `Authorization` header. -/
def Logout (env : LogoutEnv) (authorization : String) (users : List SystemUser) :
    gin.Outcome × List SystemUser :=
  let tokenString := authorization
  if tokenString = "" then (errorJSON 401 "Authorization header is required", users)
  else
    match auth.bearerToken tokenString with
    | none => (errorJSON 401 "Invalid token format", users)
    | some tokenString =>
      match (if env.findErr then none
             else mongo.findOneWhere (fun u => u.Token = tokenString) users) with
      | none => (errorJSON 400 "Invalid token", users)
      | some _ =>
        if env.updateErr then (errorJSON 500 "Failed to logout", users)
        else
          (.json 200 (.h [("message", "Logout successful")]),
           mongo.updateOneWhere (fun u => u.Token = tokenString)
             (fun u => { u with Token := "" }) users)

end controllers

namespace middleware

open models

/-- How `AuthMiddleware` ends. -/
inductive Outcome where
  /-- The response `c.JSON(code, body)` followed by `c.Abort()`: the handler
  is not run. -/
  | abort (code : Nat) (body : gin.Body)
  /-- The calls `c.Set("user", user)` and `c.Next()`: the handler runs. -/
  | next (user : SystemUser)
  /-- The path needs no authentication: the middleware does nothing and the
  handler runs. -/
  | pass
deriving DecidableEq

/-- The environment of one run of `AuthMiddleware`. -/
structure AuthEnv where
  /-- Whether `auth.VerifyJWTToken(tokenString)` returns `true` and no
  error. -/
  VerifyJWTToken : String → Bool
  /-- `FindOne` on the user collection fails with a driver error. -/
  findErr : Bool

/-- The list `authPaths` of `requiresAuth`. -/
def authPaths : List String := ["/swagger", "/favicon", "/user/login", "/user/register"]

/-- Function `requiresAuth`: false exactly when a listed path is a prefix of
the request path (`strings.HasPrefix`). -/
def requiresAuth (path : String) : Bool :=
  !(authPaths.any (fun p => p.data.isPrefixOf path.data))

/-- The handler function returned by `AuthMiddleware`; `requestURI` is
`c.Request.RequestURI` and `authorization` the `Authorization` header. -/
def AuthMiddleware (env : AuthEnv) (requestURI authorization : String)
    (users : List SystemUser) : Outcome :=
  if requiresAuth requestURI then
    let tokenString := authorization
    if tokenString = "" then
      .abort 401 (.h [("error", "Authentication is required")])
    else
      match auth.bearerToken tokenString with
      | none => .abort 401 (.h [("error", "Invalid token format")])
      | some tokenString =>
        if ¬ env.VerifyJWTToken tokenString then
          .abort 401 (.h [("error", "Invalid token")])
        else
          match (if env.findErr then none
                 else mongo.findOneWhere (fun u => u.Token = tokenString) users) with
          | none => .abort 401 (.h [("error", "Invalid token")])
          | some user => .next user
  else .pass

end middleware

/-! ## `api/utils/file_utils.go` -/

namespace utils

/-- The scan of `filepath.Ext` from the end of the path: `rev` is what is
left of the reversed path and `acc` the characters passed so far. The scan
stops with no extension at a path separator `/` and returns the suffix from
the first dot it meets. -/
def extAux : List Char → List Char → List Char
  | [], _ => []
  | c :: rev, acc =>
    if c = Char.ofNat 47 then []
    else if c = Char.ofNat 46 then Char.ofNat 46 :: acc
    else extAux rev (c :: acc)

/-- The function `filepath.Ext` (with the separator `/`): the suffix of the
path from the last dot of its last element, empty when there is none. -/
def Ext (path : String) : String := ⟨extAux path.data.reverse []⟩

/-- Function `AllowedFileExtension`. -/
def AllowedFileExtension (filename fileType : String) : Bool :=
  let ext : String := ⟨auth.ToLower (Ext filename).data⟩
  if fileType = "image" then
    ext = ".jpg" ∨ ext = ".jpeg" ∨ ext = ".png"
  else if fileType = "pdf" then
    ext = ".pdf" ∨ ext = ".doc"
  else false

end utils

/-! ## Concrete runs

A plan "Gold", a student, a manager, and provider answers, used to evaluate the
handlers on explicit inputs. -/

namespace scenario

open primitive models controllers

def planID : ObjectID := ⟨[0, 0, 0, 0, 0, 0, 0, 0, 0, 0, 0, 1], rfl⟩
def studentID : ObjectID := ⟨[0, 0, 0, 0, 0, 0, 0, 0, 0, 0, 0, 2], rfl⟩
def instanceID : ObjectID := ⟨[0, 0, 0, 0, 0, 0, 0, 0, 0, 0, 0, 3], rfl⟩
def otherInstanceID : ObjectID := ⟨[0, 0, 0, 0, 0, 0, 0, 0, 0, 0, 0, 4], rfl⟩
def managerID : ObjectID := ⟨[0, 0, 0, 0, 0, 0, 0, 0, 0, 0, 0, 5], rfl⟩

def gold : models.Subscription :=
  { ID := planID, Title := "Gold", Description := "Gold plan", Type_ := Monthly,
    Price := ⟨999, 100, by decide, by norm_num⟩, ProductID := "prod_1", PriceID := "price_1",
    CreatedAt := 1, UpdatedAt := 1 }

/-- A student who has never subscribed: no provider customer id stored. -/
def student : SystemUser :=
  { ID := studentID, Name := "Ann", Email := "ann@example.com", Password := "x",
    Token := "tok-ann", IsSuperuser := false, Role := StudentRole,
    StripeCustomerID := "", CreatedAt := 2, UpdatedAt := 2 }

/-- The same student with a provider customer id stored. -/
def studentWithCustomer : SystemUser := { student with StripeCustomerID := "cus_old" }

def manager : SystemUser :=
  { ID := managerID, Name := "Max", Email := "max@example.com", Password := "y",
    Token := "tok-max", IsSuperuser := false, Role := ManagerRole,
    StripeCustomerID := "", CreatedAt := 3, UpdatedAt := 3 }

def db0 : Store :=
  { subscription := [gold], student_subscription := [], system_user := [student, manager] }

def dbWithCustomer : Store :=
  { subscription := [gold], student_subscription := [],
    system_user := [studentWithCustomer, manager] }

/-- The answer of the provider to `session.New`: a session for the customer
asked for, carrying the metadata it was given. -/
def newSession (p : stripe.CheckoutSessionParams) : stripe.CheckoutSession :=
  { ID := "cs_1", URL := "https://checkout.example/cs_1", Customer := some ⟨p.Customer⟩,
    Subscription := none, PaymentStatus := "unpaid", Status := "open",
    Metadata := p.Metadata }

/-- A provider that knows the customers whose id `known` accepts, answers
every other `customer.Get` with `getError`, and creates customer `cus_new`. -/
def subscribeEnv (known : String → Bool) (getError : stripe.Error) : SubscribeEnv :=
  { findPlanErr := false
    customerGet := fun id => if known id then .ok ⟨id⟩ else .error getError
    customerNew := fun _ _ => .ok ⟨"cus_new"⟩
    updateUserErr := false
    NewObjectID := instanceID
    nowCreated := 10
    nowUpdated := 11
    insertErr := false
    sessionNew := fun p => .ok (newSession p)
    updateInstanceErr := false
    findInstanceErr := false }

/-- The first subscribe of the student to the plan "Gold". -/
def firstSubscribe : Result :=
  StudentSubscription (subscribeEnv (fun _ => false) .resourceMissing) (.user student)
    (some ⟨planID⟩) db0

/-- The metadata of the checkout session a run asked the provider for. -/
def sentMetadata : List ProviderCall → List (String × String)
  | [] => []
  | .sessionNew p :: _ => p.Metadata
  | _ :: rest => sentMetadata rest

/-- The "checkout completed" session the provider reports for a paid
checkout: paid, complete, with subscription `sub_1` and the given metadata. -/
def paidSession (metadata : List (String × String)) : stripe.CheckoutSession :=
  { ID := "cs_1", URL := "https://checkout.example/cs_1", Customer := some ⟨"cus_new"⟩,
    Subscription := some ⟨"sub_1"⟩, PaymentStatus := "paid", Status := "complete",
    Metadata := metadata }

/-- A webhook environment: the signature verifies exactly for the header
`good`, the event then has type `eventType` and decodes to `session`. -/
def webhookEnv (eventType : String) (session : stripe.CheckoutSession) (updateErr : Bool) :
    WebhookEnv :=
  { ConstructEvent := fun payload sig _ =>
      if sig = "good" then .ok ⟨eventType, payload⟩ else .error "no valid signature"
    Unmarshal := fun _ => .ok session
    updateErr := updateErr }

/-- A "checkout completed" session that is complete but not yet paid (a
delayed payment method), with no metadata. -/
def unpaidSession : stripe.CheckoutSession :=
  { ID := "cs_2", URL := "https://checkout.example/cs_2", Customer := some ⟨"cus_new"⟩,
    Subscription := some ⟨"sub_2"⟩, PaymentStatus := "unpaid", Status := "complete",
    Metadata := [] }

/-- The metadata of a confirmation for the instance `id`, in hex form. -/
def metadataFor (id : ObjectID) : List (String × String) :=
  [("student_subscription_id", Hex id)]

def signedRequest : WebhookRequest :=
  { Body := "payload", readErr := false, StripeSignature := "good" }

def forgedRequest : WebhookRequest :=
  { Body := "payload", readErr := false, StripeSignature := "forged" }

/-- An instance row in state Pending/Open. -/
def pendingRow (id : ObjectID) : StudentSubscription :=
  { ID := id, SystemUserID := studentID, SubscriptionID := planID, CustomerID := "cus_new",
    PriceID := "price_1", StripeSubID := "", InvoiceID := "",
    PaymentLink := "https://checkout.example/cs_1", PaymentStatus := Open, Status := Pending,
    CreatedAt := 10, UpdatedAt := 11 }

def dbTwoInstances : Store :=
  { subscription := [gold],
    student_subscription := [pendingRow instanceID, pendingRow otherInstanceID],
    system_user := [student, manager] }

/-- The path parameter naming the plan "Gold". -/
def planParam : String := "000000000000000000000001"

/-- A path parameter that is a well-formed id of no plan. -/
def unknownParam : String := "000000000000000000000009"

def unknownID : ObjectID := ⟨[0, 0, 0, 0, 0, 0, 0, 0, 0, 0, 0, 9], rfl⟩

def newPlanID : ObjectID := ⟨[0, 0, 0, 0, 0, 0, 0, 0, 0, 0, 0, 6], rfl⟩

/-- The price 12.50. -/
def price1250 : Rat := ⟨25, 2, by decide, by norm_num⟩

/-- A provider for plan requests: it creates product `prod_new` and price
`price_new`, deletes products unless `delFails`, and is sent the exact number
of cents of a price. No database call fails. -/
def planEnv (delFails : Bool) : PlanEnv :=
  { productNew := fun _ => .ok ⟨"prod_new"⟩
    priceNew := fun _ => .ok ⟨"price_new"⟩
    productDel := fun id =>
      if delFails then .error (.other "provider unavailable") else .ok ⟨id⟩
    unitAmount := fun p => p.num * 100 / p.den
    NewObjectID := newPlanID
    nowCreated := 20
    nowUpdated := 21
    insertErr := false
    findExistingErr := false
    updateErr := false
    findErr := false
    deleteErr := false }

/-- The plan "Gold" after its kind was set to Yearly at time 21. -/
def goldYearly : models.Subscription := { gold with Type_ := Yearly, UpdatedAt := 21 }

/-- The plan "Gold" after its price was set to 12.50 at time 21, with the
price id `price_new`. -/
def goldRepriced : models.Subscription :=
  { gold with Price := price1250, PriceID := "price_new", UpdatedAt := 21 }

/-- The body `{"type": 3}`: a change of recurrence to Yearly, no price. -/
def bodyTypeYearly : PlanJSON :=
  { title := none, description := none, type_ := some 3, price := none }

/-- The body `{"price": 12.5}`: a change of price, no recurrence kind. -/
def bodyPriceOnly : PlanJSON :=
  { title := none, description := none, type_ := none, price := some price1250 }

/-- The body `{"type": 0}`: a change of recurrence to NoRecurring. -/
def bodyTypeNoRecurring : PlanJSON :=
  { title := none, description := none, type_ := some 0, price := none }

/-- The body `{"title": "Gold Plus", "price": 12.5, "type": 3}`. -/
def bodyTitlePriceYearly : PlanJSON :=
  { title := some "Gold Plus", description := none, type_ := some 3,
    price := some price1250 }

/-- The body `{"title": "Pass", "description": "One-time pass", "type": 0,
"price": 12.5}`: a plan of kind NoRecurring. -/
def bodyCreateNoRecurring : PlanJSON :=
  { title := some "Pass", description := some "One-time pass", type_ := some 0,
    price := some price1250 }

/-- The body `{"title": "Silver", "description": "Silver plan", "type": 1,
"price": 12.5}`: a Monthly plan. -/
def bodyCreateMonthly : PlanJSON :=
  { title := some "Silver", description := some "Silver plan", type_ := some 1,
    price := some price1250 }

/-- The body `{"title": "Silver", "description": "Silver plan", "type": 7,
"price": 12.5}`: a plan whose type is none of the four named kinds. -/
def bodyCreateKindSeven : PlanJSON :=
  { title := some "Silver", description := some "Silver plan", type_ := some 7,
    price := some price1250 }

/-- The price 19.99. -/
def price1999 : Rat := ⟨1999, 100, by decide, by norm_num⟩

/-- The price 9.99. -/
def price999 : Rat := ⟨999, 100, by decide, by norm_num⟩

/-- The provider of `planEnv`, sent the unit amount Go computes:
`int64(price * 100)` in `float64` arithmetic. -/
def float64PlanEnv : PlanEnv := { planEnv false with unitAmount := float64.unitAmount }

/-- The body `{"title": "Gold", "description": "Gold plan", "type": 1,
"price": 19.99}`. -/
def bodyCreateGold1999 : PlanJSON :=
  { title := some "Gold", description := some "Gold plan", type_ := some 1,
    price := some price1999 }

/-- The body `{"price": 19.99, "type": 1}` of an update. -/
def bodyPrice1999 : PlanJSON :=
  { title := none, description := none, type_ := some 1, price := some price1999 }

/-- The plan a successful create of `bodyCreateMonthly` with `planEnv`
persists. -/
def silver : models.Subscription :=
  { ID := newPlanID, Title := "Silver", Description := "Silver plan", Type_ := Monthly,
    Price := price1250, ProductID := "prod_new", PriceID := "price_new",
    CreatedAt := 20, UpdatedAt := 21 }

/-- A provider for plan requests whose create-price call fails. -/
def planEnvPriceFails : PlanEnv :=
  { planEnv false with priceNew := fun _ => .error (.other "provider unavailable") }

/-- A store with the plan "Gold" and two instances that snapshot its price
id. -/
def dbPlanWithInstances : Store :=
  { subscription := [gold],
    student_subscription := [pendingRow instanceID, pendingRow otherInstanceID],
    system_user := [student, manager] }

def managerDocID : ObjectID := ⟨[0, 0, 0, 0, 0, 0, 0, 0, 0, 0, 0, 7], rfl⟩

/-- The path parameter naming the manager document. -/
def managerParam : String := "000000000000000000000007"

/-- The manager document of Max. -/
def managerDoc : Manager :=
  { ID := managerDocID, SystemUserID := managerID, FirstName := "Max", LastName := "Muster",
    Email := "max@example.com", ManagerID := "M-1", CreatedAt := 3, UpdatedAt := 3 }

/-- A store with one manager and no student. -/
def managerStore : ManagerStore := { manager := [managerDoc], student := [] }

/-- The patch body `{"first_name": "Maxine"}`. -/
def patchFirstName : ManagerUpdate :=
  { FirstName := "Maxine", LastName := "", Email := "", ManagerID := "" }

/-- An environment of `PatchManager` in which no database call fails. -/
def managerEnv : ManagerEnv :=
  { findErr := false, updateErr := false, fetchErr := false, now := 30 }

/-- An environment of `Logout` in which no database call fails. -/
def logoutEnv : LogoutEnv := { findErr := false, updateErr := false }

/-- An environment of `AuthMiddleware` in which every token verifies and no
database call fails. -/
def authEnv : middleware.AuthEnv := { VerifyJWTToken := fun _ => true, findErr := false }

/-- A provider as in `subscribeEnv`, whose `session.New` call fails. -/
def subscribeEnvSessionFails : SubscribeEnv :=
  { subscribeEnv (fun _ => false) .resourceMissing with
    sessionNew := fun _ => .error (.other "provider unavailable") }

/-- A paid and complete "checkout completed" session for the instance `id`
that carries no subscription object (`"subscription": null`, as for a session
in payment mode). -/
def paidSessionNoSubscription (id : ObjectID) : stripe.CheckoutSession :=
  { ID := "cs_3", URL := "https://checkout.example/cs_3", Customer := some ⟨"cus_new"⟩,
    Subscription := none, PaymentStatus := "paid", Status := "complete",
    Metadata := metadataFor id }

end scenario

/-! ## Lemmas on object identifiers -/

namespace primitive

theorem hexDigit_utf8Size (n : Nat) (h : n < 16) : (hexDigit n).utf8Size = 1 := by
  interval_cases n <;> decide

theorem fromHexChar_hexDigit (n : Nat) (h : n < 16) : fromHexChar (hexDigit n) = some n := by
  interval_cases n <;> decide

theorem utf8Len_hexEncode (bs : List (Fin 256)) :
    String.utf8Len (hexEncode bs) = 2 * bs.length := by
  induction bs with
  | nil => rfl
  | cons b bs ih =>
    have h1 : b.val / 16 < 16 := by omega
    have h2 : b.val % 16 < 16 := by omega
    simp only [hexEncode, String.utf8Len_cons, ih, hexDigit_utf8Size _ h1,
      hexDigit_utf8Size _ h2, List.length_cons]
    omega

theorem hexDecode_hexEncode (bs : List (Fin 256)) : hexDecode (hexEncode bs) = some bs := by
  induction bs with
  | nil => rfl
  | cons b bs ih =>
    have h1 : b.val / 16 < 16 := by omega
    have h2 : b.val % 16 < 16 := by omega
    have h3 : (Fin.ofNat (b.val / 16 * 16 + b.val % 16) : Fin 256) = b := by
      apply Fin.ext
      simp only [Fin.ofNat, Nat.div_add_mod']
      exact Nat.mod_eq_of_lt b.isLt
    simp only [hexEncode, hexDecode, fromHexChar_hexDigit _ h1, fromHexChar_hexDigit _ h2, ih, h3]

theorem utf8ByteSize_append (s t : String) :
    (s ++ t).utf8ByteSize = s.utf8ByteSize + t.utf8ByteSize := by
  show String.utf8Len (s.data ++ t.data) = String.utf8Len s.data + String.utf8Len t.data
  exact String.utf8Len_append _ _

/-- The byte length of the `%v` rendering of an id is 36, not 24. -/
theorem utf8ByteSize_Sprintf_v (id : ObjectID) : (Sprintf_v id).utf8ByteSize = 36 := by
  have h := utf8Len_hexEncode id.val
  rw [id.property] at h
  have h10 : ("ObjectID(\"" : String).utf8ByteSize = 10 := by decide
  have h2 : ("\")" : String).utf8ByteSize = 2 := by decide
  have h24 : (Hex id).utf8ByteSize = 24 := by simp [Hex, h]
  simp only [Sprintf_v, ObjectID.String, utf8ByteSize_append, h10, h2, h24]

/-- The `%v` rendering of an id is never accepted by `ObjectIDFromHex`. -/
theorem ObjectIDFromHex_Sprintf_v (id : ObjectID) : ObjectIDFromHex (Sprintf_v id) = none := by
  simp [ObjectIDFromHex, utf8ByteSize_Sprintf_v]

/-- The `%v` rendering of an id is never the empty string. -/
theorem Sprintf_v_ne_empty (id : ObjectID) : Sprintf_v id ≠ "" := by
  intro h
  have h36 := utf8ByteSize_Sprintf_v id
  rw [h] at h36
  exact absurd h36 (by decide)

/-- The hex form of an id is parsed back to the id by `ObjectIDFromHex`. -/
theorem ObjectIDFromHex_Hex (id : ObjectID) : ObjectIDFromHex (Hex id) = some id := by
  have h := utf8Len_hexEncode id.val
  rw [id.property] at h
  have hsz : (Hex id).utf8ByteSize = 24 := by simp [Hex, h]
  simp [ObjectIDFromHex, hsz]
  simp [Hex, hexDecode_hexEncode, id.property]

end primitive

/-! ## Lemmas on the document store -/

namespace mongo

theorem findOne_key {α : Type} (key : α → primitive.ObjectID) (id : primitive.ObjectID)
    (l : List α) (d : α) (h : findOne key id l = some d) : key d = id := by
  induction l with
  | nil => simp [findOne] at h
  | cons x xs ih =>
    unfold findOne at h
    split at h
    · cases h; assumption
    · exact ih h

theorem updateOne_of_findOne_none {α : Type} (key : α → primitive.ObjectID)
    (id : primitive.ObjectID) (f : α → α) (l : List α) (h : findOne key id l = none) :
    updateOne key id f l = l := by
  induction l with
  | nil => rfl
  | cons x xs ih =>
    unfold findOne at h
    split at h
    · cases h
    · rename_i hne
      simp [updateOne, hne, ih h]

theorem updateOne_append_new {α : Type} (key : α → primitive.ObjectID)
    (f : α → α) (l : List α) (d : α) (h : findOne key (key d) l = none) :
    updateOne key (key d) f (l ++ [d]) = l ++ [f d] := by
  induction l with
  | nil => simp [updateOne]
  | cons x xs ih =>
    unfold findOne at h
    split at h
    · cases h
    · rename_i hne
      simp [updateOne, hne, ih h]

theorem findOne_append_new {α : Type} (key : α → primitive.ObjectID)
    (l : List α) (d : α) (h : findOne key (key d) l = none) :
    findOne key (key d) (l ++ [d]) = some d := by
  induction l with
  | nil => simp [findOne]
  | cons x xs ih =>
    unfold findOne at h
    split at h
    · cases h
    · rename_i hne
      simp [findOne, hne, ih h]

theorem findOne_updateOne {α : Type} (key : α → primitive.ObjectID)
    (id : primitive.ObjectID) (f : α → α) (hf : ∀ a, key (f a) = key a)
    (l : List α) (r : α) (h : findOne key id l = some r) :
    findOne key id (updateOne key id f l) = some (f r) := by
  induction l with
  | nil => simp [findOne] at h
  | cons x xs ih =>
    unfold findOne at h
    split at h
    · rename_i heq
      cases h
      simp [updateOne, heq, findOne, hf]
    · rename_i hne
      simp [updateOne, hne, findOne, ih h]

/-- The frame of `updateOne`: position by position, a document whose `_id` is
not the filter's is kept, and every document is either kept or replaced by
its image under the `$set`. -/
theorem updateOne_forall₂ {α : Type} (key : α → primitive.ObjectID)
    (id : primitive.ObjectID) (f : α → α) (l : List α) :
    List.Forall₂ (fun r r' => (key r ≠ id → r' = r) ∧ (r' = r ∨ r' = f r))
      l (updateOne key id f l) := by
  induction l with
  | nil => exact List.Forall₂.nil
  | cons x xs ih =>
    unfold updateOne
    split
    · rename_i heq
      refine List.Forall₂.cons ⟨fun hne => absurd heq hne, Or.inr rfl⟩ ?_
      exact List.forall₂_same.mpr (fun r _ => ⟨fun _ => rfl, Or.inl rfl⟩)
    · exact List.Forall₂.cons ⟨fun _ => rfl, Or.inl rfl⟩ ih

end mongo

/-! ## The payment-confirmation handler -/

namespace controllers

open primitive models

/-- Claim C3: when `webhook.ConstructEvent` returns an error (the signature
does not verify), `StripeWebhookHandler` answers with an error response (400
"Invalid signature" once the body has been read, 503 when the body could not
be read), leaves the whole store as it was and calls no provider, for every
payload. -/
theorem webhook_invalid_signature_no_write (env : WebhookEnv) (req : WebhookRequest)
    (db : Store) (e : String)
    (hsig : env.ConstructEvent req.Body req.StripeSignature endpointSecret = .error e) :
    (StripeWebhookHandler env req db).store = db ∧
    (StripeWebhookHandler env req db).calls = [] ∧
    (StripeWebhookHandler env req db).out =
      (if req.readErr ∨ req.Body.utf8ByteSize > MaxBodyBytes
       then errorJSON 503 "Unable to read request body"
       else errorJSON 400 "Invalid signature") := by
  by_cases hread : req.readErr ∨ req.Body.utf8ByteSize > MaxBodyBytes
  · simp [StripeWebhookHandler, hread]
  · simp [StripeWebhookHandler, hread, hsig]

end controllers

/-! ## The correlation key written by `StudentSubscription` -/

namespace controllers

open primitive models

/-- The calls `resolveCustomer` logs are `customer.Get` and `customer.New`
calls only. -/
theorem resolveCustomer_calls (env : SubscribeEnv) (u : SystemUser) (db : Store)
    (p : stripe.CheckoutSessionParams) :
    (∀ r, resolveCustomer env u db = .error r → ProviderCall.sessionNew p ∉ r.calls) ∧
    (∀ c db1 calls, resolveCustomer env u db = .ok (c, db1, calls) →
      ProviderCall.sessionNew p ∉ calls) := by
  unfold resolveCustomer
  constructor
  · intro r h
    split at h
    · split at h
      · cases h
      · split at h
        · cases h; simp
        · split at h
          · cases h; simp
          · cases h
    · split at h
      · cases h; simp
      · split at h
        · cases h; simp
        · cases h
  · intro c db1 calls h
    split at h
    · split at h
      · cases h; simp
      · split at h
        · cases h
        · split at h
          · cases h
          · cases h; simp
    · split at h
      · cases h
      · split at h
        · cases h
        · cases h; simp

/-- Every checkout session `createInstance` asks for carries exactly one
metadata entry: the `%v` rendering of the new instance id. -/
theorem createInstance_metadata (env : SubscribeEnv) (u : SystemUser)
    (plan : models.Subscription) (c : stripe.Customer) (db : Store)
    (calls : List ProviderCall) (p : stripe.CheckoutSessionParams)
    (hcalls : ProviderCall.sessionNew p ∉ calls)
    (hp : ProviderCall.sessionNew p ∈ (createInstance env u plan c db calls).calls) :
    p.Metadata = [("student_subscription_id", Sprintf_v env.NewObjectID)] := by
  unfold createInstance at hp
  simp only at hp
  split at hp
  · exact absurd hp hcalls
  · have key : ∀ q : stripe.CheckoutSessionParams,
        ProviderCall.sessionNew p ∈ calls ++ [ProviderCall.sessionNew q] → p = q := by
      intro q hq
      rcases List.mem_append.mp hq with h | h
      · exact absurd h hcalls
      · simpa using h
    split at hp
    · rw [key _ hp]; rfl
    · split at hp
      · rw [key _ hp]; rfl
      · split at hp
        · rw [key _ hp]; rfl
        · split at hp
          · rw [key _ hp]; rfl
          · rw [key _ hp]; rfl

/-- Every checkout session `StudentSubscription` asks the provider for is
tagged with the `%v` rendering of the new instance id. -/
theorem StudentSubscription_metadata (env : SubscribeEnv) (user : gin.ContextValue)
    (body : Option StudentSubscriptionRequest) (db : Store)
    (p : stripe.CheckoutSessionParams)
    (hp : ProviderCall.sessionNew p ∈ (StudentSubscription env user body db).calls) :
    p.Metadata = [("student_subscription_id", Sprintf_v env.NewObjectID)] := by
  unfold StudentSubscription at hp
  split at hp
  · simp at hp
  · simp at hp
  · split at hp
    · simp at hp
    · split at hp
      · simp at hp
      · simp only at hp
        split at hp
        · simp at hp
        · split at hp
          · rename_i r hr
            exact absurd hp ((resolveCustomer_calls env _ db p).1 r hr)
          · rename_i c db1 calls hr
            exact createInstance_metadata env _ _ _ _ _ p
              ((resolveCustomer_calls env _ db p).2 c db1 calls hr) hp

/-- The correlation key as `StudentSubscription` writes it is rejected by
`StripeWebhookHandler`: a signature-valid, paid and complete "checkout
completed" event that echoes the metadata of a checkout session created by
`StudentSubscription` is answered with 400 "Invalid student_subscription_id
format", and the store is left as it was. -/
theorem webhook_rejects_subscribe_key (env : SubscribeEnv) (user : gin.ContextValue)
    (body : Option StudentSubscriptionRequest) (db : Store)
    (p : stripe.CheckoutSessionParams)
    (hp : ProviderCall.sessionNew p ∈ (StudentSubscription env user body db).calls)
    (wenv : WebhookEnv) (req : WebhookRequest) (event : stripe.Event)
    (session : stripe.CheckoutSession) (db1 : Store)
    (hread : req.readable)
    (hsig : wenv.ConstructEvent req.Body req.StripeSignature endpointSecret = .ok event)
    (htype : event.Type_ = "checkout.session.completed")
    (hjson : wenv.Unmarshal event.Raw = .ok session)
    (hpaid : session.PaymentStatus = "paid") (hcomplete : session.Status = "complete")
    (hecho : session.Metadata = p.Metadata) :
    StripeWebhookHandler wenv req db1 =
      ⟨errorJSON 400 "Invalid student_subscription_id format", db1, []⟩ := by
  have hm := StudentSubscription_metadata env user body db p hp
  have hkey : stripe.mapGet session.Metadata "student_subscription_id" =
      Sprintf_v env.NewObjectID := by
    rw [hecho, hm]; simp [stripe.mapGet]
  unfold WebhookRequest.readable at hread
  simp [StripeWebhookHandler, hread, hsig, htype, hjson, hpaid, hcomplete, hkey,
    Sprintf_v_ne_empty, ObjectIDFromHex_Sprintf_v]

end controllers

/-! ## Properties of `StripeWebhookHandler` -/

namespace controllers

open primitive models

/-- The handler on a signature-valid, paid and complete "checkout completed"
event whose key parses to `K` and whose session has a subscription object. -/
theorem StripeWebhookHandler_confirm (env : WebhookEnv) (req : WebhookRequest) (db : Store)
    (event : stripe.Event) (session : stripe.CheckoutSession) (K : ObjectID)
    (sub : stripe.Subscription)
    (hread : req.readable)
    (hsig : env.ConstructEvent req.Body req.StripeSignature endpointSecret = .ok event)
    (htype : event.Type_ = "checkout.session.completed")
    (hjson : env.Unmarshal event.Raw = .ok session)
    (hpaid : session.PaymentStatus = "paid") (hcomplete : session.Status = "complete")
    (hkey : ObjectIDFromHex (stripe.mapGet session.Metadata "student_subscription_id") = some K)
    (hsub : session.Subscription = some sub) :
    StripeWebhookHandler env req db =
      if env.updateErr then
        ⟨.json 400 (.errorWithCause "Error while updating the data"), db, []⟩
      else
        ⟨successJSON,
         { db with student_subscription :=
            (mongo.updateOne models.StudentSubscription.ID K (fun r => confirmed r sub.ID)
              db.student_subscription) }, []⟩ := by
  have hne : stripe.mapGet session.Metadata "student_subscription_id" ≠ "" := by
    intro h
    rw [h, show ObjectIDFromHex "" = none from by decide] at hkey
    cases hkey
  unfold WebhookRequest.readable at hread
  simp only [StripeWebhookHandler, hread, hsig, htype, hjson, hpaid, hcomplete, hkey, hsub,
    hne, confirmed, and_self, if_true, if_false]

/-- The handler on a signature-valid, paid and complete "checkout completed"
event whose key parses to `K` and whose session has no subscription object:
it panics before any write. -/
theorem StripeWebhookHandler_no_subscription (env : WebhookEnv) (req : WebhookRequest)
    (db : Store) (event : stripe.Event) (session : stripe.CheckoutSession) (K : ObjectID)
    (hread : req.readable)
    (hsig : env.ConstructEvent req.Body req.StripeSignature endpointSecret = .ok event)
    (htype : event.Type_ = "checkout.session.completed")
    (hjson : env.Unmarshal event.Raw = .ok session)
    (hpaid : session.PaymentStatus = "paid") (hcomplete : session.Status = "complete")
    (hkey : ObjectIDFromHex (stripe.mapGet session.Metadata "student_subscription_id") = some K)
    (hsub : session.Subscription = none) :
    StripeWebhookHandler env req db = ⟨.panic, db, []⟩ := by
  have hne : stripe.mapGet session.Metadata "student_subscription_id" ≠ "" := by
    intro h
    rw [h, show ObjectIDFromHex "" = none from by decide] at hkey
    cases hkey
  unfold WebhookRequest.readable at hread
  simp only [StripeWebhookHandler, hread, hsig, htype, hjson, hpaid, hcomplete, hkey, hsub,
    hne, and_self, if_true, if_false]

/-- Claim C1, the code at a failing input: the first subscribe of the student
to "Gold" succeeds and creates instance `000000000000000000000003` in state
Pending/Open; the metadata it sends is `ObjectID("000000000000000000000003")`,
which `ObjectIDFromHex` rejects (the hex form would parse to the instance id);
the signature-valid, paid and complete confirmation echoing that metadata is
answered 400 and the instance stays Pending/Open without a provider
subscription id. -/
theorem subscribe_then_confirm_key_rejected :
    scenario.firstSubscribe.out =
      .json 200 (.studentSubscription (scenario.pendingRow scenario.instanceID)) ∧
    scenario.sentMetadata scenario.firstSubscribe.calls =
      [("student_subscription_id", "ObjectID(\"000000000000000000000003\")")] ∧
    ObjectIDFromHex "ObjectID(\"000000000000000000000003\")" = none ∧
    ObjectIDFromHex (Hex scenario.instanceID) = some scenario.instanceID ∧
    StripeWebhookHandler
        (scenario.webhookEnv "checkout.session.completed"
          (scenario.paidSession (scenario.sentMetadata scenario.firstSubscribe.calls)) false)
        scenario.signedRequest scenario.firstSubscribe.store =
      ⟨errorJSON 400 "Invalid student_subscription_id format",
       scenario.firstSubscribe.store, []⟩ ∧
    mongo.findOne models.StudentSubscription.ID scenario.instanceID
        scenario.firstSubscribe.store.student_subscription =
      some (scenario.pendingRow scenario.instanceID) ∧
    (scenario.pendingRow scenario.instanceID).Status = Pending ∧
    (scenario.pendingRow scenario.instanceID).PaymentStatus = Open := by
  decide

/-- Claim C2: on a signature-valid, paid and complete "checkout completed"
event whose metadata key parses to `K`, for every store, the handler leaves the
plan and user collections as they were; position by position in the instance
collection every row whose id is not `K` is unchanged and every row keeps all
fields other than `payment_status`, `status` and `stripe_sub_id`; and, when the
session carries a subscription object and the update returns no error, the
instance with id `K`, whatever its prior state, becomes that row with
`payment_status` Paid, `status` Subscribed and `stripe_sub_id` the
subscription id of the event. -/
theorem webhook_updates_exactly_instance_K (env : WebhookEnv) (req : WebhookRequest)
    (db : Store) (event : stripe.Event) (session : stripe.CheckoutSession) (K : ObjectID)
    (hread : req.readable)
    (hsig : env.ConstructEvent req.Body req.StripeSignature endpointSecret = .ok event)
    (htype : event.Type_ = "checkout.session.completed")
    (hjson : env.Unmarshal event.Raw = .ok session)
    (hpaid : session.PaymentStatus = "paid") (hcomplete : session.Status = "complete")
    (hkey : ObjectIDFromHex (stripe.mapGet session.Metadata "student_subscription_id")
      = some K) :
    (StripeWebhookHandler env req db).store.subscription = db.subscription ∧
    (StripeWebhookHandler env req db).store.system_user = db.system_user ∧
    List.Forall₂ (fun r r' => (r.ID ≠ K → r' = r) ∧ agreeOutsideConfirmation r r')
      db.student_subscription (StripeWebhookHandler env req db).store.student_subscription ∧
    (∀ sub r, session.Subscription = some sub → env.updateErr = false →
      mongo.findOne models.StudentSubscription.ID K db.student_subscription = some r →
      mongo.findOne models.StudentSubscription.ID K
          (StripeWebhookHandler env req db).store.student_subscription =
        some { r with PaymentStatus := Paid, Status := Subscribed, StripeSubID := sub.ID }) := by
  have hsame : List.Forall₂ (fun r r' => (r.ID ≠ K → r' = r) ∧ agreeOutsideConfirmation r r')
      db.student_subscription db.student_subscription :=
    List.forall₂_same.mpr (fun r _ => ⟨fun _ => rfl, by simp [agreeOutsideConfirmation]⟩)
  cases hs : session.Subscription with
  | none =>
    rw [StripeWebhookHandler_no_subscription env req db event session K hread hsig htype hjson
      hpaid hcomplete hkey hs]
    exact ⟨rfl, rfl, hsame, fun sub r h => by cases h⟩
  | some sub =>
    rw [StripeWebhookHandler_confirm env req db event session K sub hread hsig htype hjson
      hpaid hcomplete hkey hs]
    cases herr : env.updateErr with
    | true =>
      rw [if_pos rfl]
      exact ⟨rfl, rfl, hsame, fun _ _ _ h => by cases h⟩
    | false =>
      rw [if_neg (by decide)]
      refine ⟨rfl, rfl, ?_, ?_⟩
      · refine List.Forall₂.imp ?_
          (mongo.updateOne_forall₂ models.StudentSubscription.ID K
            (fun r => confirmed r sub.ID) db.student_subscription)
        intro r r' h
        refine ⟨h.1, ?_⟩
        rcases h.2 with h2 | h2 <;> subst h2 <;> simp [agreeOutsideConfirmation, confirmed]
      · intro sub' r hsub' _ hfind
        cases hsub'
        exact mongo.findOne_updateOne models.StudentSubscription.ID K
          (fun r => confirmed r sub.ID) (fun _ => rfl) db.student_subscription r hfind

/-- Claim C2, a concrete run: a confirmation for instance
`000000000000000000000003` on a store with two Pending instances. -/
theorem webhook_updates_exactly_instance_K_witness :
    mongo.findOne models.StudentSubscription.ID scenario.instanceID
        (StripeWebhookHandler
          (scenario.webhookEnv "checkout.session.completed"
            (scenario.paidSession (scenario.metadataFor scenario.instanceID)) false)
          scenario.signedRequest scenario.dbTwoInstances).store.student_subscription =
      some { scenario.pendingRow scenario.instanceID with
        PaymentStatus := Paid, Status := Subscribed, StripeSubID := "sub_1" } :=
  (webhook_updates_exactly_instance_K
    (scenario.webhookEnv "checkout.session.completed"
      (scenario.paidSession (scenario.metadataFor scenario.instanceID)) false)
    scenario.signedRequest scenario.dbTwoInstances
    ⟨"checkout.session.completed", "payload"⟩
    (scenario.paidSession (scenario.metadataFor scenario.instanceID)) scenario.instanceID
    (by decide) rfl (by decide) rfl (by decide) (by decide) (by decide)).2.2.2
    ⟨"sub_1"⟩ (scenario.pendingRow scenario.instanceID) (by decide) (by decide) (by decide)

/-- Claim C3, a concrete run: a request whose signature header does not
verify, on a store with two Pending instances. -/
theorem webhook_invalid_signature_no_write_witness :
    (StripeWebhookHandler
        (scenario.webhookEnv "checkout.session.completed"
          (scenario.paidSession (scenario.metadataFor scenario.instanceID)) false)
        scenario.forgedRequest scenario.dbTwoInstances).store = scenario.dbTwoInstances :=
  (webhook_invalid_signature_no_write
    (scenario.webhookEnv "checkout.session.completed"
      (scenario.paidSession (scenario.metadataFor scenario.instanceID)) false)
    scenario.forgedRequest scenario.dbTwoInstances "no valid signature" rfl).1

/-- Claim C4, refuted as stated: a signature-valid, paid and complete
"checkout completed" event with a well-formed key and a subscription object,
handled while the store update returns an error, is answered with HTTP 400
"Error while updating the data", not with 200 "success". -/
theorem webhook_update_error_answered_400 :
    scenario.signedRequest.readable ∧
    ObjectIDFromHex (stripe.mapGet
        (scenario.paidSession (scenario.metadataFor scenario.instanceID)).Metadata
        "student_subscription_id") = some scenario.instanceID ∧
    (StripeWebhookHandler
        (scenario.webhookEnv "checkout.session.completed"
          (scenario.paidSession (scenario.metadataFor scenario.instanceID)) true)
        scenario.signedRequest scenario.dbTwoInstances).out =
      .json 400 (.errorWithCause "Error while updating the data") ∧
    (StripeWebhookHandler
        (scenario.webhookEnv "checkout.session.completed"
          (scenario.paidSession (scenario.metadataFor scenario.instanceID)) true)
        scenario.signedRequest scenario.dbTwoInstances).out ≠ successJSON := by
  decide

/-- Claim C4, amended: on a signature-valid, paid and complete "checkout
completed" event with a well-formed key and a subscription object, the handler
answers 200 "success" exactly when the store update returns no error (also
when no instance has the key); when the update returns an error it answers
HTTP 400 "Error while updating the data" and the store is unchanged. -/
theorem webhook_acknowledges_iff_update_ok (env : WebhookEnv) (req : WebhookRequest)
    (db : Store) (event : stripe.Event) (session : stripe.CheckoutSession) (K : ObjectID)
    (sub : stripe.Subscription)
    (hread : req.readable)
    (hsig : env.ConstructEvent req.Body req.StripeSignature endpointSecret = .ok event)
    (htype : event.Type_ = "checkout.session.completed")
    (hjson : env.Unmarshal event.Raw = .ok session)
    (hpaid : session.PaymentStatus = "paid") (hcomplete : session.Status = "complete")
    (hkey : ObjectIDFromHex (stripe.mapGet session.Metadata "student_subscription_id")
      = some K)
    (hsub : session.Subscription = some sub) :
    (env.updateErr = false → (StripeWebhookHandler env req db).out = successJSON) ∧
    (env.updateErr = true →
      (StripeWebhookHandler env req db).out =
        .json 400 (.errorWithCause "Error while updating the data") ∧
      (StripeWebhookHandler env req db).store = db) := by
  rw [StripeWebhookHandler_confirm env req db event session K sub hread hsig htype hjson
    hpaid hcomplete hkey hsub]
  constructor
  · intro h
    rw [if_neg (by simp [h])]
  · intro h
    rw [if_pos h]
    exact ⟨rfl, rfl⟩

/-- Claim C4 as amended, a concrete run: the update succeeds and the event is
acknowledged. -/
theorem webhook_acknowledges_iff_update_ok_witness :
    (StripeWebhookHandler
        (scenario.webhookEnv "checkout.session.completed"
          (scenario.paidSession (scenario.metadataFor scenario.instanceID)) false)
        scenario.signedRequest scenario.dbTwoInstances).out = successJSON :=
  (webhook_acknowledges_iff_update_ok
    (scenario.webhookEnv "checkout.session.completed"
      (scenario.paidSession (scenario.metadataFor scenario.instanceID)) false)
    scenario.signedRequest scenario.dbTwoInstances
    ⟨"checkout.session.completed", "payload"⟩
    (scenario.paidSession (scenario.metadataFor scenario.instanceID)) scenario.instanceID
    ⟨"sub_1"⟩ (by decide) rfl (by decide) rfl (by decide) (by decide) (by decide)
    (by decide)).1 (by decide)

/-- Claim C5, refuted as stated: a signature-valid "checkout completed" event
that is not paid and carries no `student_subscription_id` is answered with
200 "success", not with a validation error. -/
theorem webhook_unpaid_missing_key_acknowledged :
    scenario.signedRequest.readable ∧
    stripe.mapGet scenario.unpaidSession.Metadata "student_subscription_id" = "" ∧
    StripeWebhookHandler
        (scenario.webhookEnv "checkout.session.completed" scenario.unpaidSession false)
        scenario.signedRequest scenario.dbTwoInstances =
      ⟨.json 200 (.h [("status", "success")]), scenario.dbTwoInstances, []⟩ := by
  decide

/-- Claim C5, amended: on a signature-valid "checkout completed" event whose
metadata has no `student_subscription_id` entry (or an empty one), or one that
`ObjectIDFromHex` rejects, the handler changes no collection; when the event
is paid and complete it answers HTTP 400 (a validation error), and when the
event is not both paid and complete the key is not read and it answers 200
"success". -/
theorem webhook_bad_key_no_write (env : WebhookEnv) (req : WebhookRequest)
    (db : Store) (event : stripe.Event) (session : stripe.CheckoutSession)
    (hread : req.readable)
    (hsig : env.ConstructEvent req.Body req.StripeSignature endpointSecret = .ok event)
    (htype : event.Type_ = "checkout.session.completed")
    (hjson : env.Unmarshal event.Raw = .ok session)
    (hbad : stripe.mapGet session.Metadata "student_subscription_id" = "" ∨
      ObjectIDFromHex (stripe.mapGet session.Metadata "student_subscription_id") = none) :
    (StripeWebhookHandler env req db).store = db ∧
    (StripeWebhookHandler env req db).calls = [] ∧
    (session.PaymentStatus = "paid" ∧ session.Status = "complete" →
      (StripeWebhookHandler env req db).out =
          errorJSON 400 "Invalid student_subscription_id" ∨
      (StripeWebhookHandler env req db).out =
          errorJSON 400 "Invalid student_subscription_id format") ∧
    (¬ (session.PaymentStatus = "paid" ∧ session.Status = "complete") →
      (StripeWebhookHandler env req db).out = successJSON) := by
  unfold WebhookRequest.readable at hread
  by_cases hpc : session.PaymentStatus = "paid" ∧ session.Status = "complete"
  · by_cases hempty : stripe.mapGet session.Metadata "student_subscription_id" = ""
    · simp [StripeWebhookHandler, hread, hsig, htype, hjson, hpc, hempty]
    · have hnone : ObjectIDFromHex
          (stripe.mapGet session.Metadata "student_subscription_id") = none := by
        rcases hbad with h | h
        · exact absurd h hempty
        · exact h
      simp [StripeWebhookHandler, hread, hsig, htype, hjson, hpc, hempty, hnone]
  · simp [StripeWebhookHandler, hread, hsig, htype, hjson, hpc]

/-- Claim C5 as amended, a concrete run: a paid and complete event without
metadata is answered 400 and the store is unchanged. -/
theorem webhook_bad_key_no_write_witness :
    (StripeWebhookHandler
        (scenario.webhookEnv "checkout.session.completed" (scenario.paidSession []) false)
        scenario.signedRequest scenario.dbTwoInstances).store = scenario.dbTwoInstances :=
  (webhook_bad_key_no_write
    (scenario.webhookEnv "checkout.session.completed" (scenario.paidSession []) false)
    scenario.signedRequest scenario.dbTwoInstances
    ⟨"checkout.session.completed", "payload"⟩ (scenario.paidSession [])
    (by decide) rfl (by decide) rfl (Or.inl (by decide))).1

/-- Claim C6: a signature-valid event whose type is not
"checkout.session.completed" is answered with HTTP 200 and status "success";
every collection is left unchanged and no provider is called. -/
theorem webhook_other_event_acknowledged (env : WebhookEnv) (req : WebhookRequest)
    (db : Store) (event : stripe.Event)
    (hread : req.readable)
    (hsig : env.ConstructEvent req.Body req.StripeSignature endpointSecret = .ok event)
    (htype : event.Type_ ≠ "checkout.session.completed") :
    StripeWebhookHandler env req db = ⟨.json 200 (.h [("status", "success")]), db, []⟩ := by
  unfold WebhookRequest.readable at hread
  simp [StripeWebhookHandler, hread, hsig, htype, successJSON]

/-- Claim C6, a concrete run: an "invoice.paid" event on a store with two
Pending instances. -/
theorem webhook_other_event_acknowledged_witness :
    StripeWebhookHandler
        (scenario.webhookEnv "invoice.paid"
          (scenario.paidSession (scenario.metadataFor scenario.instanceID)) false)
        scenario.signedRequest scenario.dbTwoInstances =
      ⟨.json 200 (.h [("status", "success")]), scenario.dbTwoInstances, []⟩ :=
  webhook_other_event_acknowledged
    (scenario.webhookEnv "invoice.paid"
      (scenario.paidSession (scenario.metadataFor scenario.instanceID)) false)
    scenario.signedRequest scenario.dbTwoInstances ⟨"invoice.paid", "payload"⟩
    (by decide) rfl (by decide)

end controllers

/-! ## Properties of `StudentSubscription` -/

namespace controllers

open primitive models

theorem newStudentSubscription_ID (env : SubscribeEnv) (u : SystemUser)
    (plan : models.Subscription) : (newStudentSubscription env u plan).ID = env.NewObjectID :=
  rfl

/-- A run of `createInstance` that answers 200: the id was fresh, the session
was created with a customer, and the result is the inserted row with the
checkout attached, appended to the instance collection. -/
theorem createInstance_ok_inv (env : SubscribeEnv) (u : SystemUser)
    (plan : models.Subscription) (c : stripe.Customer) (db : Store)
    (calls : List ProviderCall) (b : gin.Body)
    (h : (createInstance env u plan c db calls).out = .json 200 b) :
    ∃ session cust,
      env.sessionNew (newCheckoutParams env.NewObjectID plan c) = .ok session ∧
      session.Customer = some cust ∧
      mongo.findOne models.StudentSubscription.ID env.NewObjectID db.student_subscription
        = none ∧
      createInstance env u plan c db calls =
        ⟨.json 200 (.studentSubscription
            (attachCheckout cust.ID session.URL (newStudentSubscription env u plan))),
         { db with student_subscription := db.student_subscription ++
            [attachCheckout cust.ID session.URL (newStudentSubscription env u plan)] },
         calls ++ [.sessionNew (newCheckoutParams env.NewObjectID plan c)]⟩ := by
  cases hins : env.insertErr with
  | true => simp [createInstance, hins, errorJSON] at h
  | false =>
    cases hfind : mongo.findOne models.StudentSubscription.ID env.NewObjectID
        db.student_subscription with
    | some d =>
      simp [createInstance, hins, mongo.insertOne, newStudentSubscription_ID, hfind,
        errorJSON] at h
    | none =>
      cases hsess : env.sessionNew (newCheckoutParams env.NewObjectID plan c) with
      | error e =>
        simp [createInstance, hins, mongo.insertOne, newStudentSubscription_ID, hfind,
          hsess, errorJSON] at h
      | ok session =>
        cases hc : session.Customer with
        | none =>
          simp [createInstance, hins, mongo.insertOne, newStudentSubscription_ID, hfind,
            hsess, hc] at h
        | some cust =>
          cases hupd : env.updateInstanceErr with
          | true =>
            simp [createInstance, hins, mongo.insertOne, newStudentSubscription_ID, hfind,
              hsess, hc, hupd, errorJSON] at h
          | false =>
            have hfindNew : mongo.findOne models.StudentSubscription.ID
                (models.StudentSubscription.ID (newStudentSubscription env u plan))
                db.student_subscription = none := hfind
            have hfindAttached : mongo.findOne models.StudentSubscription.ID
                (models.StudentSubscription.ID
                  (attachCheckout cust.ID session.URL (newStudentSubscription env u plan)))
                db.student_subscription = none := hfind
            have hupdate := mongo.updateOne_append_new models.StudentSubscription.ID
              (attachCheckout cust.ID session.URL) db.student_subscription
              (newStudentSubscription env u plan) hfindNew
            have hget := mongo.findOne_append_new models.StudentSubscription.ID
              db.student_subscription
              (attachCheckout cust.ID session.URL (newStudentSubscription env u plan)) hfindAttached
            rw [newStudentSubscription_ID] at hupdate
            change mongo.findOne models.StudentSubscription.ID env.NewObjectID _ = _ at hget
            cases hf : env.findInstanceErr with
            | true =>
              simp [createInstance, hins, mongo.insertOne, newStudentSubscription_ID, hfind,
                hsess, hc, hupd, hf, errorJSON] at h
            | false =>
              refine ⟨session, cust, rfl, hc, rfl, ?_⟩
              simp [createInstance, hins, mongo.insertOne, newStudentSubscription_ID, hfind,
                hsess, hc, hupd, hf, hupdate, hget]

/-- Whatever its outcome, `createInstance` leaves the plan and user
collections as they were, makes no create-customer call, and either leaves the
instance collection as it was or appends one row in state Pending/Open. -/
theorem createInstance_frame (env : SubscribeEnv) (u : SystemUser)
    (plan : models.Subscription) (c : stripe.Customer) (db : Store)
    (calls : List ProviderCall) :
    (createInstance env u plan c db calls).store.subscription = db.subscription ∧
    (createInstance env u plan c db calls).store.system_user = db.system_user ∧
    ((createInstance env u plan c db calls).calls = calls ∨
      (createInstance env u plan c db calls).calls =
        calls ++ [.sessionNew (newCheckoutParams env.NewObjectID plan c)]) ∧
    ((createInstance env u plan c db calls).store.student_subscription =
        db.student_subscription ∨
      ∃ row, (createInstance env u plan c db calls).store.student_subscription =
          db.student_subscription ++ [row] ∧
        row.Status = Pending ∧ row.PaymentStatus = Open) := by
  cases hins : env.insertErr with
  | true => simp [createInstance, hins]
  | false =>
    cases hfind : mongo.findOne models.StudentSubscription.ID env.NewObjectID
        db.student_subscription with
    | some d =>
      simp [createInstance, hins, mongo.insertOne, newStudentSubscription_ID, hfind]
    | none =>
      have hnew : ∃ row : models.StudentSubscription,
          db.student_subscription ++ [newStudentSubscription env u plan] =
            db.student_subscription ++ [row] ∧ row.Status = Pending ∧
            row.PaymentStatus = Open :=
        ⟨_, rfl, rfl, rfl⟩
      cases hsess : env.sessionNew (newCheckoutParams env.NewObjectID plan c) with
      | error e =>
        simp only [createInstance, hins, mongo.insertOne, newStudentSubscription_ID, hfind,
          hsess]
        exact ⟨rfl, rfl, Or.inr rfl, Or.inr hnew⟩
      | ok session =>
        cases hc : session.Customer with
        | none =>
          simp only [createInstance, hins, mongo.insertOne, newStudentSubscription_ID, hfind,
            hsess, hc]
          exact ⟨rfl, rfl, Or.inr rfl, Or.inr hnew⟩
        | some cust =>
          cases hupd : env.updateInstanceErr with
          | true =>
            simp only [createInstance, hins, mongo.insertOne, newStudentSubscription_ID,
              hfind, hsess, hc, hupd]
            exact ⟨rfl, rfl, Or.inr rfl, Or.inr hnew⟩
          | false =>
            have hfindNew : mongo.findOne models.StudentSubscription.ID
                (models.StudentSubscription.ID (newStudentSubscription env u plan))
                db.student_subscription = none := hfind
            have hupdate := mongo.updateOne_append_new models.StudentSubscription.ID
              (attachCheckout cust.ID session.URL) db.student_subscription
              (newStudentSubscription env u plan) hfindNew
            rw [newStudentSubscription_ID] at hupdate
            have hrow : ∃ row : models.StudentSubscription,
                db.student_subscription ++
                    [attachCheckout cust.ID session.URL (newStudentSubscription env u plan)] =
                  db.student_subscription ++ [row] ∧ row.Status = Pending ∧
                  row.PaymentStatus = Open :=
              ⟨_, rfl, rfl, rfl⟩
            have hfindAttached : mongo.findOne models.StudentSubscription.ID
                (models.StudentSubscription.ID
                  (attachCheckout cust.ID session.URL (newStudentSubscription env u plan)))
                db.student_subscription = none := hfind
            have hget := mongo.findOne_append_new models.StudentSubscription.ID
              db.student_subscription
              (attachCheckout cust.ID session.URL (newStudentSubscription env u plan)) hfindAttached
            change mongo.findOne models.StudentSubscription.ID env.NewObjectID _ = _ at hget
            cases hf : env.findInstanceErr with
            | true =>
              have hres : createInstance env u plan c db calls =
                  ⟨errorJSON 500 "Failed to get the data.",
                   { db with student_subscription := db.student_subscription ++
                      [attachCheckout cust.ID session.URL (newStudentSubscription env u plan)] },
                   calls ++ [.sessionNew (newCheckoutParams env.NewObjectID plan c)]⟩ := by
                simp [createInstance, hins, mongo.insertOne, newStudentSubscription_ID, hfind,
                  hsess, hc, hupd, hf, hupdate]
              rw [hres]
              exact ⟨rfl, rfl, Or.inr rfl, Or.inr hrow⟩
            | false =>
              have hres : createInstance env u plan c db calls =
                  ⟨.json 200 (.studentSubscription
                      (attachCheckout cust.ID session.URL (newStudentSubscription env u plan))),
                   { db with student_subscription := db.student_subscription ++
                      [attachCheckout cust.ID session.URL (newStudentSubscription env u plan)] },
                   calls ++ [.sessionNew (newCheckoutParams env.NewObjectID plan c)]⟩ := by
                simp [createInstance, hins, mongo.insertOne, newStudentSubscription_ID, hfind,
                  hsess, hc, hupd, hf, hupdate, hget]
              rw [hres]
              exact ⟨rfl, rfl, Or.inr rfl, Or.inr hrow⟩

/-- The two ways `resolveCustomer` ends when it has to create a customer,
having logged `calls` so far. -/
theorem resolveCustomer_create (env : SubscribeEnv) (u : SystemUser) (db : Store)
    (hcase : u.StripeCustomerID = "" ∨
      ∃ e, env.customerGet u.StripeCustomerID = .error e) :
    let calls := (if u.StripeCustomerID = "" then []
        else [ProviderCall.customerGet u.StripeCustomerID]) ++
      [ProviderCall.customerNew u.Email u.Name]
    resolveCustomer env u db =
      match env.customerNew u.Email u.Name with
      | .error _ => .error ⟨errorJSON 500 "Failed to create Stripe customer", db, calls⟩
      | .ok c =>
        if env.updateUserErr then
          .error ⟨errorJSON 500
            "Failed to update Stripe customer ID in the system user table", db, calls⟩
        else
          .ok (c, { db with system_user := (mongo.updateOne SystemUser.ID u.ID
            (fun x => { x with StripeCustomerID := c.ID }) db.system_user) }, calls) := by
  intro calls
  by_cases hid : u.StripeCustomerID = ""
  · cases hnew : env.customerNew u.Email u.Name with
    | error e =>
      simp [resolveCustomer, hid, createStripeCustomer, hnew, calls]
    | ok c =>
      cases hupd : env.updateUserErr <;>
        simp [resolveCustomer, hid, createStripeCustomer, hnew, updateStripeCustomerID,
          hupd, calls]
  · rcases hcase with h | ⟨e, hget⟩
    · exact absurd h hid
    · cases hnew : env.customerNew u.Email u.Name with
      | error e' =>
        simp [resolveCustomer, hid, hget, createStripeCustomer, hnew, calls]
      | ok c =>
        cases hupd : env.updateUserErr <;>
          simp [resolveCustomer, hid, hget, createStripeCustomer, hnew,
            updateStripeCustomerID, hupd, calls]

/-- When the stored customer id is non-empty and `customer.Get` succeeds,
`resolveCustomer` uses that customer and writes nothing. -/
theorem resolveCustomer_reuse (env : SubscribeEnv) (u : SystemUser) (db : Store)
    (c : stripe.Customer) (hid : u.StripeCustomerID ≠ "")
    (hget : env.customerGet u.StripeCustomerID = .ok c) :
    resolveCustomer env u db = .ok (c, db, [ProviderCall.customerGet u.StripeCustomerID]) := by
  simp [resolveCustomer, hid, hget]

/-- The handler for a student whose request names an existing plan. -/
theorem StudentSubscription_student (env : SubscribeEnv) (u : SystemUser)
    (req : StudentSubscriptionRequest) (plan : models.Subscription) (db : Store)
    (hrole : u.Role = StudentRole) (herr : env.findPlanErr = false)
    (hplan : mongo.findOne models.Subscription.ID req.SubscriptionID db.subscription
      = some plan) :
    StudentSubscription env (.user u) (some req) db =
      match resolveCustomer env u db with
      | .error r => r
      | .ok (c, db1, calls) => createInstance env u plan c db1 calls := by
  simp only [StudentSubscription, hrole, herr, hplan, ne_eq, not_true_eq_false,
    Bool.false_eq_true, if_false]

/-- A run of `StudentSubscription` that answers 200 was made by a student,
with a body that binds, on a plan that exists, and went through
`resolveCustomer` and `createInstance`. -/
theorem StudentSubscription_ok_inv (env : SubscribeEnv) (user : gin.ContextValue)
    (body : Option StudentSubscriptionRequest) (db : Store) (b : gin.Body)
    (h : (StudentSubscription env user body db).out = .json 200 b) :
    ∃ u req plan c db1 calls,
      user = .user u ∧ u.Role = StudentRole ∧ body = some req ∧
      env.findPlanErr = false ∧
      mongo.findOne models.Subscription.ID req.SubscriptionID db.subscription = some plan ∧
      resolveCustomer env u db = .ok (c, db1, calls) ∧
      StudentSubscription env user body db = createInstance env u plan c db1 calls := by
  cases user with
  | absent => simp [StudentSubscription, errorJSON] at h
  | other => simp [StudentSubscription, errorJSON] at h
  | user u =>
    by_cases hrole : u.Role = StudentRole
    · cases body with
      | none => simp [StudentSubscription, hrole, errorJSON] at h
      | some req =>
        cases herr : env.findPlanErr with
        | true => simp [StudentSubscription, hrole, herr, errorJSON] at h
        | false =>
          cases hplan : mongo.findOne models.Subscription.ID req.SubscriptionID
              db.subscription with
          | none => simp [StudentSubscription, hrole, herr, hplan, errorJSON] at h
          | some plan =>
            have hrun := StudentSubscription_student env u req plan db hrole herr hplan
            cases hres : resolveCustomer env u db with
            | error r =>
              exfalso
              rw [hrun, hres] at h
              have hr : r.out ≠ .json 200 b := by
                unfold resolveCustomer at hres
                split at hres
                · split at hres
                  · cases hres
                  · split at hres
                    · cases hres; simp [errorJSON]
                    · split at hres
                      · cases hres; simp [errorJSON]
                      · cases hres
                · split at hres
                  · cases hres; simp [errorJSON]
                  · split at hres
                    · cases hres; simp [errorJSON]
                    · cases hres
              exact hr h
            | ok t =>
              obtain ⟨c, db1, calls⟩ := t
              refine ⟨u, req, plan, c, db1, calls, rfl, hrole, rfl, rfl, hplan, hres, ?_⟩
              rw [hrun, hres]
    · simp [StudentSubscription, hrole, errorJSON] at h

/-- The number of create-customer calls `createInstance` logs is the number
it was handed. -/
theorem createInstance_countP (env : SubscribeEnv) (u : SystemUser)
    (plan : models.Subscription) (c : stripe.Customer) (db : Store)
    (calls : List ProviderCall) :
    (createInstance env u plan c db calls).calls.countP ProviderCall.isCustomerNew =
      calls.countP ProviderCall.isCustomerNew := by
  rcases (createInstance_frame env u plan c db calls).2.2.1 with h | h <;>
    simp [h, List.countP_append, ProviderCall.isCustomerNew]

/-- A subscribe by a user whose stored customer id is non-empty and still
resolves at the provider creates no customer and leaves the plan and user
collections as they were, whatever else happens in the run. -/
theorem StudentSubscription_reuse (env : SubscribeEnv) (u : SystemUser)
    (body : Option StudentSubscriptionRequest) (db : Store) (c : stripe.Customer)
    (hid : u.StripeCustomerID ≠ "")
    (hget : env.customerGet u.StripeCustomerID = .ok c) :
    (StudentSubscription env (.user u) body db).calls.countP ProviderCall.isCustomerNew = 0 ∧
    (StudentSubscription env (.user u) body db).store.system_user = db.system_user ∧
    (StudentSubscription env (.user u) body db).store.subscription = db.subscription := by
  by_cases hrole : u.Role = StudentRole
  · cases body with
    | none => simp [StudentSubscription, hrole]
    | some req =>
      cases herr : env.findPlanErr with
      | true => simp [StudentSubscription, hrole, herr]
      | false =>
        cases hplan : mongo.findOne models.Subscription.ID req.SubscriptionID
            db.subscription with
        | none => simp [StudentSubscription, hrole, herr, hplan]
        | some plan =>
          rw [StudentSubscription_student env u req plan db hrole herr hplan,
            resolveCustomer_reuse env u db c hid hget]
          have hf := createInstance_frame env u plan c db
            [ProviderCall.customerGet u.StripeCustomerID]
          refine ⟨?_, hf.2.1, hf.1⟩
          simp only [createInstance_countP]
          simp [ProviderCall.isCustomerNew]
  · simp [StudentSubscription, hrole]

/-- Claim C7: for a user whose stored customer id is empty (the user record
being the one in the store), a subscribe that answers 200 made exactly one
create-customer call, and the user record now holds the id that call
returned; a following subscribe by the same user as re-loaded from the store,
that id being non-empty and resolving at the provider, makes no
create-customer call and leaves the user collection, so also the stored id,
unchanged. -/
theorem subscribe_provisions_customer_once (env1 env2 : SubscribeEnv) (u : SystemUser)
    (body1 body2 : Option StudentSubscriptionRequest) (db : Store) (b1 : gin.Body)
    (hempty : u.StripeCustomerID = "")
    (hstored : mongo.findOne SystemUser.ID u.ID db.system_user = some u)
    (hok : (StudentSubscription env1 (.user u) body1 db).out = .json 200 b1) :
    ∃ cu, env1.customerNew u.Email u.Name = .ok cu ∧
      (StudentSubscription env1 (.user u) body1 db).calls.countP
        ProviderCall.isCustomerNew = 1 ∧
      mongo.findOne SystemUser.ID u.ID
          (StudentSubscription env1 (.user u) body1 db).store.system_user =
        some { u with StripeCustomerID := cu.ID } ∧
      (cu.ID ≠ "" → ∀ c2, env2.customerGet cu.ID = .ok c2 →
        (StudentSubscription env2 (.user { u with StripeCustomerID := cu.ID }) body2
            (StudentSubscription env1 (.user u) body1 db).store).calls.countP
          ProviderCall.isCustomerNew = 0 ∧
        (StudentSubscription env2 (.user { u with StripeCustomerID := cu.ID }) body2
            (StudentSubscription env1 (.user u) body1 db).store).store.system_user =
          (StudentSubscription env1 (.user u) body1 db).store.system_user) := by
  obtain ⟨u', req, plan, c, db1, calls, huser, _, _, _, _, hres, hrun⟩ :=
    StudentSubscription_ok_inv env1 (.user u) body1 db b1 hok
  cases huser
  have hcreate := resolveCustomer_create env1 u db (Or.inl hempty)
  simp only [hempty, if_true, List.nil_append] at hcreate
  rw [hres] at hcreate
  cases hnew : env1.customerNew u.Email u.Name with
  | error e => rw [hnew] at hcreate; cases hcreate
  | ok cu =>
    rw [hnew] at hcreate
    cases hupd : env1.updateUserErr with
    | true => rw [hupd] at hcreate; simp at hcreate
    | false =>
      rw [hupd] at hcreate
      simp only [Bool.false_eq_true, if_false, Except.ok.injEq, Prod.mk.injEq] at hcreate
      obtain ⟨hc, hdb1, hcalls⟩ := hcreate
      subst hc hdb1 hcalls
      have hf := createInstance_frame env1 u plan c
        { db with system_user := (mongo.updateOne SystemUser.ID u.ID
            (fun x => { x with StripeCustomerID := c.ID }) db.system_user) }
        [ProviderCall.customerNew u.Email u.Name]
      have husers : (StudentSubscription env1 (.user u) body1 db).store.system_user =
          mongo.updateOne SystemUser.ID u.ID
            (fun x => { x with StripeCustomerID := c.ID }) db.system_user := by
        rw [hrun]; exact hf.2.1
      refine ⟨c, rfl, ?_, ?_, ?_⟩
      · rw [hrun, createInstance_countP]
        simp [ProviderCall.isCustomerNew]
      · rw [husers]
        exact mongo.findOne_updateOne SystemUser.ID u.ID
          (fun x => { x with StripeCustomerID := c.ID }) (fun _ => rfl) db.system_user u hstored
      · intro hne c2 hget
        have h2 := StudentSubscription_reuse env2 { u with StripeCustomerID := c.ID } body2
          (StudentSubscription env1 (.user u) body1 db).store c2 hne hget
        exact ⟨h2.1, h2.2.1⟩

/-- Claim C7, a concrete run: the first subscribe of the student creates
customer `cus_new` and stores it on the user record. -/
theorem subscribe_provisions_customer_once_witness :
    ∃ cu, (scenario.subscribeEnv (fun _ => false) .resourceMissing).customerNew
        scenario.student.Email scenario.student.Name = .ok cu ∧
      (StudentSubscription (scenario.subscribeEnv (fun _ => false) .resourceMissing)
        (.user scenario.student) (some ⟨scenario.planID⟩) scenario.db0).calls.countP
        ProviderCall.isCustomerNew = 1 ∧
      mongo.findOne SystemUser.ID scenario.student.ID
          (StudentSubscription (scenario.subscribeEnv (fun _ => false) .resourceMissing)
            (.user scenario.student) (some ⟨scenario.planID⟩) scenario.db0).store.system_user =
        some { scenario.student with StripeCustomerID := cu.ID } ∧
      (cu.ID ≠ "" → ∀ c2,
        (scenario.subscribeEnv (fun id => id = "cus_new") .resourceMissing).customerGet cu.ID
          = .ok c2 →
        (StudentSubscription (scenario.subscribeEnv (fun id => id = "cus_new") .resourceMissing)
            (.user { scenario.student with StripeCustomerID := cu.ID }) (some ⟨scenario.planID⟩)
            (StudentSubscription (scenario.subscribeEnv (fun _ => false) .resourceMissing)
              (.user scenario.student) (some ⟨scenario.planID⟩)
              scenario.db0).store).calls.countP
          ProviderCall.isCustomerNew = 0 ∧
        (StudentSubscription (scenario.subscribeEnv (fun id => id = "cus_new") .resourceMissing)
            (.user { scenario.student with StripeCustomerID := cu.ID }) (some ⟨scenario.planID⟩)
            (StudentSubscription (scenario.subscribeEnv (fun _ => false) .resourceMissing)
              (.user scenario.student) (some ⟨scenario.planID⟩)
              scenario.db0).store).store.system_user =
          (StudentSubscription (scenario.subscribeEnv (fun _ => false) .resourceMissing)
            (.user scenario.student) (some ⟨scenario.planID⟩) scenario.db0).store.system_user) :=
  subscribe_provisions_customer_once
    (scenario.subscribeEnv (fun _ => false) .resourceMissing)
    (scenario.subscribeEnv (fun id => id = "cus_new") .resourceMissing)
    scenario.student (some ⟨scenario.planID⟩) (some ⟨scenario.planID⟩) scenario.db0
    (.studentSubscription (scenario.pendingRow scenario.instanceID))
    (by decide) (by decide) (by decide)

/-- Claim C8, refuted as stated: the student's stored customer id is
`cus_old` and `customer.Get` fails with an error that is not "customer
missing" (a connection error); the subscribe still creates a customer and the
stored id is overwritten with `cus_new`. -/
theorem subscribe_overwrites_on_connection_error :
    (scenario.subscribeEnv (fun _ => false) (.other "connection reset")).customerGet
        scenario.studentWithCustomer.StripeCustomerID = .error (.other "connection reset") ∧
    stripe.Error.other "connection reset" ≠ stripe.Error.resourceMissing ∧
    mongo.findOne SystemUser.ID scenario.studentID scenario.dbWithCustomer.system_user =
      some scenario.studentWithCustomer ∧
    scenario.studentWithCustomer.StripeCustomerID = "cus_old" ∧
    (StudentSubscription (scenario.subscribeEnv (fun _ => false) (.other "connection reset"))
        (.user scenario.studentWithCustomer) (some ⟨scenario.planID⟩)
        scenario.dbWithCustomer).calls.countP ProviderCall.isCustomerNew = 1 ∧
    mongo.findOne SystemUser.ID scenario.studentID
        (StudentSubscription (scenario.subscribeEnv (fun _ => false) (.other "connection reset"))
          (.user scenario.studentWithCustomer) (some ⟨scenario.planID⟩)
          scenario.dbWithCustomer).store.system_user =
      some { scenario.studentWithCustomer with StripeCustomerID := "cus_new" } :=
  ⟨rfl, by decide, by decide, by decide, by decide, by decide⟩

/-- Claim C8, amended: in a subscribe by a student on an existing plan whose
stored customer id is non-empty, the id is overwritten only when the
get-customer call returns an error. When that call succeeds, the user
collection is unchanged and no customer is created. When it returns an error,
of whatever kind, exactly one create-customer call is made, and when that
call and the user update succeed the id it returned replaces the stored
one. -/
theorem subscribe_overwrites_iff_get_fails (env : SubscribeEnv) (u : SystemUser)
    (req : StudentSubscriptionRequest) (plan : models.Subscription) (db : Store)
    (hrole : u.Role = StudentRole) (herr : env.findPlanErr = false)
    (hplan : mongo.findOne models.Subscription.ID req.SubscriptionID db.subscription
      = some plan)
    (hid : u.StripeCustomerID ≠ "") :
    (∀ c, env.customerGet u.StripeCustomerID = .ok c →
      (StudentSubscription env (.user u) (some req) db).store.system_user = db.system_user ∧
      (StudentSubscription env (.user u) (some req) db).calls.countP
        ProviderCall.isCustomerNew = 0) ∧
    (∀ e, env.customerGet u.StripeCustomerID = .error e →
      (StudentSubscription env (.user u) (some req) db).calls.countP
        ProviderCall.isCustomerNew = 1 ∧
      (∀ cu stored, env.customerNew u.Email u.Name = .ok cu → env.updateUserErr = false →
        mongo.findOne SystemUser.ID u.ID db.system_user = some stored →
        mongo.findOne SystemUser.ID u.ID
            (StudentSubscription env (.user u) (some req) db).store.system_user =
          some { stored with StripeCustomerID := cu.ID })) := by
  constructor
  · intro c hget
    have h := StudentSubscription_reuse env u (some req) db c hid hget
    exact ⟨h.2.1, h.1⟩
  · intro e hget
    have hcreate := resolveCustomer_create env u db (Or.inr ⟨e, hget⟩)
    simp only [hid, if_false, List.singleton_append] at hcreate
    rw [StudentSubscription_student env u req plan db hrole herr hplan, hcreate]
    cases hnew : env.customerNew u.Email u.Name with
    | error e' =>
      refine ⟨by simp [ProviderCall.isCustomerNew], ?_⟩
      intro cu stored h
      cases h
    | ok c =>
      cases hupd : env.updateUserErr with
      | true =>
        refine ⟨by simp [ProviderCall.isCustomerNew], ?_⟩
        intro cu stored _ h
        cases h
      | false =>
        simp only [Bool.false_eq_true, if_false]
        refine ⟨?_, ?_⟩
        · rw [createInstance_countP]
          simp [ProviderCall.isCustomerNew]
        · intro cu stored hcu _ hstored
          cases hcu
          rw [(createInstance_frame env u plan c _ _).2.1]
          exact mongo.findOne_updateOne SystemUser.ID u.ID
            (fun x => { x with StripeCustomerID := c.ID }) (fun _ => rfl) db.system_user
            stored hstored

/-- Claim C8 as amended, a concrete run: the stored customer `cus_old` still
resolves, so no customer is created and the user collection is unchanged. -/
theorem subscribe_overwrites_iff_get_fails_witness :
    (StudentSubscription (scenario.subscribeEnv (fun id => id = "cus_old") .resourceMissing)
        (.user scenario.studentWithCustomer) (some ⟨scenario.planID⟩)
        scenario.dbWithCustomer).store.system_user = scenario.dbWithCustomer.system_user ∧
    (StudentSubscription (scenario.subscribeEnv (fun id => id = "cus_old") .resourceMissing)
        (.user scenario.studentWithCustomer) (some ⟨scenario.planID⟩)
        scenario.dbWithCustomer).calls.countP ProviderCall.isCustomerNew = 0 :=
  (subscribe_overwrites_iff_get_fails
    (scenario.subscribeEnv (fun id => id = "cus_old") .resourceMissing)
    scenario.studentWithCustomer ⟨scenario.planID⟩ scenario.gold scenario.dbWithCustomer
    (by decide) (by decide) (by decide) (by decide)).1 ⟨"cus_old"⟩ rfl

/-- Claim C9: a subscribe by user `U` on the existing plan `P` that answers
200 appends exactly one row to the instance collection, with `system_user_id`
the id of `U`, `subscription_id` the id of `P` (the id of the request),
`price_id` the price id `P` holds in the store at the call, `payment_status`
Open and `status` Pending, and answers with that row; and every run of the
handler, whatever its outcome, leaves the instance collection as it was or
appends one row in state Pending/Open, so it never writes Subscribed or Paid. -/
theorem subscribe_inserts_one_pending_row :
    (∀ (env : SubscribeEnv) (U : SystemUser) (req : StudentSubscriptionRequest)
      (P : models.Subscription) (db : Store) (b : gin.Body),
      mongo.findOne models.Subscription.ID req.SubscriptionID db.subscription = some P →
      (StudentSubscription env (.user U) (some req) db).out = .json 200 b →
      ∃ row, (StudentSubscription env (.user U) (some req) db).store.student_subscription =
          db.student_subscription ++ [row] ∧
        b = .studentSubscription row ∧
        row.ID = env.NewObjectID ∧
        row.SystemUserID = U.ID ∧ row.SubscriptionID = P.ID ∧ P.ID = req.SubscriptionID ∧
        row.PriceID = P.PriceID ∧ row.PaymentStatus = Open ∧ row.Status = Pending) ∧
    (∀ (env : SubscribeEnv) (user : gin.ContextValue)
      (body : Option StudentSubscriptionRequest) (db : Store),
      (StudentSubscription env user body db).store.student_subscription =
          db.student_subscription ∨
        ∃ row, (StudentSubscription env user body db).store.student_subscription =
            db.student_subscription ++ [row] ∧
          row.Status = Pending ∧ row.PaymentStatus = Open) := by
  constructor
  · intro env U req P db b hP hok
    obtain ⟨u', req', plan, c, db1, calls, huser, _, hbody, _, hplan, hres, hrun⟩ :=
      StudentSubscription_ok_inv env (.user U) (some req) db b hok
    cases huser
    cases hbody
    rw [hP] at hplan
    cases hplan
    have hss : db1.student_subscription = db.student_subscription := by
      unfold resolveCustomer at hres
      split at hres
      · split at hres
        · cases hres; rfl
        · split at hres
          · cases hres
          · split at hres
            · cases hres
            · rename_i hu
              cases hres
              unfold updateStripeCustomerID at hu
              split at hu
              · cases hu
              · cases hu; rfl
      · split at hres
        · cases hres
        · split at hres
          · cases hres
          · rename_i hu
            cases hres
            unfold updateStripeCustomerID at hu
            split at hu
            · cases hu
            · cases hu; rfl
    rw [hrun] at hok
    obtain ⟨session, cust, _, _, _, hci⟩ := createInstance_ok_inv env U P c db1 calls b hok
    rw [hrun, hci]
    rw [hci] at hok
    refine ⟨attachCheckout cust.ID session.URL (newStudentSubscription env U P), ?_, ?_,
      rfl, rfl, rfl, ?_, rfl, rfl, rfl⟩
    · simp [hss]
    · simp only [gin.Outcome.json.injEq, true_and] at hok
      exact hok.symm
    · exact mongo.findOne_key models.Subscription.ID req.SubscriptionID db.subscription P hP
  · intro env user body db
    cases user with
    | absent => simp [StudentSubscription]
    | other => simp [StudentSubscription]
    | user u =>
      by_cases hrole : u.Role = StudentRole
      · cases body with
        | none => simp [StudentSubscription, hrole]
        | some req =>
          cases herr : env.findPlanErr with
          | true => simp [StudentSubscription, hrole, herr]
          | false =>
            cases hplan : mongo.findOne models.Subscription.ID req.SubscriptionID
                db.subscription with
            | none => simp [StudentSubscription, hrole, herr, hplan]
            | some plan =>
              rw [StudentSubscription_student env u req plan db hrole herr hplan]
              cases hres : resolveCustomer env u db with
              | error r =>
                left
                unfold resolveCustomer at hres
                split at hres
                · split at hres
                  · cases hres
                  · split at hres
                    · cases hres; rfl
                    · split at hres
                      · cases hres; rfl
                      · cases hres
                · split at hres
                  · cases hres; rfl
                  · split at hres
                    · cases hres; rfl
                    · cases hres
              | ok t =>
                obtain ⟨c, db1, calls⟩ := t
                have hss : db1.student_subscription = db.student_subscription := by
                  unfold resolveCustomer at hres
                  split at hres
                  · split at hres
                    · cases hres; rfl
                    · split at hres
                      · cases hres
                      · split at hres
                        · cases hres
                        · rename_i hu
                          cases hres
                          unfold updateStripeCustomerID at hu
                          split at hu
                          · cases hu
                          · cases hu; rfl
                  · split at hres
                    · cases hres
                    · split at hres
                      · cases hres
                      · rename_i hu
                        cases hres
                        unfold updateStripeCustomerID at hu
                        split at hu
                        · cases hu
                        · cases hu; rfl
                have hf := (createInstance_frame env u plan c db1 calls).2.2.2
                rw [hss] at hf
                exact hf
      · simp [StudentSubscription, hrole]

/-- Claim C9, a concrete run: the first subscribe of the student to "Gold". -/
theorem subscribe_inserts_one_pending_row_witness :
    ∃ row, (StudentSubscription (scenario.subscribeEnv (fun _ => false) .resourceMissing)
        (.user scenario.student) (some ⟨scenario.planID⟩) scenario.db0).store.student_subscription
          = scenario.db0.student_subscription ++ [row] ∧
      gin.Body.studentSubscription (scenario.pendingRow scenario.instanceID) =
        .studentSubscription row ∧
      row.ID = (scenario.subscribeEnv (fun _ => false) .resourceMissing).NewObjectID ∧
      row.SystemUserID = scenario.student.ID ∧ row.SubscriptionID = scenario.gold.ID ∧
      scenario.gold.ID = (⟨scenario.planID⟩ : StudentSubscriptionRequest).SubscriptionID ∧
      row.PriceID = scenario.gold.PriceID ∧ row.PaymentStatus = Open ∧ row.Status = Pending :=
  subscribe_inserts_one_pending_row.1
    (scenario.subscribeEnv (fun _ => false) .resourceMissing) scenario.student
    ⟨scenario.planID⟩ scenario.gold scenario.db0
    (.studentSubscription (scenario.pendingRow scenario.instanceID)) (by decide) (by decide)

/-- Claim C10: for a caller whose role is not `StudentRole` (so also for
`SuperUser` and `ManagerRole`), `StudentSubscription` answers HTTP 403, leaves
the store as it was and calls no provider, for every request body. -/
theorem subscribe_forbidden_for_non_student (env : SubscribeEnv) (u : SystemUser)
    (body : Option StudentSubscriptionRequest) (db : Store)
    (hrole : u.Role ≠ StudentRole) :
    StudentSubscription env (.user u) body db =
      ⟨.json 403 (.h [("error", "You are not allowed to perform this action")]), db, []⟩ := by
  simp [StudentSubscription, hrole, errorJSON]

/-- Claim C10, a concrete run: a manager asks to subscribe to "Gold". -/
theorem subscribe_forbidden_for_non_student_witness :
    StudentSubscription (scenario.subscribeEnv (fun _ => false) .resourceMissing)
        (.user scenario.manager) (some ⟨scenario.planID⟩) scenario.db0 =
      ⟨.json 403 (.h [("error", "You are not allowed to perform this action")]),
       scenario.db0, []⟩ :=
  subscribe_forbidden_for_non_student (scenario.subscribeEnv (fun _ => false) .resourceMissing)
    scenario.manager (some ⟨scenario.planID⟩) scenario.db0 (by decide)

end controllers

/-! ## The checkout attachment of `StudentSubscription` -/

namespace controllers

open primitive models

/-- What `resolveCustomer` leaves of the store: an early return leaves all of
it, a resolved customer leaves the plan and instance collections. -/
theorem resolveCustomer_store (env : SubscribeEnv) (u : SystemUser) (db : Store) :
    (∀ r, resolveCustomer env u db = .error r → r.store = db) ∧
    (∀ c db1 calls, resolveCustomer env u db = .ok (c, db1, calls) →
      db1.student_subscription = db.student_subscription ∧
      db1.subscription = db.subscription) := by
  have hupd : ∀ (id : String) (db1 : Store),
      updateStripeCustomerID env db u id = some db1 →
      db1.student_subscription = db.student_subscription ∧
      db1.subscription = db.subscription := by
    intro id db1 h
    unfold updateStripeCustomerID at h
    split at h
    · cases h
    · cases h; exact ⟨rfl, rfl⟩
  unfold resolveCustomer
  constructor
  · intro r h
    split at h
    · split at h
      · cases h
      · split at h
        · cases h; rfl
        · split at h
          · cases h; rfl
          · cases h
    · split at h
      · cases h; rfl
      · split at h
        · cases h; rfl
        · cases h
  · intro c db1 calls h
    split at h
    · split at h
      · cases h; exact ⟨rfl, rfl⟩
      · split at h
        · cases h
        · split at h
          · cases h
          · rename_i hu
            cases h
            exact hupd _ _ hu
    · split at h
      · cases h
      · split at h
        · cases h
        · rename_i hu
          cases h
          exact hupd _ _ hu

/-- Whatever its outcome, `createInstance` leaves the instance collection as
it was, or with the new row appended as built, or with the new row appended
and the customer id and hosted URL of the created session attached to it. -/
theorem createInstance_rows (env : SubscribeEnv) (u : SystemUser)
    (plan : models.Subscription) (c : stripe.Customer) (db : Store)
    (calls : List ProviderCall) :
    (createInstance env u plan c db calls).store.student_subscription =
        db.student_subscription ∨
    (createInstance env u plan c db calls).store.student_subscription =
        db.student_subscription ++ [newStudentSubscription env u plan] ∨
    ∃ session cust,
      env.sessionNew (newCheckoutParams env.NewObjectID plan c) = .ok session ∧
      session.Customer = some cust ∧
      (createInstance env u plan c db calls).store.student_subscription =
        db.student_subscription ++
          [attachCheckout cust.ID session.URL (newStudentSubscription env u plan)] := by
  cases hins : env.insertErr with
  | true => simp [createInstance, hins]
  | false =>
    cases hfind : mongo.findOne models.StudentSubscription.ID env.NewObjectID
        db.student_subscription with
    | some d =>
      simp [createInstance, hins, mongo.insertOne, newStudentSubscription_ID, hfind]
    | none =>
      cases hsess : env.sessionNew (newCheckoutParams env.NewObjectID plan c) with
      | error e =>
        right; left
        simp [createInstance, hins, mongo.insertOne, newStudentSubscription_ID, hfind, hsess]
      | ok session =>
        cases hc : session.Customer with
        | none =>
          right; left
          simp [createInstance, hins, mongo.insertOne, newStudentSubscription_ID, hfind,
            hsess, hc]
        | some cust =>
          cases hupd : env.updateInstanceErr with
          | true =>
            right; left
            simp [createInstance, hins, mongo.insertOne, newStudentSubscription_ID, hfind,
              hsess, hc, hupd]
          | false =>
            right; right
            refine ⟨session, cust, rfl, hc, ?_⟩
            have hfindNew : mongo.findOne models.StudentSubscription.ID
                (models.StudentSubscription.ID (newStudentSubscription env u plan))
                db.student_subscription = none := hfind
            have hupdate := mongo.updateOne_append_new models.StudentSubscription.ID
              (attachCheckout cust.ID session.URL) db.student_subscription
              (newStudentSubscription env u plan) hfindNew
            rw [newStudentSubscription_ID] at hupdate
            cases hf : env.findInstanceErr with
            | true =>
              simp [createInstance, hins, mongo.insertOne, newStudentSubscription_ID, hfind,
                hsess, hc, hupd, hf, hupdate]
            | false =>
              have hfindAttached : mongo.findOne models.StudentSubscription.ID
                  (models.StudentSubscription.ID
                    (attachCheckout cust.ID session.URL (newStudentSubscription env u plan)))
                  db.student_subscription = none := hfind
              have hget := mongo.findOne_append_new models.StudentSubscription.ID
                db.student_subscription
                (attachCheckout cust.ID session.URL (newStudentSubscription env u plan))
                hfindAttached
              change mongo.findOne models.StudentSubscription.ID env.NewObjectID _ = _ at hget
              simp [createInstance, hins, mongo.insertOne, newStudentSubscription_ID, hfind,
                hsess, hc, hupd, hf, hupdate, hget]

/-- Claim C11: a subscribe by user `U` on plan `P` that answers 200 leaves the
instance collection as the old rows, unchanged, followed by the inserted row
with `customer_id` and `payment_link` set to the customer id and the hosted
URL of the created checkout session and every other field as inserted, and
answers with that row; and every run of the handler, whatever its outcome,
leaves the old rows unchanged and the inserted row, if any, changed in no
field other than `customer_id` and `payment_link`. -/
theorem subscribe_attaches_checkout_only :
    (∀ (env : SubscribeEnv) (U : SystemUser) (req : StudentSubscriptionRequest)
      (P : models.Subscription) (db : Store) (b : gin.Body),
      mongo.findOne models.Subscription.ID req.SubscriptionID db.subscription = some P →
      (StudentSubscription env (.user U) (some req) db).out = .json 200 b →
      ∃ c session cust row,
        env.sessionNew (newCheckoutParams env.NewObjectID P c) = .ok session ∧
        session.Customer = some cust ∧
        (StudentSubscription env (.user U) (some req) db).store.student_subscription =
          db.student_subscription ++ [row] ∧
        b = .studentSubscription row ∧
        row.PaymentLink = session.URL ∧ row.CustomerID = cust.ID ∧
        agreeOutsideCheckout (newStudentSubscription env U P) row) ∧
    (∀ (env : SubscribeEnv) (user : gin.ContextValue)
      (body : Option StudentSubscriptionRequest) (db : Store),
      (StudentSubscription env user body db).store.student_subscription =
          db.student_subscription ∨
      ∃ u plan row,
        (StudentSubscription env user body db).store.student_subscription =
          db.student_subscription ++ [row] ∧
        agreeOutsideCheckout (newStudentSubscription env u plan) row) := by
  constructor
  · intro env U req P db b hP hok
    obtain ⟨u', req', plan, c, db1, calls, huser, _, hbody, _, hplan, hres, hrun⟩ :=
      StudentSubscription_ok_inv env (.user U) (some req) db b hok
    cases huser
    cases hbody
    rw [hP] at hplan
    cases hplan
    have hss := ((resolveCustomer_store env U db).2 c db1 calls hres).1
    rw [hrun] at hok
    obtain ⟨session, cust, hsess, hc, _, hci⟩ :=
      createInstance_ok_inv env U P c db1 calls b hok
    rw [hci] at hok
    refine ⟨c, session, cust,
      attachCheckout cust.ID session.URL (newStudentSubscription env U P), hsess, hc, ?_, ?_,
      rfl, rfl, ?_⟩
    · rw [hrun, hci]; simp [hss]
    · simp only [gin.Outcome.json.injEq, true_and] at hok
      exact hok.symm
    · simp [agreeOutsideCheckout, attachCheckout]
  · intro env user body db
    cases user with
    | absent => simp [StudentSubscription]
    | other => simp [StudentSubscription]
    | user u =>
      by_cases hrole : u.Role = StudentRole
      · cases body with
        | none => simp [StudentSubscription, hrole]
        | some req =>
          cases herr : env.findPlanErr with
          | true => simp [StudentSubscription, hrole, herr]
          | false =>
            cases hplan : mongo.findOne models.Subscription.ID req.SubscriptionID
                db.subscription with
            | none => simp [StudentSubscription, hrole, herr, hplan]
            | some plan =>
              rw [StudentSubscription_student env u req plan db hrole herr hplan]
              cases hres : resolveCustomer env u db with
              | error r =>
                left
                rw [(resolveCustomer_store env u db).1 r hres]
              | ok t =>
                obtain ⟨c, db1, calls⟩ := t
                have hss := ((resolveCustomer_store env u db).2 c db1 calls hres).1
                rcases createInstance_rows env u plan c db1 calls with h | h | h
                · left; rw [← hss]; exact h
                · right
                  refine ⟨u, plan, newStudentSubscription env u plan, ?_, ?_⟩
                  · rw [← hss]; exact h
                  · simp [agreeOutsideCheckout]
                · right
                  obtain ⟨session, cust, _, _, h⟩ := h
                  refine ⟨u, plan,
                    attachCheckout cust.ID session.URL (newStudentSubscription env u plan),
                    ?_, ?_⟩
                  · rw [← hss]; exact h
                  · simp [agreeOutsideCheckout, attachCheckout]
      · simp [StudentSubscription, hrole]

/-- Claim C11, a concrete run: the first subscribe of the student to "Gold". -/
theorem subscribe_attaches_checkout_only_witness :
    ∃ c session cust row,
      (scenario.subscribeEnv (fun _ => false) .resourceMissing).sessionNew
          (newCheckoutParams
            (scenario.subscribeEnv (fun _ => false) .resourceMissing).NewObjectID
            scenario.gold c) = .ok session ∧
      session.Customer = some cust ∧
      (StudentSubscription (scenario.subscribeEnv (fun _ => false) .resourceMissing)
          (.user scenario.student) (some ⟨scenario.planID⟩)
          scenario.db0).store.student_subscription =
        scenario.db0.student_subscription ++ [row] ∧
      gin.Body.studentSubscription (scenario.pendingRow scenario.instanceID) =
        .studentSubscription row ∧
      row.PaymentLink = session.URL ∧ row.CustomerID = cust.ID ∧
      agreeOutsideCheckout
        (newStudentSubscription (scenario.subscribeEnv (fun _ => false) .resourceMissing)
          scenario.student scenario.gold) row :=
  subscribe_attaches_checkout_only.1
    (scenario.subscribeEnv (fun _ => false) .resourceMissing) scenario.student
    ⟨scenario.planID⟩ scenario.gold scenario.db0
    (.studentSubscription (scenario.pendingRow scenario.instanceID)) (by decide) (by decide)

/-- Claim C12: a subscribe by a student whose request names no plan row (or
whose plan lookup fails) is answered HTTP 404 "Subscription not found"; the
whole store is left as it was (no instance row, no change of a user record)
and no provider call is made (no customer, no checkout session). -/
theorem subscribe_unknown_plan_not_found (env : SubscribeEnv) (u : SystemUser)
    (req : StudentSubscriptionRequest) (db : Store)
    (hrole : u.Role = StudentRole)
    (hplan : mongo.findOne models.Subscription.ID req.SubscriptionID db.subscription = none) :
    StudentSubscription env (.user u) (some req) db =
      ⟨.json 404 (.h [("error", "Subscription not found")]), db, []⟩ := by
  simp [StudentSubscription, hrole, hplan, errorJSON]

/-- Claim C12, a concrete run: the student asks for a plan id no plan has. -/
theorem subscribe_unknown_plan_not_found_witness :
    StudentSubscription (scenario.subscribeEnv (fun _ => false) .resourceMissing)
        (.user scenario.student) (some ⟨scenario.unknownID⟩) scenario.db0 =
      ⟨.json 404 (.h [("error", "Subscription not found")]), scenario.db0, []⟩ :=
  subscribe_unknown_plan_not_found (scenario.subscribeEnv (fun _ => false) .resourceMissing)
    scenario.student ⟨scenario.unknownID⟩ scenario.db0 (by decide) (by decide)

end controllers

/-! ## Properties of the plan handlers -/

namespace controllers

open primitive models

theorem store_subscription_eta (db : Store) :
    ({ db with subscription := db.subscription } : Store) = db := by
  cases db; rfl

/-- The last step of `UpdateSubscription` on a plan that exists, when no
database call fails: the `$set` is applied and the updated plan returned. -/
theorem applyUpdate_found (env : PlanEnv) (objectID : ObjectID) (u : PlanSet) (db : Store)
    (calls : List ProviderCall) (plan : models.Subscription)
    (hu : env.updateErr = false) (hf : env.findErr = false)
    (hplan : mongo.findOne models.Subscription.ID objectID db.subscription = some plan) :
    applyUpdate env objectID u db calls =
      ⟨.json 200 (.subscription
          (PlanSet.apply { u with updated_at := some env.nowUpdated } plan)),
       { db with subscription :=
          (mongo.updateOne models.Subscription.ID objectID
            (PlanSet.apply { u with updated_at := some env.nowUpdated }) db.subscription) },
       calls⟩ := by
  have hget := mongo.findOne_updateOne models.Subscription.ID objectID
    (PlanSet.apply { u with updated_at := some env.nowUpdated }) (fun _ => rfl)
    db.subscription plan hplan
  simp [applyUpdate, hu, hf, hget]

/-- The last step of `UpdateSubscription` when no plan has the id: nothing is
written. -/
theorem applyUpdate_missing (env : PlanEnv) (objectID : ObjectID) (u : PlanSet) (db : Store)
    (calls : List ProviderCall)
    (hplan : mongo.findOne models.Subscription.ID objectID db.subscription = none) :
    applyUpdate env objectID u db calls =
      if env.updateErr then
        ⟨errorJSON 500 "Failed to update subscription in the database", db, calls⟩
      else ⟨errorJSON 404 "Subscription not found", db, calls⟩ := by
  have hsame := mongo.updateOne_of_findOne_none models.Subscription.ID objectID
    (PlanSet.apply { u with updated_at := some env.nowUpdated }) db.subscription hplan
  cases hu : env.updateErr with
  | true => simp [applyUpdate, hu]
  | false =>
    cases hf : env.findErr <;>
      simp [applyUpdate, hu, hf, hsame, hplan, store_subscription_eta]

/-- A run of the last step of `UpdateSubscription` that answers 200: no
database call failed and the plan exists. -/
theorem applyUpdate_ok_inv (env : PlanEnv) (objectID : ObjectID) (u : PlanSet) (db : Store)
    (calls : List ProviderCall) (b : gin.Body)
    (h : (applyUpdate env objectID u db calls).out = .json 200 b) :
    env.updateErr = false ∧ env.findErr = false ∧
    ∃ plan, mongo.findOne models.Subscription.ID objectID db.subscription = some plan := by
  cases hplan : mongo.findOne models.Subscription.ID objectID db.subscription with
  | none =>
    rw [applyUpdate_missing env objectID u db calls hplan] at h
    split at h <;> simp [errorJSON] at h
  | some plan =>
    cases hu : env.updateErr with
    | true => simp [applyUpdate, hu, errorJSON] at h
    | false =>
      cases hf : env.findErr with
      | true => simp [applyUpdate, hu, hf, errorJSON] at h
      | false => exact ⟨rfl, rfl, plan, rfl⟩

/-- Whatever its outcome, the last step of `UpdateSubscription` logs no
provider call and leaves the plan with the given id, if there is one, either
as it was or with the `$set` applied. -/
theorem applyUpdate_frame (env : PlanEnv) (objectID : ObjectID) (u : PlanSet) (db : Store)
    (calls : List ProviderCall) (plan : models.Subscription)
    (hplan : mongo.findOne models.Subscription.ID objectID db.subscription = some plan) :
    (applyUpdate env objectID u db calls).calls = calls ∧
    (mongo.findOne models.Subscription.ID objectID
        (applyUpdate env objectID u db calls).store.subscription = some plan ∨
      mongo.findOne models.Subscription.ID objectID
        (applyUpdate env objectID u db calls).store.subscription =
        some (PlanSet.apply { u with updated_at := some env.nowUpdated } plan)) := by
  have hget := mongo.findOne_updateOne models.Subscription.ID objectID
    (PlanSet.apply { u with updated_at := some env.nowUpdated }) (fun _ => rfl)
    db.subscription plan hplan
  cases hu : env.updateErr with
  | true => simp [applyUpdate, hu, hplan]
  | false =>
    cases hf : env.findErr with
    | true =>
      refine ⟨by simp [applyUpdate, hu, hf], Or.inr ?_⟩
      simp [applyUpdate, hu, hf, hget]
    | false =>
      rw [applyUpdate_found env objectID u db calls plan hu hf hplan]
      exact ⟨rfl, Or.inr hget⟩

/-- The handler `UpdateSubscription` on a request that supplies no price. -/
theorem UpdateSubscription_no_price (env : PlanEnv) (id : String) (objectID : ObjectID)
    (j : PlanJSON) (db : Store)
    (hid : ObjectIDFromHex id = some objectID) (hprice : j.price.getD 0 = 0) :
    UpdateSubscription env id (some j) db =
      applyUpdate env objectID
        (initialUpdate ⟨j.title.getD "", j.description.getD "", j.type_.getD 0,
          j.price.getD 0⟩) db [] := by
  simp [UpdateSubscription, hid, bindUpdateRequest, hprice]

/-- The handler `UpdateSubscription` on a request that supplies a price, for
a plan that exists. -/
theorem UpdateSubscription_price (env : PlanEnv) (id : String) (objectID : ObjectID)
    (j : PlanJSON) (db : Store) (plan : models.Subscription)
    (hid : ObjectIDFromHex id = some objectID) (hprice : j.price.getD 0 ≠ 0)
    (hfe : env.findExistingErr = false)
    (hplan : mongo.findOne models.Subscription.ID objectID db.subscription = some plan) :
    UpdateSubscription env id (some j) db =
      match env.priceNew
          (newPriceParams env plan.ProductID (j.price.getD 0) (j.type_.getD 0)) with
      | .error _ =>
        ⟨errorJSON 500 "Failed to create price in Stripe", db,
          [.priceNew (newPriceParams env plan.ProductID (j.price.getD 0) (j.type_.getD 0))]⟩
      | .ok newPrice =>
        applyUpdate env objectID
          { initialUpdate ⟨j.title.getD "", j.description.getD "", j.type_.getD 0,
              j.price.getD 0⟩ with
            price := some (j.price.getD 0), price_id := some newPrice.ID } db
          [.priceNew (newPriceParams env plan.ProductID (j.price.getD 0) (j.type_.getD 0))] := by
  simp only [UpdateSubscription, hid, bindUpdateRequest, hprice, hfe, hplan, ne_eq,
    not_false_eq_true, if_true, Bool.false_eq_true, if_false]

/-- Claim C13, refuted as stated: the plan "Gold" is Monthly and the request
`{"type": 3}` supplies the different kind Yearly and no price; the update
answers 200 and stores the new type, but creates no provider price and leaves
the stored `price_id` as it was. -/
theorem update_type_only_mints_no_price :
    mongo.findOne models.Subscription.ID scenario.planID scenario.db0.subscription =
      some scenario.gold ∧
    scenario.gold.Type_ = Monthly ∧ scenario.bodyTypeYearly.type_ = some Yearly ∧
    UpdateSubscription (scenario.planEnv false) scenario.planParam
        (some scenario.bodyTypeYearly) scenario.db0 =
      ⟨.json 200 (.subscription scenario.goldYearly),
       { scenario.db0 with subscription := [scenario.goldYearly] }, []⟩ ∧
    scenario.goldYearly.Type_ = Yearly ∧
    scenario.goldYearly.PriceID = scenario.gold.PriceID := by
  decide

/-- Claim C13, amended: on an existing plan, a request that supplies a price
(with or without a recurrence kind) makes exactly one create-price call, on
the plan's existing provider product, and when the update answers 200 the
stored `price_id` is the id of the price that call returned; a request that
supplies no price makes no provider call and leaves the stored `price_id`
unchanged, also when it supplies a recurrence kind different from the stored
one. -/
theorem update_mints_price_iff_price_supplied (env : PlanEnv) (id : String)
    (objectID : ObjectID) (j : PlanJSON) (plan : models.Subscription) (db : Store)
    (hid : ObjectIDFromHex id = some objectID)
    (hfe : env.findExistingErr = false)
    (hplan : mongo.findOne models.Subscription.ID objectID db.subscription = some plan) :
    (j.price.getD 0 ≠ 0 →
      (UpdateSubscription env id (some j) db).calls =
        [.priceNew (newPriceParams env plan.ProductID (j.price.getD 0) (j.type_.getD 0))] ∧
      (newPriceParams env plan.ProductID (j.price.getD 0) (j.type_.getD 0)).Product =
        plan.ProductID ∧
      ∀ b, (UpdateSubscription env id (some j) db).out = .json 200 b →
        ∃ newPrice plan',
          env.priceNew
            (newPriceParams env plan.ProductID (j.price.getD 0) (j.type_.getD 0)) =
            .ok newPrice ∧
          mongo.findOne models.Subscription.ID objectID
            (UpdateSubscription env id (some j) db).store.subscription = some plan' ∧
          plan'.PriceID = newPrice.ID) ∧
    (j.price.getD 0 = 0 →
      (UpdateSubscription env id (some j) db).calls = [] ∧
      ∃ plan',
        mongo.findOne models.Subscription.ID objectID
          (UpdateSubscription env id (some j) db).store.subscription = some plan' ∧
        plan'.PriceID = plan.PriceID) := by
  constructor
  · intro hprice
    rw [UpdateSubscription_price env id objectID j db plan hid hprice hfe hplan]
    cases hnew : env.priceNew
        (newPriceParams env plan.ProductID (j.price.getD 0) (j.type_.getD 0)) with
    | error e =>
      refine ⟨rfl, rfl, ?_⟩
      intro b hb
      simp [errorJSON] at hb
    | ok newPrice =>
      simp only
      refine ⟨(applyUpdate_frame env objectID _ db _ plan hplan).1, rfl, ?_⟩
      intro b hb
      obtain ⟨hu, hf, _⟩ := applyUpdate_ok_inv env objectID _ db _ b hb
      rw [applyUpdate_found env objectID _ db _ plan hu hf hplan]
      have hget := mongo.findOne_updateOne models.Subscription.ID objectID
        (PlanSet.apply
          { initialUpdate ⟨j.title.getD "", j.description.getD "", j.type_.getD 0,
                j.price.getD 0⟩ with
            price := some (j.price.getD 0), price_id := some newPrice.ID,
            updated_at := some env.nowUpdated })
        (fun _ => rfl) db.subscription plan hplan
      exact ⟨newPrice, _, rfl, hget, rfl⟩
  · intro hprice
    rw [UpdateSubscription_no_price env id objectID j db hid hprice]
    obtain ⟨hcalls, hstore⟩ := applyUpdate_frame env objectID
      (initialUpdate ⟨j.title.getD "", j.description.getD "", j.type_.getD 0,
        j.price.getD 0⟩) db [] plan hplan
    refine ⟨hcalls, ?_⟩
    rcases hstore with h | h
    · exact ⟨plan, h, rfl⟩
    · exact ⟨_, h, rfl⟩

/-- Claim C13 as amended, a concrete run: the request `{"title": "Gold
Plus", "price": 12.5, "type": 3}` on "Gold" makes one create-price call on
product `prod_1`. -/
theorem update_mints_price_iff_price_supplied_witness :
    (UpdateSubscription (scenario.planEnv false) scenario.planParam
        (some scenario.bodyTitlePriceYearly) scenario.db0).calls =
      [.priceNew (newPriceParams (scenario.planEnv false) scenario.gold.ProductID
        (scenario.bodyTitlePriceYearly.price.getD 0)
        (scenario.bodyTitlePriceYearly.type_.getD 0))] :=
  ((update_mints_price_iff_price_supplied (scenario.planEnv false) scenario.planParam
    scenario.planID scenario.bodyTitlePriceYearly scenario.gold scenario.db0
    (by decide) (by decide) (by decide)).1 (by decide)).1

/-- A request that supplies a price and no recurrence kind asks the provider
for a price without recurrence, whatever the stored kind of the plan. -/
theorem UpdateSubscription_price_only_one_time (env : PlanEnv) (id : String)
    (j : PlanJSON) (db : Store) (params : stripe.PriceParams)
    (htype : j.type_ = none)
    (hcall : ProviderCall.priceNew params ∈ (UpdateSubscription env id (some j) db).calls) :
    params.Recurring = none := by
  have hparams : ∀ productID price,
      (newPriceParams env productID price (j.type_.getD 0)).Recurring = none := by
    intro productID price
    simp [newPriceParams, htype, getStripeInterval, Monthly, Quarterly, Yearly]
  unfold UpdateSubscription at hcall
  split at hcall
  · simp at hcall
  · split at hcall
    · simp at hcall
    · rename_i subscription_data hbind
      simp only [bindUpdateRequest, Option.some.injEq] at hbind
      subst hbind
      simp only at hcall
      split at hcall
      · split at hcall
        · simp at hcall
        · split at hcall
          · simp only [List.mem_singleton, ProviderCall.priceNew.injEq] at hcall
            rw [hcall]; exact hparams _ _
          · unfold applyUpdate at hcall
            simp only at hcall
            split at hcall
            · simp only [List.mem_singleton, ProviderCall.priceNew.injEq] at hcall
              rw [hcall]; exact hparams _ _
            · split at hcall
              · simp only [List.mem_singleton, ProviderCall.priceNew.injEq] at hcall
                rw [hcall]; exact hparams _ _
              · simp only [List.mem_singleton, ProviderCall.priceNew.injEq] at hcall
                rw [hcall]; exact hparams _ _
      · unfold applyUpdate at hcall
        simp only at hcall
        split at hcall
        · simp at hcall
        · split at hcall <;> simp at hcall

/-- Claim C14, the code at a failing input: the plan "Gold" is Monthly, whose
interval is "month"; the request `{"price": 12.5}` supplies a price and no
recurrence kind; the handler answers 200, and the one price it asks the
provider for has no recurrence (a one-time price), while the stored plan stays
Monthly and its `price_id` now names that one-time price. -/
theorem update_price_only_mints_one_time_price :
    scenario.gold.Type_ = Monthly ∧ getStripeInterval scenario.gold.Type_ = "month" ∧
    scenario.bodyPriceOnly.type_ = none ∧
    UpdateSubscription (scenario.planEnv false) scenario.planParam
        (some scenario.bodyPriceOnly) scenario.db0 =
      ⟨.json 200 (.subscription scenario.goldRepriced),
       { scenario.db0 with subscription := [scenario.goldRepriced] },
       [.priceNew ⟨"prod_1", 1250, "usd", none⟩]⟩ ∧
    scenario.goldRepriced.Type_ = Monthly ∧
    scenario.goldRepriced.PriceID = "price_new" := by
  decide

/-- Claim C15: an update that supplies a price and answers 200 made one
create-price call, and the stored `price_id` of the plan (also the one in the
response) is the id that call returned; when the ids the provider returns are
never among the ids `issued` before, and the price ids the plan has `held`,
the current one included, were all issued by the provider, the new `price_id`
differs from the previous one and from every id the plan held. -/
theorem update_price_id_is_minted_id (env : PlanEnv) (id : String) (objectID : ObjectID)
    (j : PlanJSON) (plan : models.Subscription) (db : Store) (b : gin.Body)
    (issued held : List String)
    (hid : ObjectIDFromHex id = some objectID)
    (hplan : mongo.findOne models.Subscription.ID objectID db.subscription = some plan)
    (hprice : j.price.getD 0 ≠ 0)
    (hok : (UpdateSubscription env id (some j) db).out = .json 200 b) :
    ∃ newPrice plan',
      env.priceNew (newPriceParams env plan.ProductID (j.price.getD 0) (j.type_.getD 0)) =
        .ok newPrice ∧
      (UpdateSubscription env id (some j) db).calls =
        [.priceNew (newPriceParams env plan.ProductID (j.price.getD 0) (j.type_.getD 0))] ∧
      mongo.findOne models.Subscription.ID objectID
        (UpdateSubscription env id (some j) db).store.subscription = some plan' ∧
      b = .subscription plan' ∧
      plan'.PriceID = newPrice.ID ∧
      ((∀ params p, env.priceNew params = .ok p → p.ID ∉ issued) →
        (∀ x ∈ held, x ∈ issued) → plan.PriceID ∈ held →
        plan'.PriceID ≠ plan.PriceID ∧ plan'.PriceID ∉ held) := by
  have hfe : env.findExistingErr = false := by
    cases h : env.findExistingErr with
    | false => rfl
    | true =>
      simp [UpdateSubscription, hid, bindUpdateRequest, hprice, h, errorJSON] at hok
  rw [UpdateSubscription_price env id objectID j db plan hid hprice hfe hplan] at hok ⊢
  cases hnew : env.priceNew
      (newPriceParams env plan.ProductID (j.price.getD 0) (j.type_.getD 0)) with
  | error e =>
    rw [hnew] at hok
    simp [errorJSON] at hok
  | ok newPrice =>
    rw [hnew] at hok
    simp only at hok ⊢
    obtain ⟨hu, hf, _⟩ := applyUpdate_ok_inv env objectID _ db _ b hok
    rw [applyUpdate_found env objectID _ db _ plan hu hf hplan] at hok ⊢
    have hget := mongo.findOne_updateOne models.Subscription.ID objectID
      (PlanSet.apply
        { initialUpdate ⟨j.title.getD "", j.description.getD "", j.type_.getD 0,
              j.price.getD 0⟩ with
          price := some (j.price.getD 0), price_id := some newPrice.ID,
          updated_at := some env.nowUpdated })
      (fun _ => rfl) db.subscription plan hplan
    simp only [gin.Outcome.json.injEq, true_and] at hok
    refine ⟨newPrice, _, rfl, rfl, hget, hok.symm, rfl, ?_⟩
    intro hfresh hheld hcur
    have hnot : newPrice.ID ∉ issued := hfresh _ _ hnew
    have hnh : newPrice.ID ∉ held := fun h => hnot (hheld _ h)
    refine ⟨?_, hnh⟩
    intro heq
    apply hnh
    have : newPrice.ID = plan.PriceID := heq
    rw [this]
    exact hcur

/-- Claim C15, a concrete run: the request `{"price": 12.5}` on "Gold", whose
price id `price_1` is the one id issued before. -/
theorem update_price_id_is_minted_id_witness :
    ∃ newPrice plan',
      (scenario.planEnv false).priceNew
          (newPriceParams (scenario.planEnv false) scenario.gold.ProductID
            (scenario.bodyPriceOnly.price.getD 0) (scenario.bodyPriceOnly.type_.getD 0)) =
        .ok newPrice ∧
      (UpdateSubscription (scenario.planEnv false) scenario.planParam
          (some scenario.bodyPriceOnly) scenario.db0).calls =
        [.priceNew (newPriceParams (scenario.planEnv false) scenario.gold.ProductID
          (scenario.bodyPriceOnly.price.getD 0) (scenario.bodyPriceOnly.type_.getD 0))] ∧
      mongo.findOne models.Subscription.ID scenario.planID
        (UpdateSubscription (scenario.planEnv false) scenario.planParam
          (some scenario.bodyPriceOnly) scenario.db0).store.subscription = some plan' ∧
      gin.Body.subscription scenario.goldRepriced = .subscription plan' ∧
      plan'.PriceID = newPrice.ID ∧
      ((∀ params p, (scenario.planEnv false).priceNew params = .ok p → p.ID ∉ ["price_1"]) →
        (∀ x ∈ ["price_1"], x ∈ ["price_1"]) → scenario.gold.PriceID ∈ ["price_1"] →
        plan'.PriceID ≠ scenario.gold.PriceID ∧ plan'.PriceID ∉ ["price_1"]) :=
  update_price_id_is_minted_id (scenario.planEnv false) scenario.planParam scenario.planID
    scenario.bodyPriceOnly scenario.gold scenario.db0
    (.subscription scenario.goldRepriced)
    ["price_1"] ["price_1"] (by decide) (by decide) (by decide) (by decide)

/-- Claim C16, refuted as stated: the plan "Gold" is Monthly and the request
`{"type": 0}` supplies the kind NoRecurring; the update answers 200 and the
stored plan is still Monthly. -/
theorem update_type_NoRecurring_not_stored :
    scenario.bodyTypeNoRecurring.type_ = some NoRecurring ∧
    scenario.gold.Type_ = Monthly ∧
    UpdateSubscription (scenario.planEnv false) scenario.planParam
        (some scenario.bodyTypeNoRecurring) scenario.db0 =
      ⟨.json 200 (.subscription { scenario.gold with UpdatedAt := 21 }),
       { scenario.db0 with subscription := [{ scenario.gold with UpdatedAt := 21 }] }, []⟩ ∧
    ({ scenario.gold with UpdatedAt := 21 } : models.Subscription).Type_ ≠ NoRecurring := by
  decide

/-- Claim C16, amended: in an update of an existing plan that answers 200,
each of title, description, type and price that the request supplies with a
value other than the zero value of its type (the empty string, 0) has the
supplied value in the stored plan, and each of them that the request does not
supply keeps its stored value; and in every run of the handler on an existing
plan, whatever the body and the outcome, the plan keeps its `product_id` and
`created_at`. -/
theorem update_sets_supplied_fields (env : PlanEnv) (id : String) (objectID : ObjectID)
    (plan : models.Subscription) (db : Store)
    (hid : ObjectIDFromHex id = some objectID)
    (hplan : mongo.findOne models.Subscription.ID objectID db.subscription = some plan) :
    (∀ (j : PlanJSON) (b : gin.Body),
      (UpdateSubscription env id (some j) db).out = .json 200 b →
      ∃ plan',
        mongo.findOne models.Subscription.ID objectID
          (UpdateSubscription env id (some j) db).store.subscription = some plan' ∧
        b = .subscription plan' ∧
        (∀ v, j.title = some v → v ≠ "" → plan'.Title = v) ∧
        (j.title = none → plan'.Title = plan.Title) ∧
        (∀ v, j.description = some v → v ≠ "" → plan'.Description = v) ∧
        (j.description = none → plan'.Description = plan.Description) ∧
        (∀ v, j.type_ = some v → v ≠ 0 → plan'.Type_ = v) ∧
        (j.type_ = none → plan'.Type_ = plan.Type_) ∧
        (∀ v, j.price = some v → v ≠ 0 → plan'.Price = v) ∧
        (j.price = none → plan'.Price = plan.Price)) ∧
    (∀ body : Option PlanJSON,
      ∃ plan',
        mongo.findOne models.Subscription.ID objectID
          (UpdateSubscription env id body db).store.subscription = some plan' ∧
        plan'.ProductID = plan.ProductID ∧ plan'.CreatedAt = plan.CreatedAt) := by
  constructor
  · intro j b hok
    by_cases hprice : j.price.getD 0 = 0
    · rw [UpdateSubscription_no_price env id objectID j db hid hprice] at hok ⊢
      obtain ⟨hu, hf, _⟩ := applyUpdate_ok_inv env objectID _ db _ b hok
      rw [applyUpdate_found env objectID _ db _ plan hu hf hplan] at hok ⊢
      have hget := mongo.findOne_updateOne models.Subscription.ID objectID
        (PlanSet.apply
          { initialUpdate ⟨j.title.getD "", j.description.getD "", j.type_.getD 0,
                j.price.getD 0⟩ with
            updated_at := some env.nowUpdated })
        (fun _ => rfl) db.subscription plan hplan
      simp only [gin.Outcome.json.injEq, true_and] at hok
      refine ⟨_, hget, hok.symm, ?_, ?_, ?_, ?_, ?_, ?_, ?_, ?_⟩
      · intro v hv hne; simp [PlanSet.apply, initialUpdate, hv, hne]
      · intro hv; simp [PlanSet.apply, initialUpdate, hv]
      · intro v hv hne; simp [PlanSet.apply, initialUpdate, hv, hne]
      · intro hv; simp [PlanSet.apply, initialUpdate, hv]
      · intro v hv hne; simp [PlanSet.apply, initialUpdate, hv, hne]
      · intro hv; simp [PlanSet.apply, initialUpdate, hv]
      · intro v hv hne
        rw [hv] at hprice
        exact absurd hprice hne
      · intro _; simp [PlanSet.apply, initialUpdate]
    · have hfe : env.findExistingErr = false := by
        cases h : env.findExistingErr with
        | false => rfl
        | true =>
          simp [UpdateSubscription, hid, bindUpdateRequest, hprice, h, errorJSON] at hok
      rw [UpdateSubscription_price env id objectID j db plan hid hprice hfe hplan] at hok ⊢
      cases hnew : env.priceNew
          (newPriceParams env plan.ProductID (j.price.getD 0) (j.type_.getD 0)) with
      | error e =>
        rw [hnew] at hok
        simp [errorJSON] at hok
      | ok newPrice =>
        rw [hnew] at hok
        simp only at hok ⊢
        obtain ⟨hu, hf, _⟩ := applyUpdate_ok_inv env objectID _ db _ b hok
        rw [applyUpdate_found env objectID _ db _ plan hu hf hplan] at hok ⊢
        have hget := mongo.findOne_updateOne models.Subscription.ID objectID
          (PlanSet.apply
            { initialUpdate ⟨j.title.getD "", j.description.getD "", j.type_.getD 0,
                  j.price.getD 0⟩ with
              price := some (j.price.getD 0), price_id := some newPrice.ID,
              updated_at := some env.nowUpdated })
          (fun _ => rfl) db.subscription plan hplan
        simp only [gin.Outcome.json.injEq, true_and] at hok
        refine ⟨_, hget, hok.symm, ?_, ?_, ?_, ?_, ?_, ?_, ?_, ?_⟩
        · intro v hv hne; simp [PlanSet.apply, initialUpdate, hv, hne]
        · intro hv; simp [PlanSet.apply, initialUpdate, hv]
        · intro v hv hne; simp [PlanSet.apply, initialUpdate, hv, hne]
        · intro hv; simp [PlanSet.apply, initialUpdate, hv]
        · intro v hv hne; simp [PlanSet.apply, initialUpdate, hv, hne]
        · intro hv; simp [PlanSet.apply, initialUpdate, hv]
        · intro v hv _; simp [PlanSet.apply, hv]
        · intro hv
          rw [hv] at hprice
          exact absurd rfl hprice
  · intro body
    have hframe : ∀ (u : PlanSet) (calls : List ProviderCall),
        ∃ plan',
          mongo.findOne models.Subscription.ID objectID
            (applyUpdate env objectID u db calls).store.subscription = some plan' ∧
          plan'.ProductID = plan.ProductID ∧ plan'.CreatedAt = plan.CreatedAt := by
      intro u calls
      rcases (applyUpdate_frame env objectID u db calls plan hplan).2 with h | h
      · exact ⟨_, h, rfl, rfl⟩
      · exact ⟨_, h, rfl, rfl⟩
    cases body with
    | none => exact ⟨plan, by simp [UpdateSubscription, hid, bindUpdateRequest, hplan], rfl, rfl⟩
    | some j =>
      by_cases hprice : j.price.getD 0 = 0
      · rw [UpdateSubscription_no_price env id objectID j db hid hprice]
        exact hframe _ _
      · cases hfe : env.findExistingErr with
        | true =>
          exact ⟨plan, by simp [UpdateSubscription, hid, bindUpdateRequest, hprice, hfe, hplan],
            rfl, rfl⟩
        | false =>
          rw [UpdateSubscription_price env id objectID j db plan hid hprice hfe hplan]
          cases hnew : env.priceNew
              (newPriceParams env plan.ProductID (j.price.getD 0) (j.type_.getD 0)) with
          | error e => exact ⟨plan, hplan, rfl, rfl⟩
          | ok newPrice => exact hframe _ _

/-- Claim C16 as amended, a concrete run: the request `{"title": "Gold
Plus", "price": 12.5, "type": 3}` on "Gold"; the description is kept. -/
theorem update_sets_supplied_fields_witness :
    ∃ plan',
      mongo.findOne models.Subscription.ID scenario.planID
        (UpdateSubscription (scenario.planEnv false) scenario.planParam
          (some scenario.bodyTitlePriceYearly) scenario.db0).store.subscription = some plan' ∧
      gin.Body.subscription { scenario.goldRepriced with Title := "Gold Plus", Type_ := Yearly } =
        .subscription plan' ∧
      (∀ v, scenario.bodyTitlePriceYearly.title = some v → v ≠ "" → plan'.Title = v) ∧
      (scenario.bodyTitlePriceYearly.title = none → plan'.Title = scenario.gold.Title) ∧
      (∀ v, scenario.bodyTitlePriceYearly.description = some v → v ≠ "" →
        plan'.Description = v) ∧
      (scenario.bodyTitlePriceYearly.description = none →
        plan'.Description = scenario.gold.Description) ∧
      (∀ v, scenario.bodyTitlePriceYearly.type_ = some v → v ≠ 0 → plan'.Type_ = v) ∧
      (scenario.bodyTitlePriceYearly.type_ = none → plan'.Type_ = scenario.gold.Type_) ∧
      (∀ v, scenario.bodyTitlePriceYearly.price = some v → v ≠ 0 → plan'.Price = v) ∧
      (scenario.bodyTitlePriceYearly.price = none → plan'.Price = scenario.gold.Price) :=
  (update_sets_supplied_fields (scenario.planEnv false) scenario.planParam scenario.planID
    scenario.gold scenario.db0 (by decide) (by decide)).1 scenario.bodyTitlePriceYearly
    (.subscription { scenario.goldRepriced with Title := "Gold Plus", Type_ := Yearly })
    (by decide)

/-- Claim C17: an update whose well-formed id matches no plan row leaves the
whole store as it was (no row is created) and makes no provider call, whatever
the body; and when the body binds it is answered HTTP 404 "Subscription not
found", whether the body supplies a price or, the `UpdateOne` call returning
no driver error, supplies none. -/
theorem update_unknown_id_not_found (env : PlanEnv) (id : String) (objectID : ObjectID)
    (body : Option PlanJSON) (db : Store)
    (hid : ObjectIDFromHex id = some objectID)
    (hnone : mongo.findOne models.Subscription.ID objectID db.subscription = none) :
    (UpdateSubscription env id body db).store = db ∧
    (UpdateSubscription env id body db).calls = [] ∧
    (∀ j, body = some j → (j.price.getD 0 ≠ 0 ∨ env.updateErr = false) →
      (UpdateSubscription env id body db).out =
        .json 404 (.h [("error", "Subscription not found")])) := by
  cases body with
  | none => simp [UpdateSubscription, hid, bindUpdateRequest]
  | some j =>
    by_cases hprice : j.price.getD 0 = 0
    · rw [UpdateSubscription_no_price env id objectID j db hid hprice,
        applyUpdate_missing env objectID _ db [] hnone]
      cases hu : env.updateErr with
      | true =>
        refine ⟨rfl, rfl, ?_⟩
        intro j' hj h
        cases hj
        rcases h with h | h
        · exact absurd hprice h
        · cases h
      | false =>
        refine ⟨rfl, rfl, ?_⟩
        intro _ _ _
        rfl
    · have hrun : UpdateSubscription env id (some j) db =
          ⟨errorJSON 404 "Subscription not found", db, []⟩ := by
        cases hfe : env.findExistingErr <;>
          simp [UpdateSubscription, hid, bindUpdateRequest, hprice, hfe, hnone]
      rw [hrun]
      exact ⟨rfl, rfl, fun _ _ _ => rfl⟩

/-- Claim C17, a concrete run: the request `{"price": 12.5}` for the id
`000000000000000000000009`, which no plan has. -/
theorem update_unknown_id_not_found_witness :
    (UpdateSubscription (scenario.planEnv false) scenario.unknownParam
        (some scenario.bodyPriceOnly) scenario.db0).store = scenario.db0 ∧
    (UpdateSubscription (scenario.planEnv false) scenario.unknownParam
        (some scenario.bodyPriceOnly) scenario.db0).calls = [] ∧
    (∀ j, some scenario.bodyPriceOnly = some j →
      (j.price.getD 0 ≠ 0 ∨ (scenario.planEnv false).updateErr = false) →
      (UpdateSubscription (scenario.planEnv false) scenario.unknownParam
          (some scenario.bodyPriceOnly) scenario.db0).out =
        .json 404 (.h [("error", "Subscription not found")])) :=
  update_unknown_id_not_found (scenario.planEnv false) scenario.unknownParam
    scenario.unknownID (some scenario.bodyPriceOnly) scenario.db0 (by decide) (by decide)

/-- Claim C18: for an existing plan, when the provider's delete-product call
fails `DeleteSubscription` answers HTTP 500 "Failed to delete product in
Stripe" and the store, so also the plan row, is exactly as before; a run that
changes the store at all is one in which the provider deletion succeeded; and
when the provider deletion and the `DeleteOne` call succeed the row is
removed. -/
theorem delete_keeps_plan_when_provider_fails (env : PlanEnv) (id : String)
    (objectID : ObjectID) (plan : models.Subscription) (db : Store)
    (hid : ObjectIDFromHex id = some objectID)
    (hfind : env.findErr = false)
    (hplan : mongo.findOne models.Subscription.ID objectID db.subscription = some plan) :
    (∀ e, env.productDel plan.ProductID = .error e →
      DeleteSubscription env id db =
        ⟨.json 500 (.h [("error", "Failed to delete product in Stripe")]), db,
          [.productDel plan.ProductID]⟩) ∧
    ((DeleteSubscription env id db).store ≠ db →
      ∃ p, env.productDel plan.ProductID = .ok p) ∧
    (∀ p, env.productDel plan.ProductID = .ok p → env.deleteErr = false →
      DeleteSubscription env id db =
        ⟨.json 200 (.h [("message", "Subscription deleted successfully")]),
         { db with subscription :=
            (mongo.deleteOne models.Subscription.ID objectID db.subscription) },
         [.productDel plan.ProductID]⟩) := by
  refine ⟨?_, ?_, ?_⟩
  · intro e he
    simp [DeleteSubscription, hid, hfind, hplan, he, errorJSON]
  · intro hne
    cases hdel : env.productDel plan.ProductID with
    | ok p => exact ⟨p, rfl⟩
    | error e =>
      exfalso
      apply hne
      simp [DeleteSubscription, hid, hfind, hplan, hdel]
  · intro p hp hd
    simp [DeleteSubscription, hid, hfind, hplan, hp, hd]

/-- Claim C18, a concrete run: the provider refuses to delete the product of
"Gold"; the store is unchanged. -/
theorem delete_keeps_plan_when_provider_fails_witness :
    DeleteSubscription (scenario.planEnv true) scenario.planParam scenario.db0 =
      ⟨.json 500 (.h [("error", "Failed to delete product in Stripe")]), scenario.db0,
        [.productDel scenario.gold.ProductID]⟩ :=
  (delete_keeps_plan_when_provider_fails (scenario.planEnv true) scenario.planParam
    scenario.planID scenario.gold scenario.db0 (by decide) (by decide) (by decide)).1
    (.other "provider unavailable") rfl

/-- A create request whose type is absent or 0 (NoRecurring) fails the
`required` check of the binding: it is answered 400 with the binding error,
before any provider call or write. -/
theorem CreateSubscription_type_zero (env : PlanEnv) (j : PlanJSON) (db : Store)
    (htype : j.type_.getD 0 = NoRecurring) :
    CreateSubscription env (some j) db = ⟨.json 400 .bindingError, db, []⟩ := by
  have h0 : j.type_.getD 0 = 0 := htype
  simp [CreateSubscription, bindCreateRequest, h0]

/-- Claim C19, the code at a failing input: the request `{"title": "Pass",
"description": "One-time pass", "type": 0, "price": 12.5}` has a non-empty
title and description, a positive price and the kind NoRecurring;
`CreateSubscription` answers HTTP 400 with the binding error, calls no
provider and persists no plan, while the same kind of request with type 1
(Monthly) is bound, priced and persisted. -/
theorem create_NoRecurring_rejected :
    scenario.bodyCreateNoRecurring.title = some "Pass" ∧
    scenario.bodyCreateNoRecurring.description = some "One-time pass" ∧
    scenario.bodyCreateNoRecurring.type_ = some NoRecurring ∧
    scenario.bodyCreateNoRecurring.price = some scenario.price1250 ∧
    (0 : Rat) < scenario.price1250 ∧
    CreateSubscription (scenario.planEnv false) (some scenario.bodyCreateNoRecurring)
        scenario.db0 =
      ⟨.json 400 .bindingError, scenario.db0, []⟩ ∧
    (CreateSubscription (scenario.planEnv false) (some scenario.bodyCreateMonthly)
        scenario.db0).calls =
      [.productNew ⟨"Silver", "Silver plan"⟩,
       .priceNew ⟨"prod_new", 1250, "usd", some "month"⟩] := by
  exact ⟨by decide, by decide, by decide, by decide, Rat.num_pos.mp (by decide), by decide,
    by decide⟩

/-- The price parameters `CreateSubscription` sends are those of
`newPriceParams` for the type of the bound request. -/
theorem CreateSubscription_priceNew (env : PlanEnv) (body : Option PlanJSON) (db : Store)
    (params : stripe.PriceParams)
    (hcall : ProviderCall.priceNew params ∈ (CreateSubscription env body db).calls) :
    ∃ req newProduct, bindCreateRequest body = some req ∧
      env.productNew ⟨req.Title, req.Description⟩ = .ok newProduct ∧
      params = newPriceParams env newProduct.ID req.Price req.Type_ := by
  unfold CreateSubscription at hcall
  split at hcall
  · simp at hcall
  · rename_i req hreq
    simp only at hcall
    split at hcall
    · simp at hcall
    · rename_i newProduct hprod
      have hparams : ProviderCall.priceNew params ∈
          [ProviderCall.productNew ⟨req.Title, req.Description⟩] ++
            [ProviderCall.priceNew (newPriceParams env newProduct.ID req.Price req.Type_)] →
          params = newPriceParams env newProduct.ID req.Price req.Type_ := by
        intro h
        simpa using h
      split at hcall
      · exact ⟨req, newProduct, hreq, hprod, hparams hcall⟩
      · split at hcall
        · exact ⟨req, newProduct, hreq, hprod, hparams hcall⟩
        · exact ⟨req, newProduct, hreq, hprod, hparams hcall⟩

/-- Claim C20: `getStripeInterval` gives "month" for Monthly, "quarter" for
Quarterly, "year" for Yearly, and the empty string for NoRecurring and for
every other integer; and `CreateSubscription` attaches a recurrence to the
price exactly when that interval is not empty: a request that is bound and
whose product the provider creates logs the product call followed by exactly
one price call, for that product, the cents of the request's price and the
currency "usd", whose recurrence is the interval of the request's type when it
is not empty and is absent when it is empty; and every price call in the log of
any run is of that form. -/
theorem getStripeInterval_total :
    getStripeInterval Monthly = "month" ∧ getStripeInterval Quarterly = "quarter" ∧
    getStripeInterval Yearly = "year" ∧ getStripeInterval NoRecurring = "" ∧
    (∀ t : SubscriptionType, t ≠ Monthly → t ≠ Quarterly → t ≠ Yearly →
      getStripeInterval t = "") ∧
    (∀ (env : PlanEnv) (body : Option PlanJSON) (db : Store)
      (req : SubscriptionCreateRequest) (newProduct : stripe.Product),
      bindCreateRequest body = some req →
      env.productNew ⟨req.Title, req.Description⟩ = .ok newProduct →
      ∃ params : stripe.PriceParams,
        (CreateSubscription env body db).calls =
          [.productNew ⟨req.Title, req.Description⟩, .priceNew params] ∧
        params.Product = newProduct.ID ∧
        params.UnitAmount = env.unitAmount req.Price ∧
        params.Currency = "usd" ∧
        (getStripeInterval req.Type_ ≠ "" →
          params.Recurring = some (getStripeInterval req.Type_)) ∧
        (getStripeInterval req.Type_ = "" → params.Recurring = none)) ∧
    (∀ (env : PlanEnv) (body : Option PlanJSON) (db : Store) (params : stripe.PriceParams),
      ProviderCall.priceNew params ∈ (CreateSubscription env body db).calls →
      ∃ req, bindCreateRequest body = some req ∧
        (getStripeInterval req.Type_ ≠ "" →
          params.Recurring = some (getStripeInterval req.Type_)) ∧
        (getStripeInterval req.Type_ = "" → params.Recurring = none)) := by
  refine ⟨by decide, by decide, by decide, by decide, ?_, ?_, ?_⟩
  · intro t h1 h2 h3
    simp [getStripeInterval, h1, h2, h3]
  · intro env body db req newProduct hreq hprod
    refine ⟨newPriceParams env newProduct.ID req.Price req.Type_, ?_, rfl, rfl, rfl, ?_, ?_⟩
    · unfold CreateSubscription
      rw [hreq]
      simp only [hprod]
      split
      · rfl
      · split <;> rfl
    · intro h
      simp [newPriceParams, h]
    · intro h
      simp [newPriceParams, h]
  · intro env body db params hcall
    obtain ⟨req, newProduct, hreq, _, hparams⟩ :=
      CreateSubscription_priceNew env body db params hcall
    refine ⟨req, hreq, ?_, ?_⟩
    · intro h
      rw [hparams]
      simp [newPriceParams, h]
    · intro h
      rw [hparams]
      simp [newPriceParams, h]

/-- Claim C20, two concrete runs: the create request for the Monthly plan
"Silver" logs the product call and one price call whose recurrence is the
interval "month"; the same request with the type 7, which is none of the three
recurring kinds, logs the product call and one price call without recurrence. -/
theorem getStripeInterval_total_witness :
    (∃ params : stripe.PriceParams,
      (CreateSubscription (scenario.planEnv false) (some scenario.bodyCreateMonthly)
          scenario.db0).calls =
        [.productNew ⟨"Silver", "Silver plan"⟩, .priceNew params] ∧
      params.Product = "prod_new" ∧ params.UnitAmount = 1250 ∧ params.Currency = "usd" ∧
      params.Recurring = some "month") ∧
    (∃ params : stripe.PriceParams,
      (CreateSubscription (scenario.planEnv false) (some scenario.bodyCreateKindSeven)
          scenario.db0).calls =
        [.productNew ⟨"Silver", "Silver plan"⟩, .priceNew params] ∧
      params.Product = "prod_new" ∧ params.UnitAmount = 1250 ∧ params.Currency = "usd" ∧
      params.Recurring = none) := by
  constructor
  · obtain ⟨params, hcalls, hproduct, hamount, hcurrency, hrec, _⟩ :=
      getStripeInterval_total.2.2.2.2.2.1 (scenario.planEnv false)
        (some scenario.bodyCreateMonthly) scenario.db0
        ⟨"Silver", "Silver plan", Monthly, scenario.price1250⟩ ⟨"prod_new"⟩ (by decide) rfl
    exact ⟨params, hcalls, hproduct, hamount.trans (by decide), hcurrency, hrec (by decide)⟩
  · obtain ⟨params, hcalls, hproduct, hamount, hcurrency, _, hnone⟩ :=
      getStripeInterval_total.2.2.2.2.2.1 (scenario.planEnv false)
        (some scenario.bodyCreateKindSeven) scenario.db0
        ⟨"Silver", "Silver plan", 7, scenario.price1250⟩ ⟨"prod_new"⟩ (by decide) rfl
    exact ⟨params, hcalls, hproduct, hamount.trans (by decide), hcurrency, hnone (by decide)⟩

end controllers

/-! ## The unit amount, plan creation, and the instance snapshot -/

namespace controllers

open primitive models

/-- Claim C21, the code at a failing input: the price 9.99 gives 999 cents,
but the price 19.99, which has two decimal places, gives
`int64(price * 100) = 1998`, not 1999; `CreateSubscription` for a plan priced
19.99 and `UpdateSubscription` to the price 19.99 both ask the provider for a
price with unit amount 1998. -/
theorem unitAmount_loses_a_cent :
    float64.unitAmount scenario.price999 = 999 ∧
    scenario.price1999.num = 1999 ∧ scenario.price1999.den = 100 ∧
    float64.unitAmount scenario.price1999 = 1998 ∧
    (CreateSubscription scenario.float64PlanEnv (some scenario.bodyCreateGold1999)
        scenario.db0).calls =
      [.productNew ⟨"Gold", "Gold plan"⟩,
       .priceNew ⟨"prod_new", 1998, "usd", some "month"⟩] ∧
    (UpdateSubscription scenario.float64PlanEnv scenario.planParam
        (some scenario.bodyPrice1999) scenario.db0).calls =
      [.priceNew ⟨"prod_1", 1998, "usd", some "month"⟩] := by
  decide

/-- Claim C22: a create that answers 200 bound the request, created a
product and then a price on that product, and appended exactly one plan row,
the one in the response, whose title, description, type and price are those of
the request, whose `product_id` is the id the create-product call returned
and whose `price_id` is the id the create-price call returned. -/
theorem create_persists_request_and_provider_ids (env : PlanEnv) (body : Option PlanJSON)
    (db : Store) (b : gin.Body)
    (hok : (CreateSubscription env body db).out = .json 200 b) :
    ∃ req newProduct newPrice plan,
      bindCreateRequest body = some req ∧
      env.productNew ⟨req.Title, req.Description⟩ = .ok newProduct ∧
      env.priceNew (newPriceParams env newProduct.ID req.Price req.Type_) = .ok newPrice ∧
      (newPriceParams env newProduct.ID req.Price req.Type_).Product = newProduct.ID ∧
      (CreateSubscription env body db).calls =
        [.productNew ⟨req.Title, req.Description⟩,
         .priceNew (newPriceParams env newProduct.ID req.Price req.Type_)] ∧
      (CreateSubscription env body db).store.subscription = db.subscription ++ [plan] ∧
      b = .subscription plan ∧
      plan.Title = req.Title ∧ plan.Description = req.Description ∧
      plan.Type_ = req.Type_ ∧ plan.Price = req.Price ∧
      plan.ProductID = newProduct.ID ∧ plan.PriceID = newPrice.ID := by
  cases hreq : bindCreateRequest body with
  | none => simp [CreateSubscription, hreq] at hok
  | some req =>
    cases hprod : env.productNew ⟨req.Title, req.Description⟩ with
    | error e => simp [CreateSubscription, hreq, hprod, errorJSON] at hok
    | ok newProduct =>
      cases hprice : env.priceNew
          (newPriceParams env newProduct.ID req.Price req.Type_) with
      | error e => simp [CreateSubscription, hreq, hprod, hprice, errorJSON] at hok
      | ok newPrice =>
        cases hins : env.insertErr with
        | true => simp [CreateSubscription, hreq, hprod, hprice, hins, errorJSON] at hok
        | false =>
          cases hfind : mongo.findOne models.Subscription.ID env.NewObjectID
              db.subscription with
          | some d =>
            simp [CreateSubscription, hreq, hprod, hprice, hins, mongo.insertOne, hfind,
              errorJSON] at hok
          | none =>
            have hrun : CreateSubscription env body db =
                ⟨.json 200 (.subscription
                    { ID := env.NewObjectID, Title := req.Title,
                      Description := req.Description, Type_ := req.Type_,
                      Price := req.Price, ProductID := newProduct.ID,
                      PriceID := newPrice.ID, CreatedAt := env.nowCreated,
                      UpdatedAt := env.nowUpdated }),
                 { db with subscription := db.subscription ++
                    [{ ID := env.NewObjectID, Title := req.Title,
                       Description := req.Description, Type_ := req.Type_,
                       Price := req.Price, ProductID := newProduct.ID,
                       PriceID := newPrice.ID, CreatedAt := env.nowCreated,
                       UpdatedAt := env.nowUpdated }] },
                 [.productNew ⟨req.Title, req.Description⟩,
                  .priceNew (newPriceParams env newProduct.ID req.Price req.Type_)]⟩ := by
              simp [CreateSubscription, hreq, hprod, hprice, hins, mongo.insertOne, hfind]
            rw [hrun] at hok ⊢
            simp only [gin.Outcome.json.injEq, true_and] at hok
            exact ⟨req, newProduct, newPrice, _, rfl, hprod, hprice, rfl, rfl, rfl, hok.symm,
              rfl, rfl, rfl, rfl, rfl, rfl⟩

/-- Claim C22, a concrete run: the create request for the Monthly plan
"Silver". -/
theorem create_persists_request_and_provider_ids_witness :
    ∃ req newProduct newPrice plan,
      bindCreateRequest (some scenario.bodyCreateMonthly) = some req ∧
      (scenario.planEnv false).productNew ⟨req.Title, req.Description⟩ = .ok newProduct ∧
      (scenario.planEnv false).priceNew
        (newPriceParams (scenario.planEnv false) newProduct.ID req.Price req.Type_) =
        .ok newPrice ∧
      (newPriceParams (scenario.planEnv false) newProduct.ID req.Price req.Type_).Product =
        newProduct.ID ∧
      (CreateSubscription (scenario.planEnv false) (some scenario.bodyCreateMonthly)
          scenario.db0).calls =
        [.productNew ⟨req.Title, req.Description⟩,
         .priceNew (newPriceParams (scenario.planEnv false) newProduct.ID req.Price
          req.Type_)] ∧
      (CreateSubscription (scenario.planEnv false) (some scenario.bodyCreateMonthly)
          scenario.db0).store.subscription = scenario.db0.subscription ++ [plan] ∧
      gin.Body.subscription scenario.silver = .subscription plan ∧
      plan.Title = req.Title ∧ plan.Description = req.Description ∧
      plan.Type_ = req.Type_ ∧ plan.Price = req.Price ∧
      plan.ProductID = newProduct.ID ∧ plan.PriceID = newPrice.ID :=
  create_persists_request_and_provider_ids (scenario.planEnv false)
    (some scenario.bodyCreateMonthly) scenario.db0 (.subscription scenario.silver)
    (by decide)

/-- Claim C23: for a create request that binds, when the create-product call
fails, or succeeds and the create-price call fails, `CreateSubscription`
answers HTTP 500 and the store, so the plan collection, is unchanged. -/
theorem create_provider_failure_inserts_nothing (env : PlanEnv) (body : Option PlanJSON)
    (db : Store) (req : SubscriptionCreateRequest)
    (hreq : bindCreateRequest body = some req) :
    (∀ e, env.productNew ⟨req.Title, req.Description⟩ = .error e →
      CreateSubscription env body db =
        ⟨.json 500 (.h [("error", "Failed to create product in Stripe")]), db,
          [.productNew ⟨req.Title, req.Description⟩]⟩) ∧
    (∀ newProduct e, env.productNew ⟨req.Title, req.Description⟩ = .ok newProduct →
      env.priceNew (newPriceParams env newProduct.ID req.Price req.Type_) = .error e →
      CreateSubscription env body db =
        ⟨.json 500 (.h [("error", "Failed to create price in Stripe")]), db,
          [.productNew ⟨req.Title, req.Description⟩,
           .priceNew (newPriceParams env newProduct.ID req.Price req.Type_)]⟩) := by
  constructor
  · intro e he
    simp [CreateSubscription, hreq, he, errorJSON]
  · intro newProduct e hp he
    simp [CreateSubscription, hreq, hp, he, errorJSON]

/-- Claim C23, a concrete run: the create-price call fails for the plan
"Silver"; the store is unchanged. -/
theorem create_provider_failure_inserts_nothing_witness :
    CreateSubscription scenario.planEnvPriceFails (some scenario.bodyCreateMonthly)
        scenario.db0 =
      ⟨.json 500 (.h [("error", "Failed to create price in Stripe")]), scenario.db0,
        [.productNew ⟨"Silver", "Silver plan"⟩,
         .priceNew (newPriceParams scenario.planEnvPriceFails "prod_new"
          scenario.price1250 Monthly)]⟩ :=
  (create_provider_failure_inserts_nothing scenario.planEnvPriceFails
    (some scenario.bodyCreateMonthly) scenario.db0
    ⟨"Silver", "Silver plan", Monthly, scenario.price1250⟩ (by decide)).2
    ⟨"prod_new"⟩ (.other "provider unavailable") rfl rfl

/-- Whatever its outcome, the last step of `UpdateSubscription` leaves the
instance and user collections as they were. -/
theorem applyUpdate_other_collections (env : PlanEnv) (objectID : ObjectID) (u : PlanSet)
    (db : Store) (calls : List ProviderCall) :
    (applyUpdate env objectID u db calls).store.student_subscription =
      db.student_subscription ∧
    (applyUpdate env objectID u db calls).store.system_user = db.system_user := by
  unfold applyUpdate
  simp only
  split
  · exact ⟨rfl, rfl⟩
  · split <;> exact ⟨rfl, rfl⟩

/-- Claim C24: for every store, every run of `UpdateSubscription` and of
`DeleteSubscription`, whatever the request, the environment and the outcome,
leaves the instance collection exactly as it was; so an instance found with a
given row before, in particular with its snapshotted `price_id`, is found with
the same row after. -/
theorem plan_changes_leave_instances :
    (∀ (env : PlanEnv) (id : String) (body : Option PlanJSON) (db : Store),
      (UpdateSubscription env id body db).store.student_subscription =
        db.student_subscription) ∧
    (∀ (env : PlanEnv) (id : String) (db : Store),
      (DeleteSubscription env id db).store.student_subscription =
        db.student_subscription) ∧
    (∀ (env : PlanEnv) (id : String) (body : Option PlanJSON) (db : Store)
      (instanceID : ObjectID) (row : models.StudentSubscription),
      mongo.findOne models.StudentSubscription.ID instanceID db.student_subscription =
        some row →
      mongo.findOne models.StudentSubscription.ID instanceID
          (UpdateSubscription env id body db).store.student_subscription = some row ∧
      mongo.findOne models.StudentSubscription.ID instanceID
          (DeleteSubscription env id db).store.student_subscription = some row) := by
  have hupdate : ∀ (env : PlanEnv) (id : String) (body : Option PlanJSON) (db : Store),
      (UpdateSubscription env id body db).store.student_subscription =
        db.student_subscription := by
    intro env id body db
    unfold UpdateSubscription
    split
    · rfl
    · split
      · rfl
      · simp only
        split
        · split
          · rfl
          · split
            · rfl
            · exact (applyUpdate_other_collections env _ _ db _).1
        · exact (applyUpdate_other_collections env _ _ db _).1
  have hdelete : ∀ (env : PlanEnv) (id : String) (db : Store),
      (DeleteSubscription env id db).store.student_subscription =
        db.student_subscription := by
    intro env id db
    unfold DeleteSubscription
    split
    · rfl
    · split
      · rfl
      · simp only
        split
        · rfl
        · split <;> rfl
  refine ⟨hupdate, hdelete, ?_⟩
  intro env id body db instanceID row hrow
  rw [hupdate, hdelete]
  exact ⟨hrow, hrow⟩

/-- Claim C24, a concrete run: after the price of "Gold" is changed, the
instance `000000000000000000000003` still holds the row with the price id
`price_1` it snapshotted. -/
theorem plan_changes_leave_instances_witness :
    mongo.findOne models.StudentSubscription.ID scenario.instanceID
        (UpdateSubscription (scenario.planEnv false) scenario.planParam
          (some scenario.bodyPriceOnly)
          scenario.dbPlanWithInstances).store.student_subscription =
      some (scenario.pendingRow scenario.instanceID) ∧
    mongo.findOne models.StudentSubscription.ID scenario.instanceID
        (DeleteSubscription (scenario.planEnv false) scenario.planParam
          scenario.dbPlanWithInstances).store.student_subscription =
      some (scenario.pendingRow scenario.instanceID) :=
  plan_changes_leave_instances.2.2 (scenario.planEnv false) scenario.planParam
    (some scenario.bodyPriceOnly) scenario.dbPlanWithInstances scenario.instanceID
    (scenario.pendingRow scenario.instanceID) (by decide)

end controllers

/-! ## Failure of the checkout step, and repeated confirmation -/

namespace mongo

theorem updateOne_idem {α : Type} (key : α → primitive.ObjectID) (id : primitive.ObjectID)
    (f : α → α) (hkey : ∀ a, key (f a) = key a) (hf : ∀ a, f (f a) = f a) (l : List α) :
    updateOne key id f (updateOne key id f l) = updateOne key id f l := by
  induction l with
  | nil => rfl
  | cons x xs ih =>
    by_cases hx : key x = id
    · simp [updateOne, hx, hkey, hf]
    · simp [updateOne, hx, ih]

end mongo

namespace controllers

open primitive models

/-- Claim C28: in a subscribe by a student on an existing plan, after the
customer was resolved and the instance row inserted, a failure of the
checkout-session creation is answered HTTP 500 "Failed to create Stripe
checkout session"; the store the handler leaves is the one after the customer
step with the new row appended to the instance collection, the row being in
state Pending/Open with an empty payment link; and when the user had no
stored customer id, the id of the customer created in this run is still on the
user record. -/
theorem subscribe_keeps_row_when_checkout_fails (env : SubscribeEnv) (u : SystemUser)
    (req : StudentSubscriptionRequest) (plan : models.Subscription) (db db1 : Store)
    (c : stripe.Customer) (calls : List ProviderCall) (e : stripe.Error)
    (hrole : u.Role = StudentRole) (herr : env.findPlanErr = false)
    (hplan : mongo.findOne models.Subscription.ID req.SubscriptionID db.subscription
      = some plan)
    (hres : resolveCustomer env u db = .ok (c, db1, calls))
    (hins : env.insertErr = false)
    (hfresh : mongo.findOne models.StudentSubscription.ID env.NewObjectID
      db.student_subscription = none)
    (hsess : env.sessionNew (newCheckoutParams env.NewObjectID plan c) = .error e) :
    StudentSubscription env (.user u) (some req) db =
      ⟨.json 500 (.h [("error", "Failed to create Stripe checkout session")]),
       { db1 with student_subscription :=
          db.student_subscription ++ [newStudentSubscription env u plan] },
       calls ++ [.sessionNew (newCheckoutParams env.NewObjectID plan c)]⟩ ∧
    (newStudentSubscription env u plan).Status = Pending ∧
    (newStudentSubscription env u plan).PaymentStatus = Open ∧
    (newStudentSubscription env u plan).PaymentLink = "" ∧
    (u.StripeCustomerID = "" → ∀ stored,
      mongo.findOne SystemUser.ID u.ID db.system_user = some stored →
      mongo.findOne SystemUser.ID u.ID db1.system_user =
        some { stored with StripeCustomerID := c.ID }) := by
  have hss := ((resolveCustomer_store env u db).2 c db1 calls hres).1
  refine ⟨?_, rfl, rfl, rfl, ?_⟩
  · rw [StudentSubscription_student env u req plan db hrole herr hplan, hres]
    have hfresh1 : mongo.findOne models.StudentSubscription.ID env.NewObjectID
        db1.student_subscription = none := by rw [hss]; exact hfresh
    simp [createInstance, hins, mongo.insertOne, newStudentSubscription_ID, hfresh1, hfresh,
      hsess, errorJSON, hss]
  · intro hempty stored hstored
    have hcreate := resolveCustomer_create env u db (Or.inl hempty)
    simp only [hempty, if_true, List.nil_append] at hcreate
    rw [hres] at hcreate
    cases hnew : env.customerNew u.Email u.Name with
    | error e1 => rw [hnew] at hcreate; cases hcreate
    | ok cu =>
      rw [hnew] at hcreate
      cases hupd : env.updateUserErr with
      | true => rw [hupd] at hcreate; simp at hcreate
      | false =>
        rw [hupd] at hcreate
        simp only [Bool.false_eq_true, if_false, Except.ok.injEq, Prod.mk.injEq] at hcreate
        obtain ⟨hc, hdb1, _⟩ := hcreate
        subst hc hdb1
        exact mongo.findOne_updateOne SystemUser.ID u.ID
          (fun x => { x with StripeCustomerID := c.ID }) (fun _ => rfl) db.system_user
          stored hstored

/-- Claim C28, a concrete run: the first subscribe of the student to "Gold"
with a provider whose `session.New` call fails. -/
theorem subscribe_keeps_row_when_checkout_fails_witness :
    StudentSubscription scenario.subscribeEnvSessionFails (.user scenario.student)
        (some ⟨scenario.planID⟩) scenario.db0 =
      ⟨.json 500 (.h [("error", "Failed to create Stripe checkout session")]),
       { subscription := [scenario.gold],
         student_subscription := scenario.db0.student_subscription ++
          [newStudentSubscription scenario.subscribeEnvSessionFails scenario.student
            scenario.gold],
         system_user :=
          [{ scenario.student with StripeCustomerID := "cus_new" }, scenario.manager] },
       [.customerNew "ann@example.com" "Ann"] ++
        [.sessionNew (newCheckoutParams scenario.subscribeEnvSessionFails.NewObjectID
          scenario.gold ⟨"cus_new"⟩)]⟩ :=
  (subscribe_keeps_row_when_checkout_fails scenario.subscribeEnvSessionFails
    scenario.student ⟨scenario.planID⟩ scenario.gold scenario.db0
    { subscription := [scenario.gold], student_subscription := [],
      system_user :=
        [{ scenario.student with StripeCustomerID := "cus_new" }, scenario.manager] }
    ⟨"cus_new"⟩ [.customerNew "ann@example.com" "Ann"] (.other "provider unavailable")
    (by decide) (by decide) (by decide) rfl (by decide) (by decide) rfl).1

/-- Claim C29: on a signature-valid, paid and complete "checkout completed"
event whose key parses to an instance id, handling the event a second time, in
the same environment and on the store the first handling left, leaves the
store, so the instance collection, exactly as the first handling left it, and
gives the same response. -/
theorem webhook_confirmation_idempotent (env : WebhookEnv) (req : WebhookRequest)
    (db : Store) (event : stripe.Event) (session : stripe.CheckoutSession) (K : ObjectID)
    (hread : req.readable)
    (hsig : env.ConstructEvent req.Body req.StripeSignature endpointSecret = .ok event)
    (htype : event.Type_ = "checkout.session.completed")
    (hjson : env.Unmarshal event.Raw = .ok session)
    (hpaid : session.PaymentStatus = "paid") (hcomplete : session.Status = "complete")
    (hkey : ObjectIDFromHex (stripe.mapGet session.Metadata "student_subscription_id")
      = some K) :
    (StripeWebhookHandler env req (StripeWebhookHandler env req db).store).store =
      (StripeWebhookHandler env req db).store ∧
    (StripeWebhookHandler env req
        (StripeWebhookHandler env req db).store).store.student_subscription =
      (StripeWebhookHandler env req db).store.student_subscription ∧
    (StripeWebhookHandler env req (StripeWebhookHandler env req db).store).out =
      (StripeWebhookHandler env req db).out := by
  cases hs : session.Subscription with
  | none =>
    have h := fun d => StripeWebhookHandler_no_subscription env req d event session K hread
      hsig htype hjson hpaid hcomplete hkey hs
    rw [h db, h db]
    exact ⟨rfl, rfl, rfl⟩
  | some sub =>
    have h := fun d => StripeWebhookHandler_confirm env req d event session K sub hread
      hsig htype hjson hpaid hcomplete hkey hs
    rw [h db]
    cases herr : env.updateErr with
    | true =>
      rw [if_pos rfl, h db, herr, if_pos rfl]
      exact ⟨rfl, rfl, rfl⟩
    | false =>
      rw [if_neg (by decide), h, herr, if_neg (by decide)]
      have hidem := mongo.updateOne_idem models.StudentSubscription.ID K
        (fun r => confirmed r sub.ID) (fun _ => rfl) (fun _ => rfl) db.student_subscription
      refine ⟨?_, ?_, rfl⟩
      · simp only [hidem]
      · simp only [hidem]

/-- Claim C29, a concrete run: the confirmation for instance
`000000000000000000000003` handled twice on a store with two Pending
instances. -/
theorem webhook_confirmation_idempotent_witness :
    (StripeWebhookHandler
        (scenario.webhookEnv "checkout.session.completed"
          (scenario.paidSession (scenario.metadataFor scenario.instanceID)) false)
        scenario.signedRequest
        (StripeWebhookHandler
          (scenario.webhookEnv "checkout.session.completed"
            (scenario.paidSession (scenario.metadataFor scenario.instanceID)) false)
          scenario.signedRequest scenario.dbTwoInstances).store).store.student_subscription =
      (StripeWebhookHandler
          (scenario.webhookEnv "checkout.session.completed"
            (scenario.paidSession (scenario.metadataFor scenario.instanceID)) false)
          scenario.signedRequest scenario.dbTwoInstances).store.student_subscription :=
  (webhook_confirmation_idempotent
    (scenario.webhookEnv "checkout.session.completed"
      (scenario.paidSession (scenario.metadataFor scenario.instanceID)) false)
    scenario.signedRequest scenario.dbTwoInstances
    ⟨"checkout.session.completed", "payload"⟩
    (scenario.paidSession (scenario.metadataFor scenario.instanceID)) scenario.instanceID
    (by decide) rfl (by decide) rfl (by decide) (by decide) (by decide)).2.1

/-- Claim C30, the code at a failing input: a signature-valid, paid and
complete "checkout completed" event whose key is the well-formed id
`000000000000000000000003` and whose session carries no subscription object;
reading `session.Subscription.ID` dereferences the nil pointer, and the
handler ends in a panic, with no response of its own and no write. -/
theorem webhook_nil_subscription_panics :
    scenario.signedRequest.readable ∧
    (scenario.paidSessionNoSubscription scenario.instanceID).PaymentStatus = "paid" ∧
    (scenario.paidSessionNoSubscription scenario.instanceID).Status = "complete" ∧
    ObjectIDFromHex (stripe.mapGet
        (scenario.paidSessionNoSubscription scenario.instanceID).Metadata
        "student_subscription_id") = some scenario.instanceID ∧
    (scenario.paidSessionNoSubscription scenario.instanceID).Subscription = none ∧
    StripeWebhookHandler
        (scenario.webhookEnv "checkout.session.completed"
          (scenario.paidSessionNoSubscription scenario.instanceID) false)
        scenario.signedRequest scenario.dbTwoInstances =
      ⟨.panic, scenario.dbTwoInstances, []⟩ := by
  decide

end controllers

/-! ## `PatchManager` -/

namespace controllers

open primitive models

/-- When no student document has the id of the manager, `PatchManager` never
answers 200: its last read goes to the student collection. -/
theorem PatchManager_no_student (env : ManagerEnv) (id : String) (managerID : ObjectID)
    (body : Option ManagerUpdate) (db : ManagerStore) (b : gin.Body)
    (hid : ObjectIDFromHex id = some managerID)
    (hstudent : mongo.findOne Student.ID managerID db.student = none) :
    (PatchManager env id body db).1 ≠ .json 200 b := by
  unfold PatchManager
  split
  · simp [errorJSON]
  · split
    · simp
    · simp only [hid]
      split
      · simp [errorJSON]
      · split
        · simp [errorJSON]
        · split
          · simp [errorJSON]
          · simp [hstudent, errorJSON]

/-- Claim C25, the code at a failing input: the manager
`000000000000000000000007` exists and the body `{"first_name": "Maxine"}` is
well formed; `PatchManager` applies the patch to the manager collection, then
reads the result from the student collection, where no document has that id,
and answers HTTP 500 "Failed to fetch updated manager". -/
theorem patch_manager_answers_500 :
    ObjectIDFromHex scenario.managerParam = some scenario.managerDocID ∧
    mongo.findOne Manager.ID scenario.managerDocID scenario.managerStore.manager =
      some scenario.managerDoc ∧
    PatchManager scenario.managerEnv scenario.managerParam (some scenario.patchFirstName)
        scenario.managerStore =
      (.json 500 (.h [("error", "Failed to fetch updated manager")]),
       { manager := [{ scenario.managerDoc with FirstName := "Maxine", UpdatedAt := 30 }],
         student := [] }) := by
  decide

end controllers

/-! ## `Logout` and `AuthMiddleware` -/

namespace mongo

theorem countP_updateOneWhere {α : Type} (sel : α → Bool) (change : α → α)
    (hchange : ∀ a, sel (change a) = false) (l : List α) :
    (updateOneWhere sel change l).countP sel = l.countP sel - 1 := by
  induction l with
  | nil => rfl
  | cons x xs ih =>
    by_cases hx : sel x = true
    · simp [updateOneWhere, hx, List.countP_cons, hchange]
    · have hx0 : sel x = false := by simpa using hx
      simp [updateOneWhere, hx0, List.countP_cons, ih]

theorem findOneWhere_eq_none {α : Type} (sel : α → Bool) (l : List α)
    (h : ∀ a ∈ l, sel a = false) : findOneWhere sel l = none := by
  induction l with
  | nil => rfl
  | cons x xs ih =>
    have hx : sel x = false := h x (List.mem_cons_self _ _)
    simp only [findOneWhere, hx, Bool.false_eq_true, if_false]
    exact ih (fun a ha => h a (List.mem_cons_of_mem _ ha))

end mongo

namespace auth

/-- The token of the header `Bearer T` is `T`, for a non-empty `T`. -/
theorem bearerToken_Bearer (T : String) (hT : T ≠ "") :
    bearerToken ("Bearer " ++ T) = some T := by
  have hsize : ("Bearer " ++ T).utf8ByteSize = 7 + T.utf8ByteSize := by
    rw [primitive.utf8ByteSize_append]
    rfl
  have hpos : 0 < T.utf8ByteSize := by
    rcases Nat.eq_zero_or_pos T.utf8ByteSize with h | h
    · exfalso
      apply hT
      have hd : T.data = [] := String.utf8Len_eq_zero.mp h
      cases T
      simp_all
    · exact h
  have hdata : ("Bearer " ++ T).data = "Bearer ".data ++ T.data := String.data_append _ _
  have htake : ("Bearer " ++ T).data.take 7 = "Bearer ".data := by
    rw [hdata]
    exact List.take_left' rfl
  have hdrop : ("Bearer " ++ T).data.drop 7 = T.data := by
    rw [hdata]
    exact List.drop_left' rfl
  have hlow : ToLower "Bearer ".data = "bearer ".data := by decide
  unfold bearerToken
  rw [htake, hdrop, hlow, hsize]
  simp
  omega

/-- The header `Bearer ` with nothing after it has no token. -/
theorem bearerToken_Bearer_empty : bearerToken "Bearer " = none := by decide

end auth

namespace controllers

open primitive models

/-- Claim C26: when the token `T` is stored on exactly one user and `Logout`
with the header `Bearer T` answers 200 "Logout successful", no user record of
the store it leaves holds `T`; and on that store `AuthMiddleware`, for every
path that requires authentication and whatever the token verification says,
answers a request carrying `Bearer T` with HTTP 401 and aborts, so the handler
is not run. -/
theorem logout_invalidates_token (env : LogoutEnv) (T : String) (users : List SystemUser)
    (hone : users.countP (fun u => u.Token = T) = 1)
    (hok : (Logout env ("Bearer " ++ T) users).1 =
      .json 200 (.h [("message", "Logout successful")])) :
    (∀ u ∈ (Logout env ("Bearer " ++ T) users).2, u.Token ≠ T) ∧
    (∀ (menv : middleware.AuthEnv) (path : String), middleware.requiresAuth path = true →
      middleware.AuthMiddleware menv path ("Bearer " ++ T)
          (Logout env ("Bearer " ++ T) users).2 =
        .abort 401 (.h [("error", "Invalid token")])) := by
  have hhead : ("Bearer " ++ T) ≠ "" := by
    intro h
    have hd := congrArg String.data h
    rw [String.data_append] at hd
    exact absurd hd (by simp [String.data])
  have hT : T ≠ "" := by
    intro h
    subst h
    have happ : ("Bearer " ++ "" : String) = "Bearer " := by decide
    rw [happ] at hok
    simp [Logout, auth.bearerToken_Bearer_empty, errorJSON] at hok
  have hbear := auth.bearerToken_Bearer T hT
  have hrun : (Logout env ("Bearer " ++ T) users).2 =
      mongo.updateOneWhere (fun u => u.Token = T) (fun u => { u with Token := "" }) users := by
    cases hf : env.findErr with
    | true => simp [Logout, hhead, hbear, hf, errorJSON] at hok
    | false =>
      cases hfind : mongo.findOneWhere (fun u => decide (u.Token = T)) users with
      | none => simp [Logout, hhead, hbear, hf, hfind, errorJSON] at hok
      | some found =>
        cases hu : env.updateErr with
        | true => simp [Logout, hhead, hbear, hf, hfind, hu, errorJSON] at hok
        | false => simp [Logout, hhead, hbear, hf, hfind, hu]
  have hchange : ∀ a : SystemUser,
      (fun u : SystemUser => decide (u.Token = T)) ({ a with Token := "" }) = false := by
    intro a
    simp only [decide_eq_false_iff_not]
    intro h
    exact hT h.symm
  have hcount := mongo.countP_updateOneWhere (fun u : SystemUser => decide (u.Token = T))
    (fun u => { u with Token := "" }) hchange users
  rw [hone] at hcount
  have hnone : ∀ u ∈ mongo.updateOneWhere (fun u : SystemUser => decide (u.Token = T))
      (fun u => { u with Token := "" }) users, u.Token ≠ T := by
    intro u hu
    have h0 := List.countP_eq_zero.mp hcount u hu
    simpa using h0
  rw [hrun]
  refine ⟨hnone, ?_⟩
  intro menv path hpath
  have hfind := mongo.findOneWhere_eq_none (fun u : SystemUser => decide (u.Token = T)) _
    (fun a ha => by simpa using hnone a ha)
  cases hv : menv.VerifyJWTToken T with
  | false => simp [middleware.AuthMiddleware, hpath, hhead, hbear, hv]
  | true =>
    cases hf : menv.findErr <;>
      simp [middleware.AuthMiddleware, hpath, hhead, hbear, hv, hf, hfind]

/-- Claim C26, a concrete run: Ann logs out with `Bearer tok-ann`; a later
request to `/subscriptions/` with that header is aborted with 401. -/
theorem logout_invalidates_token_witness :
    middleware.AuthMiddleware scenario.authEnv "/subscriptions/" ("Bearer " ++ "tok-ann")
        (Logout scenario.logoutEnv ("Bearer " ++ "tok-ann") scenario.db0.system_user).2 =
      .abort 401 (.h [("error", "Invalid token")]) :=
  (logout_invalidates_token scenario.logoutEnv "tok-ann" scenario.db0.system_user
    (by decide) (by decide)).2 scenario.authEnv "/subscriptions/" (by decide)

end controllers

/-! ## `AllowedFileExtension` -/

namespace utils

theorem extAux_no_dot (l acc : List Char) (h : Char.ofNat 46 ∉ l) : extAux l acc = [] := by
  induction l generalizing acc with
  | nil => rfl
  | cons c rest ih =>
    have hc : c ≠ Char.ofNat 46 := fun hc => h (hc ▸ List.mem_cons_self _ _)
    have hrest : Char.ofNat 46 ∉ rest := fun hr => h (List.mem_cons_of_mem _ hr)
    have hstep : extAux (c :: rest) acc =
        (if c = Char.ofNat 47 then [] else if c = Char.ofNat 46 then Char.ofNat 46 :: acc
          else extAux rest (c :: acc)) := rfl
    rw [hstep, if_neg hc]
    split
    · rfl
    · exact ih _ hrest

theorem extAux_extension (l rest acc : List Char)
    (h : ∀ c ∈ l, c ≠ Char.ofNat 46 ∧ c ≠ Char.ofNat 47) :
    extAux (l ++ Char.ofNat 46 :: rest) acc = Char.ofNat 46 :: (l.reverse ++ acc) := by
  induction l generalizing acc with
  | nil =>
    have h47 : Char.ofNat 46 ≠ Char.ofNat 47 := by decide
    simp [extAux, h47]
  | cons c l ih =>
    have hc := h c (List.mem_cons_self _ _)
    have hl : ∀ d ∈ l, d ≠ Char.ofNat 46 ∧ d ≠ Char.ofNat 47 :=
      fun d hd => h d (List.mem_cons_of_mem _ hd)
    have hstep : extAux (c :: l ++ Char.ofNat 46 :: rest) acc =
        extAux (l ++ Char.ofNat 46 :: rest) (c :: acc) := by
      show (if c = Char.ofNat 47 then [] else if c = Char.ofNat 46 then Char.ofNat 46 :: acc
        else extAux (l ++ Char.ofNat 46 :: rest) (c :: acc)) = _
      rw [if_neg hc.2, if_neg hc.1]
    rw [hstep, ih _ hl]
    simp

/-- The extension of `stem.ext`, for an `ext` without dot and separator, is
`.ext`. -/
theorem Ext_of_stem_ext (stem ext : String)
    (h : ∀ c ∈ ext.data, c ≠ Char.ofNat 46 ∧ c ≠ Char.ofNat 47) :
    (Ext (stem ++ "." ++ ext)).data = Char.ofNat 46 :: ext.data := by
  have hdata : (stem ++ "." ++ ext).data = stem.data ++ Char.ofNat 46 :: ext.data := by
    rw [String.data_append, String.data_append]
    simp [String.data]
  have hrev : ∀ c ∈ ext.data.reverse, c ≠ Char.ofNat 46 ∧ c ≠ Char.ofNat 47 :=
    fun c hc => h c (List.mem_reverse.mp hc)
  unfold Ext
  simp only [hdata, List.reverse_append, List.reverse_cons, List.append_assoc,
    List.singleton_append]
  rw [extAux_extension _ _ _ hrev]
  simp

/-- A string that starts with a dot equals the dotted `s` exactly when its
rest equals `s`. -/
theorem dot_cons_eq (l : List Char) (s : String) :
    (⟨Char.ofNat 46 :: l⟩ : String) = "." ++ s ↔ (⟨l⟩ : String) = s := by
  have hdata : ("." ++ s).data = Char.ofNat 46 :: s.data := by
    rw [String.data_append]
    rfl
  constructor
  · intro h
    have hd := congrArg String.data h
    rw [hdata] at hd
    exact String.ext (List.cons.inj hd).2
  · intro h
    apply String.ext
    rw [hdata, ← h]

/-- The lower-cased extension of `stem.ext`, for an `ext` without dot and
separator, is the dot followed by the lower-cased `ext`. -/
theorem ToLower_Ext_of_stem_ext (stem ext : String)
    (h : ∀ c ∈ ext.data, c ≠ Char.ofNat 46 ∧ c ≠ Char.ofNat 47) :
    auth.ToLower (Ext (stem ++ "." ++ ext)).data = Char.ofNat 46 :: auth.ToLower ext.data := by
  rw [Ext_of_stem_ext stem ext h]
  have hdot : Char.toLower (Char.ofNat 46) = Char.ofNat 46 := by decide
  simp only [auth.ToLower, List.map_cons, hdot]

/-- Claim C27: `AllowedFileExtension` is true exactly when the file type is
"image" and the lower-cased extension of the file name is `.jpg`, `.jpeg` or
`.png`, or the file type is "pdf" and the lower-cased extension is `.pdf` or
`.doc`. For a file name `stem.ext`, where `ext` has no dot and no separator,
that is: the file type is "image" and `ext` lower-cased is `jpg`, `jpeg` or
`png`, or the file type is "pdf" and `ext` lower-cased is `pdf` or `doc`. It is
false for every other file type and for a file name without a dot; two file
names whose extensions are equal up to letter case get the same result; and
`photo.jpg`, `cover.JPG`, `scan.Jpeg`, `logo.png` and `archive.tar.PNG` are
accepted as "image", `book.pdf`, `notes.DOC` as "pdf", while `book.pdf` is not
an "image", `photo.jpg` is not a "pdf", `photo.jpg.exe` and `photo` are not
images and `photo.jpg` is nothing of the file type "video". -/
theorem AllowedFileExtension_characterised :
    (∀ filename fileType : String,
      AllowedFileExtension filename fileType = true ↔
        (fileType = "image" ∧
          (⟨auth.ToLower (Ext filename).data⟩ : String) ∈ [".jpg", ".jpeg", ".png"]) ∨
        (fileType = "pdf" ∧
          (⟨auth.ToLower (Ext filename).data⟩ : String) ∈ [".pdf", ".doc"])) ∧
    (∀ stem ext fileType : String,
      (∀ c ∈ ext.data, c ≠ Char.ofNat 46 ∧ c ≠ Char.ofNat 47) →
      (AllowedFileExtension (stem ++ "." ++ ext) fileType = true ↔
        (fileType = "image" ∧
          (⟨auth.ToLower ext.data⟩ : String) ∈ ["jpg", "jpeg", "png"]) ∨
        (fileType = "pdf" ∧
          (⟨auth.ToLower ext.data⟩ : String) ∈ ["pdf", "doc"]))) ∧
    (∀ filename fileType : String, fileType ≠ "image" → fileType ≠ "pdf" →
      AllowedFileExtension filename fileType = false) ∧
    (∀ filename fileType : String, Char.ofNat 46 ∉ filename.data →
      AllowedFileExtension filename fileType = false) ∧
    (∀ stem1 stem2 ext1 ext2 fileType : String,
      (∀ c ∈ ext1.data, c ≠ Char.ofNat 46 ∧ c ≠ Char.ofNat 47) →
      (∀ c ∈ ext2.data, c ≠ Char.ofNat 46 ∧ c ≠ Char.ofNat 47) →
      auth.ToLower ext1.data = auth.ToLower ext2.data →
      AllowedFileExtension (stem1 ++ "." ++ ext1) fileType =
        AllowedFileExtension (stem2 ++ "." ++ ext2) fileType) ∧
    (AllowedFileExtension "photo.jpg" "image" = true ∧
      AllowedFileExtension "cover.JPG" "image" = true ∧
      AllowedFileExtension "scan.Jpeg" "image" = true ∧
      AllowedFileExtension "logo.png" "image" = true ∧
      AllowedFileExtension "archive.tar.PNG" "image" = true ∧
      AllowedFileExtension "book.pdf" "pdf" = true ∧
      AllowedFileExtension "notes.DOC" "pdf" = true ∧
      AllowedFileExtension "book.pdf" "image" = false ∧
      AllowedFileExtension "photo.jpg" "pdf" = false ∧
      AllowedFileExtension "photo.jpg.exe" "image" = false ∧
      AllowedFileExtension "photo" "image" = false ∧
      AllowedFileExtension "photo.jpg" "video" = false) := by
  refine ⟨?_, ?_, ?_, ?_, ?_, ?_⟩
  · intro filename fileType
    unfold AllowedFileExtension
    by_cases h1 : fileType = "image"
    · have h2 : ("image" : String) ≠ "pdf" := by decide
      simp [h1, h2]
    · by_cases h2 : fileType = "pdf"
      · have h3 : ("pdf" : String) ≠ "image" := by decide
        simp [h2, h3]
      · simp [h1, h2]
  · intro stem ext fileType h
    have hlower := ToLower_Ext_of_stem_ext stem ext h
    have hjpg := dot_cons_eq (auth.ToLower ext.data) "jpg"
    have hjpeg := dot_cons_eq (auth.ToLower ext.data) "jpeg"
    have hpng := dot_cons_eq (auth.ToLower ext.data) "png"
    have hpdf := dot_cons_eq (auth.ToLower ext.data) "pdf"
    have hdoc := dot_cons_eq (auth.ToLower ext.data) "doc"
    have ejpg : ("." ++ "jpg" : String) = ".jpg" := by decide
    have ejpeg : ("." ++ "jpeg" : String) = ".jpeg" := by decide
    have epng : ("." ++ "png" : String) = ".png" := by decide
    have epdf : ("." ++ "pdf" : String) = ".pdf" := by decide
    have edoc : ("." ++ "doc" : String) = ".doc" := by decide
    rw [ejpg] at hjpg
    rw [ejpeg] at hjpeg
    rw [epng] at hpng
    rw [epdf] at hpdf
    rw [edoc] at hdoc
    unfold AllowedFileExtension
    simp only [hlower]
    by_cases h1 : fileType = "image"
    · have h2 : ("image" : String) ≠ "pdf" := by decide
      simp [h1, h2, hjpg, hjpeg, hpng]
    · by_cases h2 : fileType = "pdf"
      · have h3 : ("pdf" : String) ≠ "image" := by decide
        simp [h2, h3, hpdf, hdoc]
      · simp [h1, h2]
  · intro filename fileType h1 h2
    simp [AllowedFileExtension, h1, h2]
  · intro filename fileType hdot
    have hrev : Char.ofNat 46 ∉ filename.data.reverse :=
      fun h => hdot (List.mem_reverse.mp h)
    have hext : Ext filename = "" := by
      unfold Ext
      rw [extAux_no_dot _ _ hrev]
    unfold AllowedFileExtension
    simp only [hext]
    split
    · decide
    · split
      · decide
      · rfl
  · intro stem1 stem2 ext1 ext2 fileType h1 h2 hlow
    have hlower : auth.ToLower (Ext (stem1 ++ "." ++ ext1)).data =
        auth.ToLower (Ext (stem2 ++ "." ++ ext2)).data := by
      rw [Ext_of_stem_ext stem1 ext1 h1, Ext_of_stem_ext stem2 ext2 h2]
      simp only [auth.ToLower, List.map_cons] at hlow ⊢
      rw [hlow]
    unfold AllowedFileExtension
    simp only [hlower]
  · exact ⟨by decide, by decide, by decide, by decide, by decide, by decide, by decide,
      by decide, by decide, by decide, by decide, by decide⟩

/-- Claim C27, concrete runs: `cover.JPG` is accepted as "image" and
`notes.DOC` as "pdf", `cover.JPG` is not accepted as "pdf", and `cover.JPG` and
`photo.jpg` get the same answer for the file type "image". -/
theorem AllowedFileExtension_characterised_witness :
    AllowedFileExtension ("cover" ++ "." ++ "JPG") "image" = true ∧
    AllowedFileExtension ("notes" ++ "." ++ "DOC") "pdf" = true ∧
    AllowedFileExtension ("cover" ++ "." ++ "JPG") "pdf" = false ∧
    AllowedFileExtension ("cover" ++ "." ++ "JPG") "image" =
      AllowedFileExtension ("photo" ++ "." ++ "jpg") "image" :=
  ⟨(AllowedFileExtension_characterised.2.1 "cover" "JPG" "image" (by decide)).mpr
      (Or.inl ⟨rfl, by decide⟩),
    (AllowedFileExtension_characterised.2.1 "notes" "DOC" "pdf" (by decide)).mpr
      (Or.inr ⟨rfl, by decide⟩),
    Bool.eq_false_iff.mpr (fun h =>
      absurd ((AllowedFileExtension_characterised.2.1 "cover" "JPG" "pdf" (by decide)).mp h)
        (by decide)),
    AllowedFileExtension_characterised.2.2.2.2.1 "cover" "photo" "JPG" "jpg" "image"
      (by decide) (by decide) (by decide)⟩

end utils

end LibraryManagement
